import Mathlib

/-!
# Constant-expression checking of the Go expression evaluator

A shallow embedding of `consttype.go` and `checkbinaryexpr.go`.

Conventions of the embedding.

* A Go panic is `Except.error msg`; a normal return is `Except.ok`.
* A Go `[]error` is a `List Error`.  Every error slice built by these files is
  `nil` exactly when it is empty, so the tests `errs != nil` are tests for a
  non-empty list.
* `at(ctx, e)` is the source position of the node `e`, a natural number.
* The arbitrary-precision numeric kernel (`ConstNumber` arithmetic and its
  fixed-width conversions) is not part of the files embedded here.  It is a
  parameter `K : Kernel` of every function that reaches it; `specKernel` is the
  instance described by the specification.
-/

namespace Eval

/-- A computation that may panic. -/
abbrev Panics := Except String

/-! ## Constant kinds (`consttype.go`) -/

/-- The seven untyped constant kinds: `ConstIntType`, `ConstRuneType`, ... -/
inductive ConstType
  | ConstInt
  | ConstRune
  | ConstFloat
  | ConstComplex
  | ConstString
  | ConstNil
  | ConstBool
  deriving DecidableEq

namespace ConstType

/-- Method `IsIntegral` of each constant kind. -/
def IsIntegral : ConstType → Bool
  | ConstInt => true
  | ConstRune => true
  | ConstFloat => false
  | ConstComplex => false
  | ConstString => false
  | ConstNil => false
  | ConstBool => false

/-- Method `IsReal` of each constant kind. -/
def IsReal : ConstType → Bool
  | ConstInt => true
  | ConstRune => true
  | ConstFloat => true
  | ConstComplex => false
  | ConstString => false
  | ConstNil => false
  | ConstBool => false

/-- The kinds matched by `case ConstIntType, ConstRuneType, ConstFloatType, ConstComplexType`. -/
def isNumeric : ConstType → Bool
  | ConstInt => true
  | ConstRune => true
  | ConstFloat => true
  | ConstComplex => true
  | _ => false

/-- Position of a numeric kind in the order Int < Rune < Float < Complex. -/
def rank : ConstType → Nat
  | ConstInt => 0
  | ConstRune => 1
  | ConstFloat => 2
  | ConstComplex => 3
  | _ => 4

end ConstType

/-! ## The part of `reflect` and `go/token` the checker uses -/

/-- The kinds of `reflect.Kind`. -/
inductive Kind
  | Invalid | Bool
  | Int | Int8 | Int16 | Int32 | Int64
  | Uint | Uint8 | Uint16 | Uint32 | Uint64 | Uintptr
  | Float32 | Float64 | Complex64 | Complex128
  | Array | Chan | Func | Interface | Map | Ptr | Slice | String | Struct | UnsafePointer
  deriving DecidableEq

/-- A concrete `reflect.Type`: its name, as `Type.String()` prints it, and its kind. -/
structure RType where
  name : String
  kind : Kind
  deriving DecidableEq

/-- Size in bits of `int` and `uint` (a 64-bit platform). -/
def intSize : Nat := 64

/-- The method `reflect.Type.Bits`: it panics on a kind that is not a sized numeric kind. -/
def RType.Bits (t : RType) : Panics Nat :=
  match t.kind with
  | .Int | .Uint | .Uintptr => pure intSize
  | .Int8 | .Uint8 => pure 8
  | .Int16 | .Uint16 => pure 16
  | .Int32 | .Uint32 | .Float32 => pure 32
  | .Int64 | .Uint64 | .Float64 | .Complex64 => pure 64
  | .Complex128 => pure 128
  | _ => throw "reflect: Bits of non-arithmetic Type"

/-- An element of a known-type sequence: a `reflect.Type` value that is either one of
the constant kinds (an untyped constant) or a concrete type. -/
inductive KType
  | const (c : ConstType)
  | rtype (t : RType)
  deriving DecidableEq

/-- The binary operator tokens of `go/token`. -/
inductive Token
  | ADD | SUB | MUL | QUO | REM
  | AND | OR | XOR | SHL | SHR | AND_NOT
  | LAND | LOR
  | EQL | LSS | GTR | NEQ | LEQ | GEQ
  deriving DecidableEq

/-! ## Constant numbers and values -/

/-- The exact value of a numeric constant: a rational real part and a rational
imaginary part (`x.Value.Re`, `x.Value.Im`). -/
structure BigComplex where
  Re : ℚ
  Im : ℚ
  deriving DecidableEq

/-- A `ConstNumber`: the exact value and the kind it currently represents
(`x.Type`, written `Typ`, and `x.Value`). -/
structure ConstNumber where
  Typ : ConstType
  Value : BigComplex
  deriving DecidableEq

/-- Modelled from the spec: `BigComplex.IsZero` is not under src; a constant is zero
when its value is exactly zero. -/
def BigComplex.IsZero (z : BigComplex) : Bool :=
  decide (z.Re = 0) && decide (z.Im = 0)

/-- Modelled from the spec: `BigComplex.Equals` is not under src; equality "compares
full (real, imaginary) value". -/
def BigComplex.Equals (x y : BigComplex) : Bool :=
  decide (x.Re = y.Re) && decide (x.Im = y.Im)

/-- The method `big.Rat.Cmp`: -1, 0 or +1. -/
def ratCmp (x y : ℚ) : Int :=
  if x < y then -1 else if x = y then 0 else 1

/-- A `reflect.Value` (and so a `constValue`, which is a `reflect.Value` under another name).
A floating-point payload is the rational number the float denotes. -/
inductive Value
  /-- The zero `reflect.Value`, as in `constValue{}`. -/
  | invalid
  /-- A value holding a `*ConstNumber`. -/
  | constNumber (n : ConstNumber)
  /-- A value of a signed integer kind. -/
  | int (typ : RType) (i : Int)
  /-- A value of an unsigned integer kind. -/
  | uint (typ : RType) (u : Nat)
  /-- A value of a float kind. -/
  | float (typ : RType) (f : ℚ)
  /-- A value of a complex kind. -/
  | complex (typ : RType) (re : ℚ) (im : ℚ)
  /-- A value of kind string. -/
  | str (typ : RType) (s : String)
  /-- A value of kind bool. -/
  | bool (typ : RType) (b : Bool)
  /-- The zero value of a type of any other kind (nil for chan, func, interface, map,
  pointer and slice types). -/
  | zero (typ : RType)
  /-- The result of `reflect.ValueOf` applied to a `constValue` struct. -/
  | constValue (v : Value)
  deriving DecidableEq

/-- The type `string`, `reflect.TypeOf("")`. -/
def stringType : RType := ⟨"string", .String⟩

/-- The type `bool`, `reflect.TypeOf(false)`. -/
def boolType : RType := ⟨"bool", .Bool⟩

/-- The type `*ConstNumber`. -/
def constNumberPtrType : RType := ⟨"*interactive.ConstNumber", .Ptr⟩

/-- The struct type `constValue`. -/
def constValueType : RType := ⟨"interactive.constValue", .Struct⟩

/-- The method `reflect.Value.Type`; it panics on the zero Value. -/
def Value.Typ : Value → Panics RType
  | .invalid => throw "reflect: call of reflect.Value.Type on zero Value"
  | .constNumber _ => pure constNumberPtrType
  | .int t _ => pure t
  | .uint t _ => pure t
  | .float t _ => pure t
  | .complex t _ _ => pure t
  | .str t _ => pure t
  | .bool t _ => pure t
  | .zero t => pure t
  | .constValue _ => pure constValueType

/-- The expression `v.Interface().(*ConstNumber)`: it panics unless `v` holds a `*ConstNumber`. -/
def Value.asConstNumber : Value → Panics ConstNumber
  | .constNumber n => pure n
  | .invalid => throw "reflect: call of reflect.Value.Interface on zero Value"
  | _ => throw "interface conversion: interface is not *ConstNumber"

/-! ## Errors and checked expressions -/

/-- The errors of the checker.  The first field of each is the position `at(ctx, e)`. -/
inductive Error
  /-- The literal `ErrInvalidBinaryOperation{at}`. -/
  | ErrInvalidBinaryOperation (pos : Nat)
  /-- The literal `ErrDivideByZero{at}`. -/
  | ErrDivideByZero (pos : Nat)
  /-- The literal `ErrBadConversion{at, from, to, v}`. -/
  | ErrBadConversion (pos : Nat) (src : ConstType) (dst : KType) (v : Value)
  /-- The literal `ErrTruncatedConstant{at, to, constant}`. -/
  | ErrTruncatedConstant (pos : Nat) (dst : ConstType) (constant : ConstNumber)
  /-- The literal `ErrOverflowedConstant{at, from, to, constant}`. -/
  | ErrOverflowedConstant (pos : Nat) (src : ConstType) (dst : RType) (constant : BigComplex)
  /-- Any other error, produced by the checker of an operand. -/
  | other (msg : String)
  deriving DecidableEq

/-- What the checker reads of a checked operand (the interface `Expr`): its position and
the results of `KnownType()`, `IsConst()` and `Const()`. -/
structure Expr where
  pos : Nat
  KnownType : List KType
  IsConst : Bool
  Const : Value
  deriving DecidableEq

/-- The node `ast.BinaryExpr` with operands of type `α`. -/
structure BinaryAst (α : Type) where
  pos : Nat
  Op : Token
  X : α
  Y : α

/-- The checked node `BinaryExpr`: the operator, the checked operands, and the fields
`knownType` and `constValue`, which are unset (`nil`, zero Value) until assigned. -/
structure BinaryExpr where
  pos : Nat
  Op : Token
  X : Expr
  Y : Expr
  knownType : List KType
  constValue : Value
  deriving DecidableEq

/-! ## The numeric kernel -/

/-- A Go `int64`. -/
abbrev int64 := Int

/-- A Go `uint64`. -/
abbrev uint64 := Nat

/-- A Go `float64`, as the rational number it denotes. -/
abbrev float64 := ℚ

/-- The operations of the numeric kernel used by the checker, which are not under src:
the arithmetic of `ConstNumber`, the conversions of `BigComplex` to fixed-width forms
(each with its truncation and overflow flags, in this order), and the rounding of a
`float64` to `float32` done when a float32 or complex64 value is set. -/
structure Kernel where
  Add : ConstNumber → ConstNumber → ConstNumber
  Sub : ConstNumber → ConstNumber → ConstNumber
  Mul : ConstNumber → ConstNumber → ConstNumber
  Quo : ConstNumber → ConstNumber → ConstNumber
  Rem : ConstNumber → ConstNumber → ConstNumber
  And : ConstNumber → ConstNumber → ConstNumber
  Or : ConstNumber → ConstNumber → ConstNumber
  Xor : ConstNumber → ConstNumber → ConstNumber
  AndNot : ConstNumber → ConstNumber → ConstNumber
  Uint : BigComplex → Nat → uint64 × Bool × Bool
  Float64 : BigComplex → float64 × Bool × Bool
  Complex128 : BigComplex → (float64 × float64) × Bool
  Integer : BigComplex → BigComplex × Bool
  float32 : float64 → float64
  Int : BigComplex → Nat → int64 × Bool × Bool

/-! ## Setting a value (`reflect`) -/

/-- The value an `intN` variable holds after the assignment of the `int64` `i`: the
low `bits` bits of `i`, read as a signed number. -/
def wrapInt (bits : Nat) (i : Int) : Int :=
  (i + 2 ^ (bits - 1)) % 2 ^ bits - 2 ^ (bits - 1)

/-- The value a `uintN` variable holds after the assignment of the `uint64` `u`. -/
def wrapUint (bits : Nat) (u : Nat) : Nat :=
  u % 2 ^ bits

/-- The expression `reflect.New(to).Elem()`: the zero value of the type `dst`. -/
def Value.zeroOf (dst : RType) : Value :=
  match dst.kind with
  | .Int | .Int8 | .Int16 | .Int32 | .Int64 => .int dst 0
  | .Uint | .Uint8 | .Uint16 | .Uint32 | .Uint64 | .Uintptr => .uint dst 0
  | .Float32 | .Float64 => .float dst 0
  | .Complex64 | .Complex128 => .complex dst 0 0
  | .String => .str dst ""
  | .Bool => .bool dst false
  | _ => .zero dst

/-- The method `reflect.Value.SetInt`: it panics unless the value is of a signed integer kind. -/
def Value.SetInt (v : Value) (i : int64) : Panics Value :=
  match v with
  | .int t _ => do
    let bits ← t.Bits
    pure (.int t (wrapInt bits i))
  | _ => throw "reflect: call of reflect.Value.SetInt on non-int Value"

/-- The method `reflect.Value.SetUint`: it panics unless the value is of an unsigned integer kind. -/
def Value.SetUint (v : Value) (u : uint64) : Panics Value :=
  match v with
  | .uint t _ => do
    let bits ← t.Bits
    pure (.uint t (wrapUint bits u))
  | _ => throw "reflect: call of reflect.Value.SetUint on non-uint Value"

/-- The method `reflect.Value.SetFloat`: a float32 value stores the rounded number. -/
def Value.SetFloat (K : Kernel) (v : Value) (f : float64) : Panics Value :=
  match v with
  | .float t _ => pure (.float t (if t.kind = .Float32 then K.float32 f else f))
  | _ => throw "reflect: call of reflect.Value.SetFloat on non-float Value"

/-- The method `reflect.Value.SetComplex`: a complex64 value stores the rounded parts. -/
def Value.SetComplex (K : Kernel) (v : Value) (c : float64 × float64) : Panics Value :=
  match v with
  | .complex t _ _ =>
    if t.kind = .Complex64 then pure (.complex t (K.float32 c.1) (K.float32 c.2))
    else pure (.complex t c.1 c.2)
  | _ => throw "reflect: call of reflect.Value.SetComplex on non-complex Value"

/-- The method `reflect.Value.SetString`: it panics unless the value is of kind string. -/
def Value.SetString (v : Value) (s : String) : Panics Value :=
  match v with
  | .str t _ => pure (.str t s)
  | _ => throw "reflect: call of reflect.Value.SetString on non-string Value"

/-- The method `reflect.Value.SetBool`: it panics unless the value is of kind bool. -/
def Value.SetBool (v : Value) (b : Bool) : Panics Value :=
  match v with
  | .bool t _ => pure (.bool t b)
  | _ => throw "reflect: call of reflect.Value.SetBool on non-bool Value"

/-- The method `reflect.Value.String`: it does not panic on a value that is not a string. -/
def Value.String : Value → String
  | .str _ s => s
  | .invalid => "<invalid Value>"
  | .constNumber _ => "<" ++ constNumberPtrType.name ++ " Value>"
  | .int t _ => "<" ++ t.name ++ " Value>"
  | .uint t _ => "<" ++ t.name ++ " Value>"
  | .float t _ => "<" ++ t.name ++ " Value>"
  | .complex t _ _ => "<" ++ t.name ++ " Value>"
  | .bool t _ => "<" ++ t.name ++ " Value>"
  | .zero t => "<" ++ t.name ++ " Value>"
  | .constValue _ => "<" ++ constValueType.name ++ " Value>"

/-- The method `reflect.Value.Bool`: it panics on a value that is not of kind bool. -/
def Value.Bool : Value → Panics Bool
  | .bool _ b => pure b
  | _ => throw "reflect: call of reflect.Value.Bool on non-bool Value"

/-! ## `consttype.go` -/

/-- The function `promoteConstNumbers`: "Can't fail, but panics if x or y are not
Const(Int|Rune|Float|Complex)Type". -/
def promoteConstNumbers (x y : ConstType) : Panics ConstType :=
  match x with
  | .ConstInt =>
    match y with
    | .ConstInt => pure x
    | .ConstRune | .ConstFloat | .ConstComplex => pure y
    | _ => throw "go-interactive: promoteConstNumbers called with non-numbers"
  | .ConstRune =>
    match y with
    | .ConstInt | .ConstRune => pure x
    | .ConstFloat | .ConstComplex => pure y
    | _ => throw "go-interactive: promoteConstNumbers called with non-numbers"
  | .ConstFloat =>
    match y with
    | .ConstInt | .ConstRune | .ConstFloat => pure x
    | .ConstComplex => pure y
    | _ => throw "go-interactive: promoteConstNumbers called with non-numbers"
  | .ConstComplex =>
    match y with
    | .ConstInt | .ConstRune | .ConstFloat | .ConstComplex => pure x
    | _ => throw "go-interactive: promoteConstNumbers called with non-numbers"
  | _ => throw "go-interactive: promoteConstNumbers called with non-numbers"

/-- The function `promoteConsts`.  It returns the promoted kind (`none` for the nil
`ConstType`) and the errors.  Every error is placed at `yexpr`.  The calls of `print`
in the nil branch write to standard error and are left out. -/
def promoteConsts (x y : ConstType) (xexpr yexpr : Expr) (xval yval : Value) :
    Panics (Option ConstType × List Error) :=
  let _ := xexpr
  match x with
  | .ConstInt | .ConstRune | .ConstFloat | .ConstComplex =>
    match y with
    | .ConstInt | .ConstRune | .ConstFloat | .ConstComplex => do
      let p ← promoteConstNumbers x y
      pure (some p, [])
    | _ => pure (none, [.ErrBadConversion yexpr.pos y (.const x) yval])
  | .ConstString =>
    match y with
    | .ConstString => pure (some x, [])
    | .ConstInt | .ConstRune | .ConstFloat | .ConstComplex =>
      pure (none, [.ErrBadConversion yexpr.pos x (.const y) xval])
    | _ =>
      pure (none, [.ErrBadConversion yexpr.pos x (.const .ConstInt) xval,
                   .ErrBadConversion yexpr.pos y (.const .ConstInt) yval])
  | .ConstNil =>
    match y with
    | .ConstNil => pure (some x, [])
    | .ConstInt | .ConstRune | .ConstFloat | .ConstComplex =>
      pure (none, [.ErrBadConversion yexpr.pos x (.const y) xval])
    | .ConstBool => pure (none, [.ErrBadConversion yexpr.pos x (.const .ConstInt) xval])
    | _ =>
      pure (none, [.ErrBadConversion yexpr.pos x (.const .ConstInt) xval,
                   .ErrBadConversion yexpr.pos y (.const .ConstInt) yval])
  | .ConstBool =>
    match y with
    | .ConstBool => pure (some x, [])
    | .ConstInt | .ConstRune | .ConstFloat | .ConstComplex =>
      pure (none, [.ErrBadConversion yexpr.pos x (.const y) xval])
    | .ConstNil => pure (none, [.ErrBadConversion yexpr.pos y (.const x) yval])
    | _ =>
      pure (none, [.ErrBadConversion yexpr.pos x (.const .ConstInt) xval,
                   .ErrBadConversion yexpr.pos y (.const .ConstInt) yval])

/-- The function `convertConstToTyped`.  `dst` is the parameter `to` and `expr` is the position of
the node the errors are placed at.  A branch of the outer switch that does not return reaches the
final `return v, []error{ErrBadConversion{...}}`. -/
def convertConstToTyped (K : Kernel) (src : ConstType) (c : Value) (dst : RType) (expr : Nat) :
    Panics (Value × List Error) :=
  let v := Value.zeroOf dst
  let bad : List Error := [.ErrBadConversion expr src (.rtype dst) c]
  match src with
  | .ConstInt | .ConstRune | .ConstFloat | .ConstComplex => do
    let underlying ← c.asConstNumber
    match dst.kind with
    | .Int | .Int8 | .Int16 | .Int32 | .Int64 => do
      let errs : List Error := []
      let bits ← dst.Bits
      let (i, truncation, overflow) := K.Int underlying.Value bits
      let errs := if truncation then errs ++ [.ErrTruncatedConstant expr .ConstInt underlying]
        else errs
      let errs := if overflow then
          errs ++ [.ErrOverflowedConstant expr src dst (K.Integer underlying.Value).1]
        else errs
      let v ← v.SetInt i
      pure (v, errs)
    | .Uint | .Uint8 | .Uint16 | .Uint32 | .Uint64 => do
      let errs : List Error := []
      let bits ← dst.Bits
      let (u, truncation, overflow) := K.Uint underlying.Value bits
      let errs := if truncation then errs ++ [.ErrTruncatedConstant expr .ConstInt underlying]
        else errs
      let errs := if overflow then
          errs ++ [.ErrOverflowedConstant expr src dst (K.Integer underlying.Value).1]
        else errs
      let v ← v.SetUint u
      pure (v, errs)
    | .Float32 | .Float64 => do
      let errs : List Error := []
      let (f, truncation, _) := K.Float64 underlying.Value
      let errs := if truncation then errs ++ [.ErrTruncatedConstant expr .ConstFloat underlying]
        else errs
      let v ← v.SetFloat K f
      pure (v, errs)
    | .Complex64 | .Complex128 => do
      let (cmplx, _) := K.Complex128 underlying.Value
      let v ← v.SetComplex K cmplx
      pure (v, [])
    | _ => pure (v, bad)
  | .ConstString => do
    let t ← v.Typ
    if t.kind ≠ .String then
      throw "go-interactive: string constant has wrong underlying type"
    let v ← v.SetString c.String
    pure (v, bad)
  | .ConstBool => do
    let b ← c.Bool
    let v ← v.SetBool b
    pure (v, bad)
  | .ConstNil =>
    match dst.kind with
    | .Chan | .Func | .Interface | .Map | .Ptr | .Slice => pure (v, [])
    | _ => pure (v, bad)

/-! ## Helpers of `checkbinaryexpr.go` that are not under src -/

/-- Modelled from the spec: `constValueOf` is not under src; applied to a
`*ConstNumber` it gives the value holding that number. -/
def constValueOfNumber (n : ConstNumber) : Value := .constNumber n

/-- Modelled from the spec: `constValueOf` is not under src; applied to a Go string it
gives a value of type `string`. -/
def constValueOfString (s : String) : Value := .str stringType s

/-- Modelled from the spec: `constValueOf` is not under src; applied to a Go bool it
gives a value of type `bool`. -/
def constValueOfBool (b : Bool) : Value := .bool boolType b

/-- Modelled from the spec: `constValueOf` is not under src; applied to a `constValue`
it gives a value holding that struct. -/
def constValueOfConstValue (v : Value) : Value := .constValue v

/-- Modelled from the spec: `isBooleanOp` is not under src; "boolean-producing operators
(`==,!=,<,<=,>,>=,&&,||`)". -/
def isBooleanOp (op : Token) : Bool :=
  match op with
  | .EQL | .NEQ | .LSS | .LEQ | .GTR | .GEQ | .LAND | .LOR => true
  | _ => false

/-- Modelled from the spec: `isOpDefinedOn` is not under src; "verify the operator is
defined on the typed operand's type (reject bitwise/`%` on non-integral types, ordering on
non-real types, etc.)", with the operators of each family taken from the table of
operator evaluation. -/
def isOpDefinedOn (op : Token) (t : RType) : Bool :=
  match t.kind with
  | .Int | .Int8 | .Int16 | .Int32 | .Int64
  | .Uint | .Uint8 | .Uint16 | .Uint32 | .Uint64 | .Uintptr =>
    match op with
    | .ADD | .SUB | .MUL | .QUO | .REM | .AND | .OR | .XOR | .AND_NOT
    | .EQL | .NEQ | .LSS | .LEQ | .GTR | .GEQ => true
    | _ => false
  | .Float32 | .Float64 =>
    match op with
    | .ADD | .SUB | .MUL | .QUO | .EQL | .NEQ | .LSS | .LEQ | .GTR | .GEQ => true
    | _ => false
  | .Complex64 | .Complex128 =>
    match op with
    | .ADD | .SUB | .MUL | .QUO | .EQL | .NEQ => true
    | _ => false
  | .String =>
    match op with
    | .ADD | .EQL | .NEQ | .LSS | .LEQ | .GTR | .GEQ => true
    | _ => false
  | .Bool =>
    match op with
    | .EQL | .NEQ | .LAND | .LOR => true
    | _ => false
  | _ => false

/-- Modelled from the spec: `convertTypedToConstNumber` is not under src; a typed value
of the integer, unsigned, float or complex family is numeric and is read at full
precision, any other value is not numeric (`ok` is false). -/
def convertTypedToConstNumber (v : Value) : Option ConstNumber :=
  match v with
  | .int _ i => some ⟨.ConstInt, ⟨i, 0⟩⟩
  | .uint _ u => some ⟨.ConstInt, ⟨u, 0⟩⟩
  | .float _ f => some ⟨.ConstFloat, ⟨f, 0⟩⟩
  | .complex _ re im => some ⟨.ConstComplex, ⟨re, im⟩⟩
  | _ => none

/-- The expression `v.Interface().(*ConstNumber)` in its two-result form: it panics
on the zero Value only. -/
def Value.asConstNumberOk : Value → Panics (Option ConstNumber)
  | .constNumber n => pure (some n)
  | .invalid => throw "reflect: call of reflect.Value.Interface on zero Value"
  | _ => pure none

/-! ## `checkbinaryexpr.go` -/

/-- The function `evalConstBinaryNumericExpr`. -/
def evalConstBinaryNumericExpr (K : Kernel) (constExpr : BinaryExpr) (x y : ConstNumber) :
    Panics (Value × List Error) :=
  let errs : List Error := []
  match constExpr.Op with
  | .ADD => pure (constValueOfNumber (K.Add x y), [])
  | .SUB => pure (constValueOfNumber (K.Sub x y), [])
  | .MUL => pure (constValueOfNumber (K.Mul x y), [])
  | .QUO =>
    if y.Value.IsZero then
      pure (.invalid, [.ErrDivideByZero constExpr.Y.pos])
    else
      pure (constValueOfNumber (K.Quo x y), [])
  | .REM =>
    if y.Value.IsZero then
      pure (.invalid, [.ErrDivideByZero constExpr.Y.pos])
    else if !(x.Typ.IsIntegral && y.Typ.IsIntegral) then
      pure (.invalid, [.ErrInvalidBinaryOperation constExpr.pos])
    else
      pure (constValueOfNumber (K.Rem x y), [])
  | .AND | .OR | .XOR | .AND_NOT =>
    if !(x.Typ.IsIntegral && y.Typ.IsIntegral) then
      pure (.invalid, [.ErrInvalidBinaryOperation constExpr.pos])
    else
      match constExpr.Op with
      | .AND => pure (constValueOfNumber (K.And x y), [])
      | .OR => pure (constValueOfNumber (K.Or x y), [])
      | .XOR => pure (constValueOfNumber (K.Xor x y), [])
      | .AND_NOT => pure (constValueOfNumber (K.AndNot x y), [])
      | _ => throw "go-interactive: impossible"
  | .EQL => pure (constValueOfBool (x.Value.Equals y.Value), [])
  | .NEQ => pure (constValueOfBool (!x.Value.Equals y.Value), [])
  | .LEQ | .GEQ | .LSS | .GTR =>
    if !(x.Typ.IsReal && y.Typ.IsReal) then
      pure (.invalid, [.ErrInvalidBinaryOperation constExpr.pos])
    else
      let cmp := ratCmp x.Value.Re y.Value.Re
      let b : Bool :=
        match constExpr.Op with
        | .NEQ => decide (cmp ≠ 0)
        | .LEQ => decide (cmp ≤ 0)
        | .GEQ => decide (cmp ≥ 0)
        | .LSS => decide (cmp < 0)
        | .GTR => decide (cmp > 0)
        | _ => false
      pure (constValueOfBool b, errs)
  | _ => pure (.invalid, [.ErrInvalidBinaryOperation constExpr.pos])

/-- The function `evalConstBinaryStringExpr`. -/
def evalConstBinaryStringExpr (constExpr : BinaryExpr) (x y : String) :
    Value × List Error :=
  match constExpr.Op with
  | .ADD => (constValueOfString (x ++ y), [])
  | .EQL => (constValueOfBool (decide (x = y)), [])
  | .NEQ => (constValueOfBool (decide (x ≠ y)), [])
  | .LEQ => (constValueOfBool (decide (x ≤ y)), [])
  | .GEQ => (constValueOfBool (decide (x ≥ y)), [])
  | .LSS => (constValueOfBool (decide (x < y)), [])
  | .GTR => (constValueOfBool (decide (x > y)), [])
  | _ => (.invalid, [.ErrInvalidBinaryOperation constExpr.pos])

/-- The function `evalConstBinaryBoolExpr`. -/
def evalConstBinaryBoolExpr (constExpr : BinaryExpr) (x y : Bool) :
    Value × List Error :=
  match constExpr.Op with
  | .EQL => (constValueOfBool (x == y), [])
  | .NEQ => (constValueOfBool (x != y), [])
  | .LAND => (constValueOfBool (x && y), [])
  | .LOR => (constValueOfBool (x || y), [])
  | _ => (.invalid, [.ErrInvalidBinaryOperation constExpr.pos])

/-- The function `evalConstUntypedBinaryExpr`. -/
def evalConstUntypedBinaryExpr (K : Kernel) (constExpr : BinaryExpr) (promotedType : ConstType) :
    Panics (Value × List Error) :=
  let x := constExpr.X.Const
  let y := constExpr.Y.Const
  match promotedType with
  | .ConstInt | .ConstRune | .ConstFloat | .ConstComplex => do
    let xx ← x.asConstNumber
    let yy ← y.asConstNumber
    evalConstBinaryNumericExpr K constExpr xx yy
  | .ConstString =>
    let xx := x.String
    let yy := y.String
    pure (evalConstBinaryStringExpr constExpr xx yy)
  | .ConstBool => do
    let xx ← x.Bool
    let yy ← y.Bool
    pure (evalConstBinaryBoolExpr constExpr xx yy)
  | _ => pure (.invalid, [.ErrInvalidBinaryOperation constExpr.pos])

/-- The expression `e.KnownType()[0]` where the source takes the element to be a concrete
type ("These are known not to be ConstTypes").  Indexing an empty sequence panics; a
constant kind here is outside the domain of the callers and is reported as a panic too. -/
def firstConcreteType (e : Expr) : Panics RType :=
  match e.KnownType with
  | [] => throw "runtime error: index out of range"
  | .rtype t :: _ => pure t
  | .const _ :: _ => throw "known type is a ConstType"

/-- The expression `e.KnownType()[0].(ConstType)`: it panics on an empty sequence and on
an element that is not a constant kind. -/
def firstConstType (e : Expr) : Panics ConstType :=
  match e.KnownType with
  | [] => throw "runtime error: index out of range"
  | .const c :: _ => pure c
  | .rtype _ :: _ => throw "interface conversion: reflect.Type is not ConstType"

/-- The function `evalConstTypedUntypedBinaryExpr`: "Evaluate x op y".  The call of
`fmt.Printf` on the non-numeric path writes to standard output and is left out. -/
def evalConstTypedUntypedBinaryExpr (K : Kernel) (binary : BinaryExpr)
    (typedExpr untypedExpr : Expr) (reversed : Bool) : Panics (Value × List Error) := do
  let xt ← firstConstType untypedExpr
  let yt ← firstConcreteType typedExpr
  let xUntyped := untypedExpr.Const
  let (x, xConvErrs) ← convertConstToTyped K xt xUntyped yt untypedExpr.pos
  if !isOpDefinedOn binary.Op yt then
    pure (.invalid, xConvErrs ++ [.ErrInvalidBinaryOperation binary.pos])
  else
    let fallback : Value × List Error :=
      (.invalid, xConvErrs ++ [.ErrInvalidBinaryOperation binary.pos])
    match xt with
    | .ConstInt | .ConstRune | .ConstFloat | .ConstComplex => do
      let xx := convertTypedToConstNumber x
      let yy := convertTypedToConstNumber typedExpr.Const
      let yy ← if yy.isNone then typedExpr.Const.asConstNumberOk else pure yy
      match xx, yy with
      | some xx, some yy => do
        let (xx, yy) := if reversed then (yy, xx) else (xx, yy)
        let (z, errs) ← evalConstBinaryNumericExpr K binary xx yy
        if errs ≠ [] then
          pure (constValueOfConstValue z, xConvErrs ++ errs)
        else
          let errs := xConvErrs ++ errs
          let (zt, rt) ←
            if isBooleanOp binary.Op then pure (ConstType.ConstBool, boolType)
            else do
              let n ← z.asConstNumber
              pure (n.Typ, yt)
          let (r, moreErrs) ← convertConstToTyped K zt z rt binary.pos
          pure (r, errs ++ moreErrs)
      | _, _ => pure (.invalid, xConvErrs ++ [.ErrInvalidBinaryOperation binary.pos])
    | .ConstString =>
      if yt.kind = .String then do
        let xstring := x.String
        let ystring := typedExpr.Const.String
        let (xstring, ystring) := if reversed then (ystring, xstring) else (xstring, ystring)
        let (z, errs) := evalConstBinaryStringExpr binary xstring ystring
        let (r, moreErrs) ← convertConstToTyped K .ConstString z yt untypedExpr.pos
        pure (r, errs ++ moreErrs)
      else pure fallback
    | .ConstBool =>
      if yt.kind = .Bool then do
        let xbool ← x.Bool
        let ybool ← typedExpr.Const.Bool
        let (xbool, ybool) := if reversed then (ybool, xbool) else (xbool, ybool)
        let (z, errs) := evalConstBinaryBoolExpr binary xbool ybool
        let (r, moreErrs) ← convertConstToTyped K .ConstBool z yt untypedExpr.pos
        pure (r, errs ++ moreErrs)
      else pure fallback
    | _ => pure fallback

/-- The function `evalConstTypedBinaryExpr`.  `AssignableTo x y` is the method call
`x.AssignableTo(y)` of `reflect`. -/
def evalConstTypedBinaryExpr (K : Kernel) (AssignableTo : RType → RType → Bool)
    (binary : BinaryExpr) (xexpr yexpr : Expr) : Panics (Value × List Error) := do
  let xt ← firstConcreteType xexpr
  let yt ← firstConcreteType yexpr
  if ¬ (AssignableTo xt yt) ∧ ¬ (AssignableTo yt xt) then
    pure (.invalid, [.ErrInvalidBinaryOperation binary.pos])
  else
    let zt := if AssignableTo xt yt then yt else xt
    match convertTypedToConstNumber xexpr.Const, convertTypedToConstNumber yexpr.Const with
    | some x, some y => do
      let (z, errs) ← evalConstBinaryNumericExpr K binary x y
      let n ← z.asConstNumber
      let src := n.Typ
      let (r, moreErrs) ← convertConstToTyped K src z zt binary.pos
      let errs := errs ++ moreErrs
      pure (r, errs)
    | none, none =>
      match zt.kind with
      | .String => do
        let xstring := xexpr.Const.String
        let ystring := yexpr.Const.String
        let (z, errs) := evalConstBinaryStringExpr binary xstring ystring
        let (r, moreErrs) ← convertConstToTyped K .ConstString z zt binary.pos
        let errs := errs ++ moreErrs
        pure (r, errs)
      | .Bool => do
        let xbool ← xexpr.Const.Bool
        let ybool ← yexpr.Const.Bool
        let (z, errs) := evalConstBinaryBoolExpr binary xbool ybool
        let (r, moreErrs) ← convertConstToTyped K .ConstString z zt binary.pos
        let errs := errs ++ moreErrs
        pure (r, errs)
      | _ => throw "evalConstTypedBinaryExpr unimplemented"
    | _, _ => throw "go-interactive: impossible"

/-- The assignments `aexpr.knownType = knownType{reflect.Value(z).Type()}` and
`aexpr.constValue = z` of the three typed branches of `checkBinaryExpr`. -/
def setTypedResult (aexpr : BinaryExpr) (z : Value) : Panics BinaryExpr := do
  let t ← z.Typ
  pure { aexpr with knownType := [.rtype t], constValue := z }

/-- The function `checkBinaryExpr`.  `CheckExpr` is the checker of an operand, which
returns the checked operand and its errors. -/
def checkBinaryExpr {α : Type} (K : Kernel) (AssignableTo : RType → RType → Bool)
    (CheckExpr : α → Expr × List Error) (binary : BinaryAst α) :
    Panics (BinaryExpr × List Error) := do
  let errs : List Error := []
  let (X, moreErrs) := CheckExpr binary.X
  let errs := errs ++ moreErrs
  let (Y, moreErrs) := CheckExpr binary.Y
  let errs := errs ++ moreErrs
  let aexpr : BinaryExpr :=
    { pos := binary.pos, Op := binary.Op, X := X, Y := Y, knownType := [], constValue := .invalid }
  let xa := aexpr.X
  let ya := aexpr.Y
  match xa.KnownType, ya.KnownType with
  | [xt], [yt] =>
    if xa.IsConst && ya.IsConst then
      match xt, yt with
      | .const xc, .const yc => do
        let yv := ya.Const
        let xv := xa.Const
        let (promoted, moreErrs) ← promoteConsts xc yc xa ya xv yv
        if moreErrs ≠ [] then
          pure (aexpr, errs ++ moreErrs ++ [.ErrInvalidBinaryOperation aexpr.pos])
        else
          match promoted with
          | none => throw "promoteConsts returned neither a kind nor an error"
          | some promoted => do
            let aexpr : BinaryExpr :=
              if isBooleanOp binary.Op then { aexpr with knownType := [.const .ConstBool] }
              else { aexpr with knownType := [.const promoted] }
            let (cv, moreErrs) ← evalConstUntypedBinaryExpr K aexpr promoted
            pure ({ aexpr with constValue := cv }, errs ++ moreErrs)
      | .rtype _, .const _ => do
        let (z, moreErrs) ← evalConstTypedUntypedBinaryExpr K aexpr xa ya true
        if moreErrs ≠ [] then pure (aexpr, errs ++ moreErrs)
        else
          let aexpr ← setTypedResult aexpr z
          pure (aexpr, errs)
      | .const _, .rtype _ => do
        let (z, moreErrs) ← evalConstTypedUntypedBinaryExpr K aexpr ya xa false
        if moreErrs ≠ [] then pure (aexpr, errs ++ moreErrs)
        else
          let aexpr ← setTypedResult aexpr z
          pure (aexpr, errs)
      | .rtype _, .rtype _ => do
        let (z, moreErrs) ← evalConstTypedBinaryExpr K AssignableTo aexpr xa ya
        if moreErrs ≠ [] then pure (aexpr, errs ++ moreErrs)
        else
          let aexpr ← setTypedResult aexpr z
          pure (aexpr, errs)
    else pure (aexpr, errs)
  | _, _ => pure (aexpr, errs)

/-! ## The numeric kernel of the specification -/

/-- Modelled from the spec: the kind of the result of an arithmetic operation is not
under src; it is taken to be the higher of the two operand kinds in the order
Int < Rune < Float < Complex. -/
def higherKind (x y : ConstType) : ConstType :=
  if x.rank < y.rank then y else x

/-- The integer part of a rational, rounding toward zero. -/
def truncRat (q : ℚ) : Int :=
  if 0 ≤ q then ⌊q⌋ else ⌈q⌉

/-- The nearest integer to a nonnegative rational, ties going to the even one. -/
def roundHalfEven (q : ℚ) : Int :=
  let f := ⌊q⌋
  let r := q - f
  if r < 1 / 2 then f
  else if 1 / 2 < r then f + 1
  else if f % 2 = 0 then f else f + 1

/-- The nearest binary floating-point number with a mantissa of `p` bits (the exponent
range is not bounded). -/
def roundToPrecision (p : Nat) (q : ℚ) : ℚ :=
  if q = 0 then 0
  else
    let a := |q|
    let e : Int := (Nat.log2 a.num.natAbs : Int) - (Nat.log2 a.den : Int)
    let e : Int := if a < 2 ^ e then e - 1 else e
    let ulp : ℚ := 2 ^ (e - ((p : Int) - 1))
    (if q < 0 then -1 else 1) * (roundHalfEven (a / ulp) : ℚ) * ulp

/-- Modelled from the spec: the numeric kernel is not under src.  Arithmetic is exact on
the pair of rationals; `Rem` and the bitwise operations act on the integer parts of the
real components; the conversion to an integer of N bits "reports truncation if the value
had a nonzero fractional part, and overflow if it does not fit in N bits, but still
returns the best-effort wrapped/truncated bit pattern"; the conversion to a 64-bit float
"reports truncation if precision was lost". -/
def specKernel : Kernel where
  Add x y := ⟨higherKind x.Typ y.Typ, ⟨x.Value.Re + y.Value.Re, x.Value.Im + y.Value.Im⟩⟩
  Sub x y := ⟨higherKind x.Typ y.Typ, ⟨x.Value.Re - y.Value.Re, x.Value.Im - y.Value.Im⟩⟩
  Mul x y := ⟨higherKind x.Typ y.Typ,
    ⟨x.Value.Re * y.Value.Re - x.Value.Im * y.Value.Im,
     x.Value.Re * y.Value.Im + x.Value.Im * y.Value.Re⟩⟩
  Quo x y :=
    let d := y.Value.Re * y.Value.Re + y.Value.Im * y.Value.Im
    ⟨higherKind x.Typ y.Typ,
     ⟨(x.Value.Re * y.Value.Re + x.Value.Im * y.Value.Im) / d,
      (x.Value.Im * y.Value.Re - x.Value.Re * y.Value.Im) / d⟩⟩
  Rem x y := ⟨higherKind x.Typ y.Typ,
    ⟨((truncRat x.Value.Re).tmod (truncRat y.Value.Re) : Int), 0⟩⟩
  And x y := ⟨higherKind x.Typ y.Typ,
    ⟨(Int.land (truncRat x.Value.Re) (truncRat y.Value.Re) : Int), 0⟩⟩
  Or x y := ⟨higherKind x.Typ y.Typ,
    ⟨(Int.lor (truncRat x.Value.Re) (truncRat y.Value.Re) : Int), 0⟩⟩
  Xor x y := ⟨higherKind x.Typ y.Typ,
    ⟨(Int.xor (truncRat x.Value.Re) (truncRat y.Value.Re) : Int), 0⟩⟩
  AndNot x y := ⟨higherKind x.Typ y.Typ,
    ⟨(Int.ldiff (truncRat x.Value.Re) (truncRat y.Value.Re) : Int), 0⟩⟩
  Uint z bits :=
    let t := truncRat z.Re
    ((t % 2 ^ bits).toNat, decide (z.Re ≠ t), decide (t < 0 ∨ 2 ^ bits ≤ t))
  Float64 z :=
    let f := roundToPrecision 53 z.Re
    (f, decide (f ≠ z.Re), false)
  Complex128 z :=
    let re := roundToPrecision 53 z.Re
    let im := roundToPrecision 53 z.Im
    ((re, im), decide (re ≠ z.Re ∨ im ≠ z.Im))
  Integer z :=
    let t := truncRat z.Re
    (⟨t, 0⟩, decide (z.Re ≠ t))
  float32 f := roundToPrecision 24 f
  Int z bits :=
    let t := truncRat z.Re
    (wrapInt bits t, decide (z.Re ≠ t), decide (t < -(2 ^ (bits - 1)) ∨ 2 ^ (bits - 1) ≤ t))

/-! ## Predicates used in the statements -/

/-- An error is a bad-conversion error. -/
def Error.isBadConversion : Error → Bool
  | .ErrBadConversion _ _ _ _ => true
  | _ => false

/-- The kinds of the case `reflect.Int, reflect.Int8, reflect.Int16, reflect.Int32, reflect.Int64`. -/
def isSignedIntKind : Kind → Bool
  | .Int | .Int8 | .Int16 | .Int32 | .Int64 => true
  | _ => false

/-- The kinds of the case `reflect.Uint, reflect.Uint8, reflect.Uint16, reflect.Uint32, reflect.Uint64`. -/
def isUnsignedIntKind : Kind → Bool
  | .Uint | .Uint8 | .Uint16 | .Uint32 | .Uint64 => true
  | _ => false

/-- The kinds of the case `reflect.Float32, reflect.Float64`. -/
def isFloatKind : Kind → Bool
  | .Float32 | .Float64 => true
  | _ => false

/-- The kinds of the case `reflect.Complex64, reflect.Complex128`. -/
def isComplexKind : Kind → Bool
  | .Complex64 | .Complex128 => true
  | _ => false

/-- The kinds of the case `reflect.Chan, reflect.Func, reflect.Interface, reflect.Map,
reflect.Ptr, reflect.Slice`. -/
def isNilableKind : Kind → Bool
  | .Chan | .Func | .Interface | .Map | .Ptr | .Slice => true
  | _ => false

/-- The constant value of an untyped operand agrees with its kind `c`: a numeric kind
holds a `*ConstNumber` and the kind Bool holds a bool. -/
def Expr.holdsKind (e : Expr) (c : ConstType) : Bool :=
  match c with
  | .ConstInt | .ConstRune | .ConstFloat | .ConstComplex =>
    match e.Const with
    | .constNumber _ => true
    | _ => false
  | .ConstBool =>
    match e.Const with
    | .bool _ _ => true
    | _ => false
  | _ => true

/-- Two kernels differ at most in what `Quo` and `Rem` return for a zero divisor. -/
def Kernel.agreeOffZeroDivisor (K L : Kernel) : Prop :=
  K.Add = L.Add ∧ K.Sub = L.Sub ∧ K.Mul = L.Mul ∧ K.And = L.And ∧ K.Or = L.Or ∧
  K.Xor = L.Xor ∧ K.AndNot = L.AndNot ∧
  (∀ a b : ConstNumber, b.Value.IsZero = false → K.Quo a b = L.Quo a b) ∧
  (∀ a b : ConstNumber, b.Value.IsZero = false → K.Rem a b = L.Rem a b)

/-- The node `checkBinaryExpr` starts from: the operator and the checked operands, with
the known type and the constant value unset. -/
def BinaryExpr.unset (pos : Nat) (op : Token) (X Y : Expr) : BinaryExpr :=
  { pos := pos, Op := op, X := X, Y := Y, knownType := [], constValue := .invalid }

/-- The checker of operands that are checked already: it returns the operand and no error. -/
def checkedOperand (e : Expr) : Expr × List Error := (e, [])

/-- An untyped integer constant at position `pos`. -/
def untypedInt (pos : Nat) (i : Int) : Expr :=
  { pos := pos, KnownType := [.const .ConstInt], IsConst := true,
    Const := .constNumber ⟨.ConstInt, ⟨i, 0⟩⟩ }

/-- The type `int8`. -/
def int8Type : RType := ⟨"int8", .Int8⟩

/-- The type `int`. -/
def intType : RType := ⟨"int", .Int⟩

/-- A typed constant of a signed integer type at position `pos`. -/
def typedInt (pos : Nat) (t : RType) (i : Int) : Expr :=
  { pos := pos, KnownType := [.rtype t], IsConst := true, Const := .int t i }

/-- The type `uint8`. -/
def uint8Type : RType := ⟨"uint8", .Uint8⟩

/-- A typed constant of a string type at position `pos`. -/
def typedString (pos : Nat) (t : RType) (s : String) : Expr :=
  { pos := pos, KnownType := [.rtype t], IsConst := true, Const := .str t s }

/-- A typed constant of a bool type at position `pos`. -/
def typedBool (pos : Nat) (t : RType) (b : Bool) : Expr :=
  { pos := pos, KnownType := [.rtype t], IsConst := true, Const := .bool t b }

/-- The kernel operation of the operators `+`, `-` and `*`. -/
def Kernel.arith (K : Kernel) : Token → Option (ConstNumber → ConstNumber → ConstNumber)
  | .ADD => some K.Add
  | .SUB => some K.Sub
  | .MUL => some K.Mul
  | _ => none

/-- The type `complex128`. -/
def complex128Type : RType := ⟨"complex128", .Complex128⟩

/-- A typed constant of a complex type at position `pos`. -/
def typedComplex (pos : Nat) (t : RType) (re im : ℚ) : Expr :=
  { pos := pos, KnownType := [.rtype t], IsConst := true, Const := .complex t re im }

/-- An untyped string constant at position `pos`. -/
def untypedString (pos : Nat) (s : String) : Expr :=
  { pos := pos, KnownType := [.const .ConstString], IsConst := true,
    Const := .str stringType s }

/-- An untyped float constant at position `pos`. -/
def untypedFloat (pos : Nat) (q : ℚ) : Expr :=
  { pos := pos, KnownType := [.const .ConstFloat], IsConst := true,
    Const := .constNumber ⟨.ConstFloat, ⟨q, 0⟩⟩ }

/-- An untyped bool constant at position `pos`. -/
def untypedBool (pos : Nat) (b : Bool) : Expr :=
  { pos := pos, KnownType := [.const .ConstBool], IsConst := true,
    Const := .bool boolType b }

/-- The kernel operation of the operators `%`, `&`, `|`, `^` and `&^`. -/
def Kernel.integral (K : Kernel) : Token → Option (ConstNumber → ConstNumber → ConstNumber)
  | .REM => some K.Rem
  | .AND => some K.And
  | .OR => some K.Or
  | .XOR => some K.Xor
  | .AND_NOT => some K.AndNot
  | _ => none

/-- The order relation of the operators `<`, `<=`, `>` and `>=` on rationals. -/
def ordering : Token → Option (ℚ → ℚ → Bool)
  | .LSS => some (fun a b => decide (a < b))
  | .LEQ => some (fun a b => decide (a ≤ b))
  | .GTR => some (fun a b => decide (a > b))
  | .GEQ => some (fun a b => decide (a ≥ b))
  | _ => none

/-- What the three typed branches of `checkBinaryExpr` return for the result `res` of
the evaluation: a panic is passed on, errors are appended to `errs` and the node is left
as it is, and a result without errors is stored in the node. -/
def typedFinish (aexpr : BinaryExpr) (errs : List Error) (res : Panics (Value × List Error)) :
    Panics (BinaryExpr × List Error) :=
  match res with
  | .error m => .error m
  | .ok (z, moreErrs) =>
    if moreErrs ≠ [] then .ok (aexpr, errs ++ moreErrs)
    else
      match setTypedResult aexpr z with
      | .error m => .error m
      | .ok a => .ok (a, errs)

/-- The constant value `v` is consistent with the known type: for a numeric constant
kind it holds a `*ConstNumber`, for the kind String a string, for the kind Bool a bool,
and for a concrete type it is a value of that type. -/
def represents (v : Value) : KType → Bool
  | .const .ConstInt | .const .ConstRune | .const .ConstFloat | .const .ConstComplex =>
    match v with
    | .constNumber _ => true
    | _ => false
  | .const .ConstString =>
    match v with
    | .str _ _ => true
    | _ => false
  | .const .ConstBool =>
    match v with
    | .bool _ _ => true
    | _ => false
  | .const .ConstNil => false
  | .rtype t =>
    match v.Typ with
    | .ok t1 => decide (t1 = t)
    | .error _ => false

/-- Identity of types, the least relation `AssignableTo` can be. -/
def sameType (x y : RType) : Bool := decide (x = y)

/-! ## `identexpr.go` -/

/-- The names of the map `builtinFuncs` of `builtins.go`. -/
inductive Builtin
  | complex | real | imag | append | cap | len | new | panic
  deriving DecidableEq

/-- The map `builtinFuncs`, as a lookup: the builtin function registered under a name. -/
def builtinFuncs (name : String) : Option Builtin :=
  if name = "complex" then some .complex
  else if name = "real" then some .real
  else if name = "imag" then some .imag
  else if name = "append" then some .append
  else if name = "cap" then some .cap
  else if name = "len" then some .len
  else if name = "new" then some .new
  else if name = "panic" then some .panic
  else none

/-- The fields of `Env` that `evalIdentExpr` reads: four maps from names, to values of
type `V` (a `reflect.Value`) and to packages of type `P`. -/
structure Env (V P : Type) where
  Vars : String → Option V
  Consts : String → Option V
  Funcs : String → Option V
  Pkgs : String → Option P

/-- The function `evalIdentExpr`.  It returns the pointer to a value (`none` for nil),
the flag `typed` and the error (`none` for nil; an error of `errors.New` is its
message).  `Elem` is the method `reflect.Value.Elem`, which may panic, `valueOfFunc`
gives the value stored in `builtinFuncs` for a builtin function and `valueOfPkg` is
`reflect.ValueOf` on a package. -/
def evalIdentExpr {V P : Type} (Elem : V → Panics V) (valueOfFunc : Builtin → V)
    (valueOfPkg : P → V) (name : String) (env : Env V P) :
    Panics (Option V × Bool × Option String) :=
  if name = "nil" then pure (none, false, none)
  else
    match env.Vars name with
    | some v => do
      let elem ← Elem v
      pure (some elem, true, none)
    | none =>
      match env.Consts name with
      | some v => pure (some v, false, none)
      | none =>
        match env.Funcs name with
        | some v => pure (some v, true, none)
        | none =>
          match builtinFuncs name with
          | some b => pure (some (valueOfFunc b), false, none)
          | none =>
            match env.Pkgs name with
            | some p => pure (some (valueOfPkg p), true, none)
            | none => pure (none, false, some (name ++ " undefined"))

/-! ## `builtins.go` -/

/-- A `reflect.Value` as the builtin functions receive it: one of the values above, or
a value with contents. -/
inductive RValue
  /-- One of the values above: the zero Value, a number, a string, a bool, or the zero
  value of a type (a nil slice, map, channel or pointer among them). -/
  | simple (v : Value)
  /-- A non-nil value of array, channel, map or slice kind: its type, its elements and
  its capacity. -/
  | coll (typ : RType) (elems : List RValue) (cap : Nat)
  /-- A non-nil pointer: its type and the value it points to. -/
  | ptr (typ : RType) (target : RValue)
  /-- A value holding a `reflect.Type`. -/
  | typ (t : RType)
  /-- A value holding a builtin function. -/
  | func (b : Builtin)

/-- The errors of the builtin functions: `ErrBadBuiltinArgument{name, v}` and the
messages built with `errors.New`, kept with their arguments. -/
inductive BuiltinError
  /-- The literal `ErrBadBuiltinArgument{name, v}`. -/
  | ErrBadBuiltinArgument (name : String) (v : RValue)
  /-- The message "first argument to append must be a slice; have T". -/
  | appendNotSlice (styp : RType)
  /-- The message "cannot use type T as type S in append". -/
  | appendCannotUse (ttype stype : RType)
  /-- The message "invalid argument V (type T) for cap". -/
  | capInvalidArgument (v : RValue) (t : RType)
  /-- The message "new parameter is not a type". -/
  | newNotAType

/-- The operations of package `reflect` on types and of the runtime that the builtin
functions reach: `Type.AssignableTo`, `Type.Elem` (called on slice types only),
`Type.Len` of an array type, the pointer type to a type, and the capacity a slice of
capacity `cap` gets when it grows to hold `n` elements. -/
structure Reflect where
  AssignableTo : RType → RType → Bool
  Elem : RType → RType
  ArrayLen : RType → Nat
  PtrTo : RType → RType
  growCap : Nat → Nat → Nat

/-- The kind of one of the simple values, `Invalid` for the zero Value. -/
def kindOf : Value → Kind
  | .invalid => .Invalid
  | .constNumber _ => .Ptr
  | .int t _ => t.kind
  | .uint t _ => t.kind
  | .float t _ => t.kind
  | .complex t _ _ => t.kind
  | .str t _ => t.kind
  | .bool t _ => t.kind
  | .zero t => t.kind
  | .constValue _ => .Struct

/-- The type `*reflect.rtype` of a value holding a `reflect.Type`. -/
def rtypePtrType : RType := ⟨"*reflect.rtype", .Ptr⟩

/-- The type of a value holding a builtin function. -/
def builtinFuncType : RType := ⟨"func", .Func⟩

/-- The expression `reflect.ValueOf(nil)`: the zero Value. -/
def valueOfNil : RValue := .simple .invalid

/-- The expression `reflect.ValueOf(n)` for an `int`. -/
def valueOfInt (n : Int) : RValue := .simple (.int intType n)

/-- The method `reflect.Value.IsValid`: false for the zero Value only. -/
def RValue.IsValid : RValue → Bool
  | .simple .invalid => false
  | _ => true

/-- The method `reflect.Value.Kind`. -/
def RValue.Kind : RValue → Kind
  | .simple v => kindOf v
  | .coll t _ _ => t.kind
  | .ptr t _ => t.kind
  | .typ _ => rtypePtrType.kind
  | .func _ => builtinFuncType.kind

/-- The method `reflect.Value.Type`; it panics on the zero Value. -/
def RValue.Typ : RValue → Panics RType
  | .simple v => v.Typ
  | .coll t _ _ => pure t
  | .ptr t _ => pure t
  | .typ _ => pure rtypePtrType
  | .func _ => pure builtinFuncType

/-- The method `reflect.Value.Interface`, as far as it may panic: on the zero Value. -/
def RValue.Interface (v : RValue) : Panics RValue :=
  if v.IsValid then pure v
  else throw "reflect: call of reflect.Value.Interface on zero Value"

/-- The method `reflect.Value.Len`: the number of elements of an array, channel, map or
slice and the number of bytes of a string; it panics on a value of another kind. -/
def RValue.Len (R : Reflect) : RValue → Panics Nat
  | .coll _ elems _ => pure elems.length
  | .simple (.str _ s) => pure s.utf8ByteSize
  | .simple (.zero t) =>
    match t.kind with
    | .Array => pure (R.ArrayLen t)
    | .Chan | .Map | .Slice => pure 0
    | _ => throw "reflect: call of reflect.Value.Len on a value that has no length"
  | _ => throw "reflect: call of reflect.Value.Len on a value that has no length"

/-- The method `reflect.Value.Cap`: the capacity of an array, channel or slice; it
panics on a value of another kind. -/
def RValue.Cap (R : Reflect) : RValue → Panics Nat
  | .coll _ _ cap => pure cap
  | .simple (.zero t) =>
    match t.kind with
    | .Array => pure (R.ArrayLen t)
    | .Chan | .Slice => pure 0
    | _ => throw "reflect: call of reflect.Value.Cap on a value that has no capacity"
  | _ => throw "reflect: call of reflect.Value.Cap on a value that has no capacity"

/-- The function `reflect.Append` with one element: the slice with the element added,
its capacity kept when the element fits and grown when not. -/
def reflectAppend (R : Reflect) (s t : RValue) : Panics RValue :=
  match s with
  | .coll typ elems cap =>
    pure (.coll typ (elems ++ [t])
      (if elems.length + 1 ≤ cap then cap else R.growCap cap (elems.length + 1)))
  | .simple (.zero typ) => pure (.coll typ [t] (R.growCap 0 1))
  | _ => throw "reflect: call of reflect.Append on a value that is not a slice"

/-- The function `reflect.New`: a pointer to a new zero value of the type. -/
def reflectNew (R : Reflect) (t : RType) : RValue :=
  .ptr (R.PtrTo t) (.simple (Value.zeroOf t))

/-- The function `builtinAppend`.  It returns the value, the flag `typed` and the error
(`none` for nil).  The type of `s` is read for the first error message, which panics on
the zero Value. -/
def builtinAppend (R : Reflect) (s t : RValue) (st tt : Bool) :
    Panics (RValue × Bool × Option BuiltinError) :=
  let _ := (st, tt)
  if s.Kind ≠ .Slice then do
    let sty ← s.Typ
    pure (valueOfNil, true, some (.appendNotSlice sty))
  else do
    let sty ← s.Typ
    let stype := R.Elem sty
    let ttype ← t.Typ
    if !R.AssignableTo ttype stype then
      pure (valueOfNil, false, some (.appendCannotUse ttype stype))
    else do
      let r ← reflectAppend R s t
      pure (r, true, none)

/-- The function `builtinCap`.  The error message reads `v.Interface()` and `v.Type()`,
which panic on the zero Value. -/
def builtinCap (R : Reflect) (v : RValue) (vt : Bool) :
    Panics (RValue × Bool × Option BuiltinError) :=
  let _ := vt
  match v.Kind with
  | .Array | .Chan | .Slice => do
    let n ← v.Cap R
    pure (valueOfInt n, true, none)
  | _ => do
    let i ← v.Interface
    let t ← v.Typ
    pure (.simple (Value.zeroOf intType), false, some (.capInvalidArgument i t))

/-- The function `builtinLen`. -/
def builtinLen (R : Reflect) (z : RValue) (zt : Bool) :
    Panics (RValue × Bool × Option BuiltinError) :=
  let _ := zt
  match z.Kind with
  | .Array | .Chan | .Map | .Slice | .String => do
    let n ← z.Len R
    pure (valueOfInt n, true, none)
  | _ => pure (valueOfNil, false, some (.ErrBadBuiltinArgument "len" z))

/-- The function `builtinNew`. -/
def builtinNew (R : Reflect) (rtyp : RValue) (bt : Bool) :
    Panics (RValue × Bool × Option BuiltinError) := do
  let _ := bt
  let i ← rtyp.Interface
  match i with
  | .typ t => pure (reflectNew R t, true, none)
  | _ => pure (valueOfNil, false, some .newNotAType)

/-! ## More predicates used in the statements -/

/-- What `checkBinaryExpr` returns for two untyped constant operands whose kinds promote
to `promoted`, when the exact evaluation gives the value `v` and the errors `es`: the
node with known type `[Bool]` for a boolean operator and `[promoted]` otherwise, with
the constant value `v`, and the errors of the two operands followed by `es`. -/
def untypedOutcome {α : Type} (CheckExpr : α → Expr × List Error) (binary : BinaryAst α)
    (promoted : ConstType) (v : Value) (es : List Error) : Panics (BinaryExpr × List Error) :=
  .ok ({ pos := binary.pos, Op := binary.Op, X := (CheckExpr binary.X).1,
         Y := (CheckExpr binary.Y).1,
         knownType := [.const (if isBooleanOp binary.Op then .ConstBool else promoted)],
         constValue := v },
       (CheckExpr binary.X).2 ++ (CheckExpr binary.Y).2 ++ es)

/-- What `checkBinaryExpr` returns in a typed branch whose evaluation returned `(z, more)`:
with errors the node is left unset and the errors are appended, without errors the known
type is the type of `z` and the constant value is `z`. -/
def typedOutcome (res : Panics (BinaryExpr × List Error)) (base : BinaryExpr)
    (opErrs : List Error) (z : Value) (more : List Error) : Prop :=
  (more ≠ [] → res = .ok (base, opErrs ++ more)) ∧
  (more = [] → ∃ t, z.Typ = .ok t ∧
    res = .ok ({ base with knownType := [.rtype t], constValue := z }, opErrs))

/-- The method `reflect.Value.Elem` on the cell of a variable, a non-nil pointer. -/
def cellElem : RValue → Panics RValue
  | .ptr _ target => pure target
  | _ => throw "reflect: call of reflect.Value.Elem on a value that is not a pointer"

/-- An environment in which every name is a variable holding `int(5)`, a constant
`int(7)`, a function and a package. -/
def crowdedEnv : Env RValue String :=
  { Vars := fun _ => some (.ptr ⟨"*int", .Ptr⟩ (valueOfInt 5)),
    Consts := fun _ => some (valueOfInt 7),
    Funcs := fun _ => some (.func .len),
    Pkgs := fun n => some n }

/-- An environment with nothing in it. -/
def emptyEnv : Env RValue String :=
  { Vars := fun _ => none, Consts := fun _ => none, Funcs := fun _ => none,
    Pkgs := fun _ => none }

/-- The value `reflect.ValueOf(p)` of a package, here its name. -/
def valueOfPkgName (p : String) : RValue := .simple (.str stringType p)

/-! ## Theorems -/

/-- C3. On numeric kinds `promoteConstNumbers` does not panic and returns the higher of
its two arguments in the order Int < Rune < Float < Complex: the result is one of the
two arguments, its rank is the maximum of the two ranks, and in particular
`promoteConstNumbers a a = a`, Int with Rune (either way) gives Rune and Float with
Complex gives Complex. -/
theorem promoteConstNumbers_higher (a b : ConstType)
    (ha : a.isNumeric = true) (hb : b.isNumeric = true) :
    (∃ r, promoteConstNumbers a b = .ok r ∧ (r = a ∨ r = b) ∧
      r.rank = max a.rank b.rank ∧ r.isNumeric = true) ∧
    promoteConstNumbers a a = .ok a ∧
    promoteConstNumbers .ConstInt .ConstRune = .ok .ConstRune ∧
    promoteConstNumbers .ConstRune .ConstInt = .ok .ConstRune ∧
    promoteConstNumbers .ConstFloat .ConstComplex = .ok .ConstComplex := by
  cases a <;> cases b <;>
    simp_all [promoteConstNumbers, ConstType.isNumeric, ConstType.rank, pure, Except.pure]

/-- Witness of C3 at Rune and Float. -/
theorem promoteConstNumbers_higher_witness :
    ConstType.ConstRune.isNumeric = true ∧ ConstType.ConstFloat.isNumeric = true ∧
    ∃ r, promoteConstNumbers .ConstRune .ConstFloat = .ok r ∧
      (r = .ConstRune ∨ r = .ConstFloat) ∧
      r.rank = max ConstType.ConstRune.rank ConstType.ConstFloat.rank ∧ r.isNumeric = true :=
  ⟨rfl, rfl, (promoteConstNumbers_higher .ConstRune .ConstFloat rfl rfl).1⟩

/-- C4. For every pair of constant kinds `promoteConsts` returns without a panic.  It
returns a kind and no error exactly when both kinds are numeric, and the kind is then
that of `promoteConstNumbers`, or when both are the same kind among String, Bool and
Nil, and the kind is then that kind.  In every other case it returns no kind and one or
two errors, each of them a bad-conversion error. -/
theorem promoteConsts_total (x y : ConstType) (xexpr yexpr : Expr) (xval yval : Value) :
    ∃ k errs, promoteConsts x y xexpr yexpr xval yval = .ok (k, errs) ∧
      ((k.isSome = true ∧ errs = []) ↔
        ((x.isNumeric = true ∧ y.isNumeric = true) ∨
         (x = y ∧ (x = .ConstString ∨ x = .ConstBool ∨ x = .ConstNil)))) ∧
      (x.isNumeric = true ∧ y.isNumeric = true →
        ∃ p, promoteConstNumbers x y = .ok p ∧ k = some p ∧ errs = []) ∧
      (x = y ∧ (x = .ConstString ∨ x = .ConstBool ∨ x = .ConstNil) →
        k = some x ∧ errs = []) ∧
      (¬ ((x.isNumeric = true ∧ y.isNumeric = true) ∨
          (x = y ∧ (x = .ConstString ∨ x = .ConstBool ∨ x = .ConstNil))) →
        k = none ∧ (errs.length = 1 ∨ errs.length = 2) ∧
        ∀ e ∈ errs, e.isBadConversion = true) := by
  cases x <;> cases y <;>
    exact ⟨_, _, rfl, by simp [ConstType.isNumeric, Error.isBadConversion, promoteConstNumbers,
      pure, Except.pure]⟩

/-- The numeric evaluation never panics. -/
theorem evalConstBinaryNumericExpr_ok (K : Kernel) (e : BinaryExpr) (x y : ConstNumber) :
    ∃ r, evalConstBinaryNumericExpr K e x y = .ok r := by
  unfold evalConstBinaryNumericExpr
  cases e.Op <;> simp only [pure, Except.pure] <;> (repeat' split) <;> exact ⟨_, rfl⟩

/-- The numeric evaluation reads the operator and the positions of the node only. -/
theorem evalConstBinaryNumericExpr_congr (K : Kernel) (a b : BinaryExpr) (x y : ConstNumber)
    (hop : a.Op = b.Op) (hpos : a.pos = b.pos) (hy : a.Y = b.Y) :
    evalConstBinaryNumericExpr K a x y = evalConstBinaryNumericExpr K b x y := by
  simp only [evalConstBinaryNumericExpr, hop, hpos, hy]

/-- The untyped evaluation reads the operator, the operands and the position of the node only. -/
theorem evalConstUntypedBinaryExpr_congr (K : Kernel) (a b : BinaryExpr) (p : ConstType)
    (hop : a.Op = b.Op) (hpos : a.pos = b.pos) (hx : a.X = b.X) (hy : a.Y = b.Y) :
    evalConstUntypedBinaryExpr K a p = evalConstUntypedBinaryExpr K b p := by
  simp only [evalConstUntypedBinaryExpr, evalConstBinaryStringExpr, evalConstBinaryBoolExpr,
    evalConstBinaryNumericExpr_congr K a b _ _ hop hpos hy, hop, hpos, hx, hy]

/-- The untyped evaluation does not panic on operands whose values agree with kinds that
promote to `p`. -/
theorem evalConstUntypedBinaryExpr_ok (K : Kernel) (e : BinaryExpr) (xc yc p : ConstType)
    (hx : e.X.holdsKind xc = true) (hy : e.Y.holdsKind yc = true)
    (hp : promoteConsts xc yc e.X e.Y e.X.Const e.Y.Const = .ok (some p, [])) :
    ∃ r, evalConstUntypedBinaryExpr K e p = .ok r := by
  unfold evalConstUntypedBinaryExpr
  cases xc <;> cases yc <;>
    simp [promoteConsts, promoteConstNumbers, pure, Except.pure, bind, Except.bind] at hp <;>
    subst hp <;> simp only [Expr.holdsKind] at hx hy <;>
    (try (cases hcx : e.X.Const <;> simp [hcx] at hx)) <;>
    (try (cases hcy : e.Y.Const <;> simp [hcy] at hy)) <;>
    simp [Value.asConstNumber, Value.Bool, pure, Except.pure, bind, Except.bind] <;>
    exact Prod.exists.mp (evalConstBinaryNumericExpr_ok K e _ _)

/-- The sign of `ratCmp x y` is that of `x - y`. -/
theorem ratCmp_spec (x y : ℚ) :
    (ratCmp x y < 0 ↔ x < y) ∧ (ratCmp x y ≤ 0 ↔ x ≤ y) ∧
    (0 < ratCmp x y ↔ y < x) ∧ (0 ≤ ratCmp x y ↔ y ≤ x) := by
  unfold ratCmp
  rcases lt_trichotomy x y with h | h | h
  · simp [h, h.le, h.not_lt, not_le.mpr h]
  · simp [h]
  · simp [h, h.le, h.not_lt, not_le.mpr h, h.ne']

/-- With two untyped constant operands whose kinds promote, `checkBinaryExpr` stores what
`evalConstUntypedBinaryExpr` returns. -/
theorem checkBinaryExpr_untyped_eval {α : Type} (K : Kernel) (A : RType → RType → Bool)
    (CheckExpr : α → Expr × List Error) (binary : BinaryAst α) (xc yc promoted : ConstType)
    (hxt : (CheckExpr binary.X).1.KnownType = [.const xc])
    (hyt : (CheckExpr binary.Y).1.KnownType = [.const yc])
    (hxconst : (CheckExpr binary.X).1.IsConst = true)
    (hyconst : (CheckExpr binary.Y).1.IsConst = true)
    (hp : promoteConsts xc yc (CheckExpr binary.X).1 (CheckExpr binary.Y).1
      (CheckExpr binary.X).1.Const (CheckExpr binary.Y).1.Const = .ok (some promoted, []))
    (v : Value) (es : List Error)
    (hev : evalConstUntypedBinaryExpr K
      (BinaryExpr.unset binary.pos binary.Op (CheckExpr binary.X).1 (CheckExpr binary.Y).1)
      promoted = .ok (v, es)) :
    checkBinaryExpr K A CheckExpr binary = untypedOutcome CheckExpr binary promoted v es := by
  have hev1 := (evalConstUntypedBinaryExpr_congr K
    { pos := binary.pos, Op := binary.Op, X := (CheckExpr binary.X).1,
      Y := (CheckExpr binary.Y).1, knownType := [.const .ConstBool], constValue := .invalid }
    (BinaryExpr.unset binary.pos binary.Op (CheckExpr binary.X).1 (CheckExpr binary.Y).1)
    promoted rfl rfl rfl rfl).trans hev
  have hev2 := (evalConstUntypedBinaryExpr_congr K
    { pos := binary.pos, Op := binary.Op, X := (CheckExpr binary.X).1,
      Y := (CheckExpr binary.Y).1, knownType := [.const promoted], constValue := .invalid }
    (BinaryExpr.unset binary.pos binary.Op (CheckExpr binary.X).1 (CheckExpr binary.Y).1)
    promoted rfl rfl rfl rfl).trans hev
  unfold checkBinaryExpr untypedOutcome
  simp only [hxt, hyt, hxconst, hyconst, hp, bind, Except.bind, pure, Except.pure,
    Bool.and_self, if_true, ne_eq, not_true_eq_false, if_false, List.nil_append]
  by_cases hb : isBooleanOp binary.Op = true
  · simp [hb, hev1]
  · simp [hb, hev2]

/-- For a numeric promoted kind the untyped evaluation is the numeric evaluation of the
numbers the operands hold, the left operand first. -/
theorem evalConstUntypedBinaryExpr_number (K : Kernel) (e : BinaryExpr) (p : ConstType)
    (x y : ConstNumber) (hp : p.isNumeric = true)
    (hx : e.X.Const = .constNumber x) (hy : e.Y.Const = .constNumber y) :
    evalConstUntypedBinaryExpr K e p = evalConstBinaryNumericExpr K e x y := by
  cases p <;> simp [ConstType.isNumeric] at hp <;>
    simp [evalConstUntypedBinaryExpr, hx, hy, Value.asConstNumber, bind, Except.bind, pure,
      Except.pure]

/-- For the promoted kind String the untyped evaluation is the string evaluation of the
strings the operands hold, the left operand first. -/
theorem evalConstUntypedBinaryExpr_string (K : Kernel) (e : BinaryExpr) (t u : RType)
    (xs ys : String) (hx : e.X.Const = .str t xs) (hy : e.Y.Const = .str u ys) :
    evalConstUntypedBinaryExpr K e .ConstString = .ok (evalConstBinaryStringExpr e xs ys) := by
  simp [evalConstUntypedBinaryExpr, hx, hy, Value.String, pure, Except.pure]

/-- For the promoted kind Bool the untyped evaluation is the bool evaluation of the bools
the operands hold, the left operand first. -/
theorem evalConstUntypedBinaryExpr_bool (K : Kernel) (e : BinaryExpr) (t u : RType)
    (a b : Bool) (hx : e.X.Const = .bool t a) (hy : e.Y.Const = .bool u b) :
    evalConstUntypedBinaryExpr K e .ConstBool = .ok (evalConstBinaryBoolExpr e a b) := by
  simp [evalConstUntypedBinaryExpr, hx, hy, Value.Bool, bind, Except.bind, pure, Except.pure]

/-- C1. For two untyped constant operands whose values agree with their kinds and whose
kinds promote to `promoted`, `checkBinaryExpr` returns the node with known type `[Bool]`
for a boolean operator and `[promoted]` otherwise, with the constant value the untyped
evaluation returns, and with the errors of the two operands followed by those of the
evaluation.  The boolean operators are `==`, `!=`, `<`, `<=`, `>`, `>=`, `&&` and `||`.
The constant value is the exact result on the operands in source order.  For numbers
`x` and `y`: the kernel result `f x y` for `+`, `-`, `*`, for `/` with a nonzero divisor,
and for `%`, `&`, `|`, `^`, `&^` on two integral numbers; the comparison of the real
components for `<`, `<=`, `>`, `>=` on two real numbers; the equality of both components
for `==` and its negation for `!=`; and the zero `constValue` with `ErrDivideByZero` at
the right operand for a zero divisor, or with `ErrInvalidBinaryOperation` at the node for
an operator that is not defined.  For strings: the concatenation for `+`, equality and the
lexicographic comparisons, and the zero `constValue` with `ErrInvalidBinaryOperation`
for any other operator.  For bools: `==`, `!=`, `&&`, `||`, and the same error for any
other operator.  For Nil: the zero `constValue` with `ErrInvalidBinaryOperation`.
In particular untyped `1 + 2` has known type `[Int]`, the constant 3 and no error,
`5 - 3` the constant 2, `1 < 2` the constant true, `2 < 1` the constant false,
`"a" + "b"` the constant "ab" and `true && false` the constant false. -/
theorem checkBinaryExpr_untyped {α : Type} (K : Kernel) (A : RType → RType → Bool)
    (CheckExpr : α → Expr × List Error) (binary : BinaryAst α) (xc yc promoted : ConstType)
    (hxt : (CheckExpr binary.X).1.KnownType = [.const xc])
    (hyt : (CheckExpr binary.Y).1.KnownType = [.const yc])
    (hxconst : (CheckExpr binary.X).1.IsConst = true)
    (hyconst : (CheckExpr binary.Y).1.IsConst = true)
    (hxv : (CheckExpr binary.X).1.holdsKind xc = true)
    (hyv : (CheckExpr binary.Y).1.holdsKind yc = true)
    (hp : promoteConsts xc yc (CheckExpr binary.X).1 (CheckExpr binary.Y).1
      (CheckExpr binary.X).1.Const (CheckExpr binary.Y).1.Const = .ok (some promoted, [])) :
    (∃ v es,
      evalConstUntypedBinaryExpr K
        (BinaryExpr.unset binary.pos binary.Op (CheckExpr binary.X).1 (CheckExpr binary.Y).1)
        promoted = .ok (v, es) ∧
      checkBinaryExpr K A CheckExpr binary = .ok
        ({ pos := binary.pos, Op := binary.Op, X := (CheckExpr binary.X).1,
           Y := (CheckExpr binary.Y).1,
           knownType := [.const (if isBooleanOp binary.Op then .ConstBool else promoted)],
           constValue := v },
         (CheckExpr binary.X).2 ++ (CheckExpr binary.Y).2 ++ es)) ∧
    (isBooleanOp binary.Op = true ↔
      binary.Op ∈ [Token.EQL, .NEQ, .LSS, .LEQ, .GTR, .GEQ, .LAND, .LOR]) ∧
    checkBinaryExpr specKernel sameType checkedOperand
        ⟨0, .ADD, untypedInt 1 1, untypedInt 2 2⟩ = .ok
      ({ pos := 0, Op := .ADD, X := untypedInt 1 1, Y := untypedInt 2 2,
         knownType := [.const .ConstInt],
         constValue := .constNumber ⟨.ConstInt, ⟨3, 0⟩⟩ }, []) ∧
    (∀ x y : ConstNumber, (CheckExpr binary.X).1.Const = .constNumber x →
      (CheckExpr binary.Y).1.Const = .constNumber y → promoted.isNumeric = true →
      (∀ f, K.arith binary.Op = some f →
        checkBinaryExpr K A CheckExpr binary =
          untypedOutcome CheckExpr binary promoted (.constNumber (f x y)) []) ∧
      (binary.Op = .QUO → y.Value.IsZero = false →
        checkBinaryExpr K A CheckExpr binary =
          untypedOutcome CheckExpr binary promoted (.constNumber (K.Quo x y)) []) ∧
      ((binary.Op = .QUO ∨ binary.Op = .REM) → y.Value.IsZero = true →
        checkBinaryExpr K A CheckExpr binary =
          untypedOutcome CheckExpr binary promoted .invalid
            [.ErrDivideByZero (CheckExpr binary.Y).1.pos]) ∧
      (∀ f, K.integral binary.Op = some f → (binary.Op = .REM → y.Value.IsZero = false) →
        ((x.Typ.IsIntegral = true ∧ y.Typ.IsIntegral = true) →
          checkBinaryExpr K A CheckExpr binary =
            untypedOutcome CheckExpr binary promoted (.constNumber (f x y)) []) ∧
        (¬ (x.Typ.IsIntegral = true ∧ y.Typ.IsIntegral = true) →
          checkBinaryExpr K A CheckExpr binary =
            untypedOutcome CheckExpr binary promoted .invalid
              [.ErrInvalidBinaryOperation binary.pos])) ∧
      (∀ r, ordering binary.Op = some r →
        ((x.Typ.IsReal = true ∧ y.Typ.IsReal = true) →
          checkBinaryExpr K A CheckExpr binary =
            untypedOutcome CheckExpr binary promoted
              (.bool boolType (r x.Value.Re y.Value.Re)) []) ∧
        (¬ (x.Typ.IsReal = true ∧ y.Typ.IsReal = true) →
          checkBinaryExpr K A CheckExpr binary =
            untypedOutcome CheckExpr binary promoted .invalid
              [.ErrInvalidBinaryOperation binary.pos])) ∧
      (binary.Op = .EQL →
        checkBinaryExpr K A CheckExpr binary =
          untypedOutcome CheckExpr binary promoted
            (.bool boolType (decide (x.Value.Re = y.Value.Re ∧ x.Value.Im = y.Value.Im))) []) ∧
      (binary.Op = .NEQ →
        checkBinaryExpr K A CheckExpr binary =
          untypedOutcome CheckExpr binary promoted
            (.bool boolType (!decide (x.Value.Re = y.Value.Re ∧ x.Value.Im = y.Value.Im)))
            []) ∧
      (binary.Op ∈ [Token.SHL, .SHR, .LAND, .LOR] →
        checkBinaryExpr K A CheckExpr binary =
          untypedOutcome CheckExpr binary promoted .invalid
            [.ErrInvalidBinaryOperation binary.pos])) ∧
    (∀ (t u : RType) (xs ys : String), (CheckExpr binary.X).1.Const = .str t xs →
      (CheckExpr binary.Y).1.Const = .str u ys → promoted = .ConstString →
      (binary.Op = .ADD →
        checkBinaryExpr K A CheckExpr binary =
          untypedOutcome CheckExpr binary promoted (.str stringType (xs ++ ys)) []) ∧
      (binary.Op = .EQL →
        checkBinaryExpr K A CheckExpr binary =
          untypedOutcome CheckExpr binary promoted (.bool boolType (decide (xs = ys))) []) ∧
      (binary.Op = .NEQ →
        checkBinaryExpr K A CheckExpr binary =
          untypedOutcome CheckExpr binary promoted (.bool boolType (decide (xs ≠ ys))) []) ∧
      (binary.Op = .LSS →
        checkBinaryExpr K A CheckExpr binary =
          untypedOutcome CheckExpr binary promoted (.bool boolType (decide (xs < ys))) []) ∧
      (binary.Op = .LEQ →
        checkBinaryExpr K A CheckExpr binary =
          untypedOutcome CheckExpr binary promoted (.bool boolType (decide (xs ≤ ys))) []) ∧
      (binary.Op = .GTR →
        checkBinaryExpr K A CheckExpr binary =
          untypedOutcome CheckExpr binary promoted (.bool boolType (decide (ys < xs))) []) ∧
      (binary.Op = .GEQ →
        checkBinaryExpr K A CheckExpr binary =
          untypedOutcome CheckExpr binary promoted (.bool boolType (decide (ys ≤ xs))) []) ∧
      (binary.Op ∉ [Token.ADD, .EQL, .NEQ, .LSS, .LEQ, .GTR, .GEQ] →
        checkBinaryExpr K A CheckExpr binary =
          untypedOutcome CheckExpr binary promoted .invalid
            [.ErrInvalidBinaryOperation binary.pos])) ∧
    (∀ (t u : RType) (a b : Bool), (CheckExpr binary.X).1.Const = .bool t a →
      (CheckExpr binary.Y).1.Const = .bool u b → promoted = .ConstBool →
      (binary.Op = .EQL →
        checkBinaryExpr K A CheckExpr binary =
          untypedOutcome CheckExpr binary promoted (.bool boolType (decide (a = b))) []) ∧
      (binary.Op = .NEQ →
        checkBinaryExpr K A CheckExpr binary =
          untypedOutcome CheckExpr binary promoted (.bool boolType (decide (a ≠ b))) []) ∧
      (binary.Op = .LAND →
        checkBinaryExpr K A CheckExpr binary =
          untypedOutcome CheckExpr binary promoted (.bool boolType (a && b)) []) ∧
      (binary.Op = .LOR →
        checkBinaryExpr K A CheckExpr binary =
          untypedOutcome CheckExpr binary promoted (.bool boolType (a || b)) []) ∧
      (binary.Op ∉ [Token.EQL, .NEQ, .LAND, .LOR] →
        checkBinaryExpr K A CheckExpr binary =
          untypedOutcome CheckExpr binary promoted .invalid
            [.ErrInvalidBinaryOperation binary.pos])) ∧
    (promoted = .ConstNil →
      checkBinaryExpr K A CheckExpr binary =
        untypedOutcome CheckExpr binary promoted .invalid
          [.ErrInvalidBinaryOperation binary.pos]) ∧
    checkBinaryExpr specKernel sameType checkedOperand
        ⟨0, .SUB, untypedInt 1 5, untypedInt 2 3⟩ = .ok
      ({ pos := 0, Op := .SUB, X := untypedInt 1 5, Y := untypedInt 2 3,
         knownType := [.const .ConstInt],
         constValue := .constNumber ⟨.ConstInt, ⟨2, 0⟩⟩ }, []) ∧
    checkBinaryExpr specKernel sameType checkedOperand
        ⟨0, .LSS, untypedInt 1 1, untypedInt 2 2⟩ = .ok
      ({ pos := 0, Op := .LSS, X := untypedInt 1 1, Y := untypedInt 2 2,
         knownType := [.const .ConstBool], constValue := .bool boolType true }, []) ∧
    checkBinaryExpr specKernel sameType checkedOperand
        ⟨0, .LSS, untypedInt 1 2, untypedInt 2 1⟩ = .ok
      ({ pos := 0, Op := .LSS, X := untypedInt 1 2, Y := untypedInt 2 1,
         knownType := [.const .ConstBool], constValue := .bool boolType false }, []) ∧
    checkBinaryExpr specKernel sameType checkedOperand
        ⟨0, .ADD, untypedString 1 "a", untypedString 2 "b"⟩ = .ok
      ({ pos := 0, Op := .ADD, X := untypedString 1 "a", Y := untypedString 2 "b",
         knownType := [.const .ConstString], constValue := .str stringType "ab" }, []) ∧
    checkBinaryExpr specKernel sameType checkedOperand
        ⟨0, .LAND, untypedBool 1 true, untypedBool 2 false⟩ = .ok
      ({ pos := 0, Op := .LAND, X := untypedBool 1 true, Y := untypedBool 2 false,
         knownType := [.const .ConstBool], constValue := .bool boolType false }, []) := by
  have key := checkBinaryExpr_untyped_eval K A CheckExpr binary xc yc promoted hxt hyt
    hxconst hyconst hp
  refine ⟨?_, ?_, ?_, ?_, ?_, ?_, ?_, ?_, ?_, ?_, ?_, ?_⟩
  · obtain ⟨⟨v, es⟩, hev⟩ := evalConstUntypedBinaryExpr_ok K
      (BinaryExpr.unset binary.pos binary.Op (CheckExpr binary.X).1 (CheckExpr binary.Y).1)
      xc yc promoted hxv hyv hp
    exact ⟨v, es, hev, key v es hev⟩
  · cases binary.Op <;> simp [isBooleanOp]
  · simp [checkBinaryExpr, checkedOperand, untypedInt, promoteConsts, promoteConstNumbers,
      isBooleanOp, evalConstUntypedBinaryExpr, evalConstBinaryNumericExpr, Value.asConstNumber,
      constValueOfNumber, specKernel, higherKind, ConstType.rank, bind, Except.bind, pure,
      Except.pure]
    norm_num
  · intro x y hx hy hnum
    have hnumEval := evalConstUntypedBinaryExpr_number K
      (BinaryExpr.unset binary.pos binary.Op (CheckExpr binary.X).1 (CheckExpr binary.Y).1)
      promoted x y hnum hx hy
    refine ⟨?_, ?_, ?_, ?_, ?_, ?_, ?_, ?_⟩
    · intro f hf
      apply key
      rw [hnumEval]
      unfold Kernel.arith at hf
      cases hop : binary.Op <;> simp [hop] at hf <;> subst hf <;>
        simp [evalConstBinaryNumericExpr, BinaryExpr.unset, hop, constValueOfNumber, pure,
          Except.pure]
    · intro hop hz
      apply key
      rw [hnumEval]
      simp [evalConstBinaryNumericExpr, BinaryExpr.unset, hop, hz, constValueOfNumber, pure,
        Except.pure]
    · intro hop hz
      apply key
      rw [hnumEval]
      rcases hop with hop | hop <;>
        simp [evalConstBinaryNumericExpr, BinaryExpr.unset, hop, hz, pure, Except.pure]
    · intro f hf hz
      unfold Kernel.integral at hf
      constructor <;> intro h <;> apply key <;> rw [hnumEval] <;>
        cases hop : binary.Op <;> simp [hop] at hf hz <;> subst hf <;>
        simp_all [evalConstBinaryNumericExpr, BinaryExpr.unset, constValueOfNumber, pure,
          Except.pure]
    · intro r hr
      unfold ordering at hr
      constructor <;> intro h <;> apply key <;> rw [hnumEval] <;>
        cases hop : binary.Op <;> simp [hop] at hr <;> subst hr <;>
        simp_all [evalConstBinaryNumericExpr, BinaryExpr.unset, constValueOfBool, pure,
          Except.pure, (ratCmp_spec _ _).1, (ratCmp_spec _ _).2.1, (ratCmp_spec _ _).2.2.1,
          (ratCmp_spec _ _).2.2.2]
    · intro hop
      apply key
      rw [hnumEval]
      simp [evalConstBinaryNumericExpr, BinaryExpr.unset, hop, constValueOfBool,
        BigComplex.Equals, pure, Except.pure]
    · intro hop
      apply key
      rw [hnumEval]
      simp [evalConstBinaryNumericExpr, BinaryExpr.unset, hop, constValueOfBool,
        BigComplex.Equals, pure, Except.pure]
    · intro hop
      apply key
      rw [hnumEval]
      cases hop2 : binary.Op <;> simp [hop2] at hop <;>
        simp [evalConstBinaryNumericExpr, BinaryExpr.unset, hop2, pure, Except.pure]
  · intro t u xs ys hx hy hs
    subst hs
    have hstrEval := evalConstUntypedBinaryExpr_string K
      (BinaryExpr.unset binary.pos binary.Op (CheckExpr binary.X).1 (CheckExpr binary.Y).1)
      t u xs ys hx hy
    refine ⟨?_, ?_, ?_, ?_, ?_, ?_, ?_, ?_⟩ <;>
      (intro hop
       apply key
       rw [hstrEval]
       cases hop2 : binary.Op <;> simp [hop2] at hop <;>
         simp [evalConstBinaryStringExpr, BinaryExpr.unset, hop2, constValueOfString,
           constValueOfBool])
  · intro t u a b hx hy hs
    subst hs
    have hboolEval := evalConstUntypedBinaryExpr_bool K
      (BinaryExpr.unset binary.pos binary.Op (CheckExpr binary.X).1 (CheckExpr binary.Y).1)
      t u a b hx hy
    refine ⟨?_, ?_, ?_, ?_, ?_⟩ <;>
      (intro hop
       apply key
       rw [hboolEval]
       cases hop2 : binary.Op <;> simp [hop2] at hop <;>
         simp [evalConstBinaryBoolExpr, BinaryExpr.unset, hop2, constValueOfBool] <;>
         cases a <;> cases b <;> rfl)
  · intro hs
    subst hs
    apply key
    simp [evalConstUntypedBinaryExpr, BinaryExpr.unset, pure, Except.pure]
  · simp [checkBinaryExpr, checkedOperand, untypedInt, promoteConsts, promoteConstNumbers,
      isBooleanOp, evalConstUntypedBinaryExpr, evalConstBinaryNumericExpr, Value.asConstNumber,
      constValueOfNumber, specKernel, higherKind, ConstType.rank, bind, Except.bind, pure,
      Except.pure]
    norm_num
  · simp [checkBinaryExpr, checkedOperand, untypedInt, promoteConsts, promoteConstNumbers,
      isBooleanOp, evalConstUntypedBinaryExpr, evalConstBinaryNumericExpr, Value.asConstNumber,
      constValueOfBool, ConstType.IsReal, ratCmp, bind, Except.bind, pure, Except.pure]
  · simp [checkBinaryExpr, checkedOperand, untypedInt, promoteConsts, promoteConstNumbers,
      isBooleanOp, evalConstUntypedBinaryExpr, evalConstBinaryNumericExpr, Value.asConstNumber,
      constValueOfBool, ConstType.IsReal, ratCmp, bind, Except.bind, pure, Except.pure]
  · simp [checkBinaryExpr, checkedOperand, untypedString, promoteConsts,
      isBooleanOp, evalConstUntypedBinaryExpr, evalConstBinaryStringExpr, Value.String,
      constValueOfString, bind, Except.bind, pure, Except.pure]
  · simp [checkBinaryExpr, checkedOperand, untypedBool, promoteConsts,
      isBooleanOp, evalConstUntypedBinaryExpr, evalConstBinaryBoolExpr, Value.Bool,
      constValueOfBool, bind, Except.bind, pure, Except.pure]

/-- Witness of C1 at untyped `5 - 3` and at untyped `"b" + "a"`. -/
theorem checkBinaryExpr_untyped_witness :
    checkBinaryExpr specKernel sameType checkedOperand
        ⟨0, .SUB, untypedInt 1 5, untypedInt 2 3⟩ =
      untypedOutcome checkedOperand ⟨0, .SUB, untypedInt 1 5, untypedInt 2 3⟩ .ConstInt
        (.constNumber (specKernel.Sub ⟨.ConstInt, ⟨5, 0⟩⟩ ⟨.ConstInt, ⟨3, 0⟩⟩)) [] ∧
    checkBinaryExpr specKernel sameType checkedOperand
        ⟨0, .ADD, untypedString 1 "b", untypedString 2 "a"⟩ =
      untypedOutcome checkedOperand ⟨0, .ADD, untypedString 1 "b", untypedString 2 "a"⟩
        .ConstString (.str stringType ("b" ++ "a")) [] :=
  ⟨((checkBinaryExpr_untyped specKernel sameType checkedOperand
      ⟨0, .SUB, untypedInt 1 5, untypedInt 2 3⟩ .ConstInt .ConstInt .ConstInt
      rfl rfl rfl rfl rfl rfl rfl).2.2.2.1 _ _ rfl rfl rfl).1 _ rfl,
   ((checkBinaryExpr_untyped specKernel sameType checkedOperand
      ⟨0, .ADD, untypedString 1 "b", untypedString 2 "a"⟩ .ConstString .ConstString
      .ConstString rfl rfl rfl rfl rfl rfl rfl).2.2.2.2.1 _ _ _ _ rfl rfl rfl).1 rfl⟩

/-- C2. When the divisor is exactly zero and the operator is `/` or `%`,
`evalConstBinaryNumericExpr` returns the zero `constValue` and the single error
`ErrDivideByZero` placed at the right operand, whatever the kinds of the operands.  The
kernel operations `Quo` and `Rem` are not reached with a zero divisor: on every input the
result is the same for two kernels that differ at most in what `Quo` and `Rem` return
for a zero divisor. -/
theorem evalConstBinaryNumericExpr_divideByZero (K : Kernel) (e : BinaryExpr)
    (x y : ConstNumber) (hop : e.Op = .QUO ∨ e.Op = .REM)
    (hzero : y.Value.Re = 0 ∧ y.Value.Im = 0) :
    evalConstBinaryNumericExpr K e x y = .ok (.invalid, [.ErrDivideByZero e.Y.pos]) ∧
    ∀ (L : Kernel) (e1 : BinaryExpr) (x1 y1 : ConstNumber), K.agreeOffZeroDivisor L →
      evalConstBinaryNumericExpr K e1 x1 y1 = evalConstBinaryNumericExpr L e1 x1 y1 := by
  constructor
  · rcases hop with hop | hop <;>
      simp [evalConstBinaryNumericExpr, hop, BigComplex.IsZero, hzero.1, hzero.2, pure,
        Except.pure]
  · intro L e1 x1 y1 h
    obtain ⟨hadd, hsub, hmul, hand, hor, hxor, handnot, hquo, hrem⟩ := h
    unfold evalConstBinaryNumericExpr
    rw [hadd, hsub, hmul, hand, hor, hxor, handnot]
    cases hz : y1.Value.IsZero
    · simp only [hquo x1 y1 hz, hrem x1 y1 hz]
    · simp

/-- Witness of C2 at `1.0 % 0`. -/
theorem evalConstBinaryNumericExpr_divideByZero_witness :
    evalConstBinaryNumericExpr specKernel
      (BinaryExpr.unset 0 .REM (untypedInt 1 1) (untypedInt 2 0))
      ⟨.ConstFloat, ⟨1, 0⟩⟩ ⟨.ConstInt, ⟨0, 0⟩⟩ = .ok (.invalid, [.ErrDivideByZero 2]) :=
  (evalConstBinaryNumericExpr_divideByZero specKernel
    (BinaryExpr.unset 0 .REM (untypedInt 1 1) (untypedInt 2 0))
    ⟨.ConstFloat, ⟨1, 0⟩⟩ ⟨.ConstInt, ⟨0, 0⟩⟩ (Or.inr rfl) ⟨rfl, rfl⟩).1

/-- A number that fits in `bits` bits is stored unchanged in a signed integer. -/
theorem wrapInt_eq_self (bits : Nat) (i : Int) (hb : 0 < bits)
    (h1 : -(2 ^ (bits - 1)) ≤ i) (h2 : i < 2 ^ (bits - 1)) : wrapInt bits i = i := by
  unfold wrapInt
  have hpow : (2 : Int) ^ bits = 2 * 2 ^ (bits - 1) := by
    obtain ⟨k, rfl⟩ := Nat.exists_eq_succ_of_ne_zero (Nat.pos_iff_ne_zero.mp hb)
    simp [pow_succ, mul_comm]
  rw [hpow]
  generalize (2 : Int) ^ (bits - 1) = h at *
  rw [Int.emod_eq_of_lt (by omega) (by omega)]
  omega

/-- The integer part of 300 and of 601/2 is 300. -/
theorem truncRat_examples : truncRat 300 = 300 ∧ truncRat (601 / 2) = 300 := by
  constructor
  · have h : ⌊(300 : ℚ)⌋ = 300 := by
      rw [Int.floor_eq_iff]; norm_num
    simp [truncRat, h]
  · have h : ⌊(601 / 2 : ℚ)⌋ = 300 := by
      rw [Int.floor_eq_iff]; norm_num
    have h0 : (0 : ℚ) ≤ 601 / 2 := by norm_num
    simp only [truncRat, h0, if_true, h]

/-- C5. A numeric constant converted to a signed (or unsigned) integer type of width
`bits` gives the value the kernel conversion `Int` (or `Uint`) returns, stored in `bits`
bits, and exactly these errors: `ErrTruncatedConstant` iff the kernel flags truncation,
then `ErrOverflowedConstant` iff it flags overflow, each flag on its own.  A kernel
result that fits in `bits` bits is stored unchanged.  With the kernel of the
specification, 300 into `int8` gives the overflow error alone and the wrapped value 44,
and 601/2 into `int8` gives both errors. -/
theorem convertConstToTyped_integer (K : Kernel) (src : ConstType) (n : ConstNumber)
    (dst : RType) (pos : Nat) (hsrc : src.isNumeric = true) :
    (isSignedIntKind dst.kind = true → ∃ bits, dst.Bits = .ok bits ∧
      convertConstToTyped K src (.constNumber n) dst pos = .ok
        (.int dst (wrapInt bits (K.Int n.Value bits).1),
         (if (K.Int n.Value bits).2.1 then [.ErrTruncatedConstant pos .ConstInt n] else []) ++
         (if (K.Int n.Value bits).2.2 then
            [.ErrOverflowedConstant pos src dst (K.Integer n.Value).1] else [])) ∧
      (-(2 ^ (bits - 1)) ≤ (K.Int n.Value bits).1 ∧ (K.Int n.Value bits).1 < 2 ^ (bits - 1) →
        wrapInt bits (K.Int n.Value bits).1 = (K.Int n.Value bits).1)) ∧
    (isUnsignedIntKind dst.kind = true → ∃ bits, dst.Bits = .ok bits ∧
      convertConstToTyped K src (.constNumber n) dst pos = .ok
        (.uint dst (wrapUint bits (K.Uint n.Value bits).1),
         (if (K.Uint n.Value bits).2.1 then [.ErrTruncatedConstant pos .ConstInt n] else []) ++
         (if (K.Uint n.Value bits).2.2 then
            [.ErrOverflowedConstant pos src dst (K.Integer n.Value).1] else [])) ∧
      ((K.Uint n.Value bits).1 < 2 ^ bits →
        wrapUint bits (K.Uint n.Value bits).1 = (K.Uint n.Value bits).1)) ∧
    convertConstToTyped specKernel .ConstInt (.constNumber ⟨.ConstInt, ⟨300, 0⟩⟩) int8Type 7
      = .ok (.int int8Type 44, [.ErrOverflowedConstant 7 .ConstInt int8Type ⟨300, 0⟩]) ∧
    convertConstToTyped specKernel .ConstFloat (.constNumber ⟨.ConstFloat, ⟨601 / 2, 0⟩⟩)
        int8Type 7
      = .ok (.int int8Type 44,
          [.ErrTruncatedConstant 7 .ConstInt ⟨.ConstFloat, ⟨601 / 2, 0⟩⟩,
           .ErrOverflowedConstant 7 .ConstFloat int8Type ⟨300, 0⟩]) := by
  refine ⟨?_, ?_, ?_, ?_⟩
  · intro hk
    rcases dst with ⟨name, kind⟩
    rcases K with ⟨_, _, _, _, _, _, _, _, _, KUint, KFloat64, KComplex128, KInteger, Kfloat32, KInt⟩
    cases kind <;> simp [isSignedIntKind] at hk <;>
      refine ⟨_, rfl, ?_, fun h => wrapInt_eq_self _ _ (by decide) h.1 h.2⟩ <;>
      cases src <;> simp [ConstType.isNumeric] at hsrc <;>
      simp only [convertConstToTyped, Value.asConstNumber, Value.zeroOf, Value.SetInt,
        RType.Bits, intSize, bind, Except.bind, pure, Except.pure] <;>
      split_ifs <;> simp
  · intro hk
    rcases dst with ⟨name, kind⟩
    rcases K with ⟨_, _, _, _, _, _, _, _, _, KUint, KFloat64, KComplex128, KInteger, Kfloat32, KInt⟩
    cases kind <;> simp [isUnsignedIntKind] at hk <;>
      refine ⟨_, rfl, ?_, fun h => Nat.mod_eq_of_lt h⟩ <;>
      cases src <;> simp [ConstType.isNumeric] at hsrc <;>
      simp only [convertConstToTyped, Value.asConstNumber, Value.zeroOf, Value.SetUint,
        RType.Bits, intSize, bind, Except.bind, pure, Except.pure] <;>
      split_ifs <;> simp
  · simp [convertConstToTyped, Value.asConstNumber, Value.zeroOf, Value.SetInt, int8Type,
      RType.Bits, specKernel, truncRat_examples.1, wrapInt, bind, Except.bind, pure, Except.pure]
  · simp [convertConstToTyped, Value.asConstNumber, Value.zeroOf, Value.SetInt, int8Type,
      RType.Bits, specKernel, truncRat_examples.2, wrapInt, bind, Except.bind, pure, Except.pure]
    norm_num

/-- Witness of C5 at 300 into `int8` and into `uint8`. -/
theorem convertConstToTyped_integer_witness :
    (∃ bits, int8Type.Bits = .ok bits ∧
      convertConstToTyped specKernel .ConstInt (.constNumber ⟨.ConstInt, ⟨300, 0⟩⟩) int8Type 7
        = .ok
        (.int int8Type (wrapInt bits (specKernel.Int ⟨300, 0⟩ bits).1),
         (if (specKernel.Int ⟨300, 0⟩ bits).2.1 then
            [.ErrTruncatedConstant 7 .ConstInt ⟨.ConstInt, ⟨300, 0⟩⟩] else []) ++
         (if (specKernel.Int ⟨300, 0⟩ bits).2.2 then
            [.ErrOverflowedConstant 7 .ConstInt int8Type (specKernel.Integer ⟨300, 0⟩).1]
          else []))) ∧
    (∃ bits, uint8Type.Bits = .ok bits ∧
      convertConstToTyped specKernel .ConstInt (.constNumber ⟨.ConstInt, ⟨300, 0⟩⟩) uint8Type 7
        = .ok
        (.uint uint8Type (wrapUint bits (specKernel.Uint ⟨300, 0⟩ bits).1),
         (if (specKernel.Uint ⟨300, 0⟩ bits).2.1 then
            [.ErrTruncatedConstant 7 .ConstInt ⟨.ConstInt, ⟨300, 0⟩⟩] else []) ++
         (if (specKernel.Uint ⟨300, 0⟩ bits).2.2 then
            [.ErrOverflowedConstant 7 .ConstInt uint8Type (specKernel.Integer ⟨300, 0⟩).1]
          else []))) :=
  ⟨((convertConstToTyped_integer specKernel .ConstInt ⟨.ConstInt, ⟨300, 0⟩⟩ int8Type 7 rfl).1
      rfl).imp fun _ h => ⟨h.1, h.2.1⟩,
   ((convertConstToTyped_integer specKernel .ConstInt ⟨.ConstInt, ⟨300, 0⟩⟩ uint8Type 7 rfl).2.1
      rfl).imp fun _ h => ⟨h.1, h.2.1⟩⟩

/-- C6, evaluated.  Converting a string constant to a type of kind string, and a bool
constant to a type of kind bool, returns the value holding the string or the bool
together with one `ErrBadConversion` error: after `SetString` and `SetBool` the function
runs on to its final `return`.  So it is at the string "a" and the type `string`. -/
theorem convertConstToTyped_string_bool_badConversion :
    (∀ (K : Kernel) (t : RType) (s name : String) (pos : Nat),
      convertConstToTyped K .ConstString (.str t s) ⟨name, .String⟩ pos = .ok
        (.str ⟨name, .String⟩ s,
         [.ErrBadConversion pos .ConstString (.rtype ⟨name, .String⟩) (.str t s)])) ∧
    (∀ (K : Kernel) (t : RType) (b : Bool) (name : String) (pos : Nat),
      convertConstToTyped K .ConstBool (.bool t b) ⟨name, .Bool⟩ pos = .ok
        (.bool ⟨name, .Bool⟩ b,
         [.ErrBadConversion pos .ConstBool (.rtype ⟨name, .Bool⟩) (.bool t b)])) ∧
    convertConstToTyped specKernel .ConstString (constValueOfString "a") stringType 0 = .ok
      (.str stringType "a",
       [.ErrBadConversion 0 .ConstString (.rtype stringType) (.str stringType "a")]) ∧
    convertConstToTyped specKernel .ConstBool (constValueOfBool true) boolType 0 = .ok
      (.bool boolType true,
       [.ErrBadConversion 0 .ConstBool (.rtype boolType) (.bool boolType true)]) := by
  refine ⟨?_, ?_, rfl, rfl⟩ <;> intros <;> rfl

/-- C7. From the kind Nil, `convertConstToTyped` returns the zero value of the target
type and no error when the kind of the target is chan, func, interface, map, pointer or
slice, and for any other target the single error `ErrBadConversion` naming Nil and the
target type.  From a numeric kind, with a target whose kind is not among the signed
integer, unsigned integer, float and complex kinds of the switch, it returns the single
error `ErrBadConversion` naming the source kind and the target type. -/
theorem convertConstToTyped_nil_and_mismatch (K : Kernel) (src : ConstType) (c : Value)
    (n : ConstNumber) (dst : RType) (pos : Nat) :
    (isNilableKind dst.kind = true →
      convertConstToTyped K .ConstNil c dst pos = .ok (.zero dst, [])) ∧
    (isNilableKind dst.kind = false →
      convertConstToTyped K .ConstNil c dst pos = .ok
        (Value.zeroOf dst, [.ErrBadConversion pos .ConstNil (.rtype dst) c])) ∧
    (src.isNumeric = true → isSignedIntKind dst.kind = false →
      isUnsignedIntKind dst.kind = false → isFloatKind dst.kind = false →
      isComplexKind dst.kind = false →
      convertConstToTyped K src (.constNumber n) dst pos = .ok
        (Value.zeroOf dst, [.ErrBadConversion pos src (.rtype dst) (.constNumber n)])) := by
  rcases dst with ⟨name, kind⟩
  refine ⟨?_, ?_, ?_⟩
  · intro h
    cases kind <;> simp [isNilableKind] at h <;> rfl
  · intro h
    cases kind <;> simp [isNilableKind] at h <;> rfl
  · intro hsrc h1 h2 h3 h4
    cases src <;> simp [ConstType.isNumeric] at hsrc <;>
      cases kind <;>
      simp [isSignedIntKind, isUnsignedIntKind, isFloatKind, isComplexKind] at h1 h2 h3 h4 <;>
      rfl

/-- Witness of C7 at a slice type, at `int` and at the type `string`. -/
theorem convertConstToTyped_nil_and_mismatch_witness :
    convertConstToTyped specKernel .ConstNil .invalid ⟨"[]int", .Slice⟩ 3 = .ok
      (.zero ⟨"[]int", .Slice⟩, []) ∧
    convertConstToTyped specKernel .ConstNil .invalid intType 3 = .ok
      (Value.zeroOf intType, [.ErrBadConversion 3 .ConstNil (.rtype intType) .invalid]) ∧
    convertConstToTyped specKernel .ConstFloat (.constNumber ⟨.ConstFloat, ⟨1, 0⟩⟩) stringType 3
      = .ok (Value.zeroOf stringType,
        [.ErrBadConversion 3 .ConstFloat (.rtype stringType)
          (.constNumber ⟨.ConstFloat, ⟨1, 0⟩⟩)]) :=
  ⟨(convertConstToTyped_nil_and_mismatch specKernel .ConstFloat .invalid
      ⟨.ConstFloat, ⟨1, 0⟩⟩ ⟨"[]int", .Slice⟩ 3).1 rfl,
   (convertConstToTyped_nil_and_mismatch specKernel .ConstFloat .invalid
      ⟨.ConstFloat, ⟨1, 0⟩⟩ intType 3).2.1 rfl,
   (convertConstToTyped_nil_and_mismatch specKernel .ConstFloat .invalid
      ⟨.ConstFloat, ⟨1, 0⟩⟩ stringType 3).2.2 rfl rfl rfl rfl rfl⟩

/-- A conversion that returns gives a value of the target type. -/
theorem convertConstToTyped_type (K : Kernel) (src : ConstType) (c : Value) (dst : RType)
    (pos : Nat) (r : Value) (errs : List Error)
    (h : convertConstToTyped K src c dst pos = .ok (r, errs)) : r.Typ = .ok dst := by
  rcases dst with ⟨name, kind⟩
  cases src <;> cases kind <;>
    simp only [convertConstToTyped, Value.zeroOf, Value.SetInt, Value.SetUint, Value.SetFloat,
      Value.SetComplex, Value.SetString, Value.SetBool, Value.Typ, RType.Bits, intSize,
      bind, Except.bind, pure, Except.pure, throw, throwThe, MonadExceptOf.throw] at h <;>
    (try (cases hc : c.asConstNumber <;> simp only [hc] at h)) <;>
    (try (cases hb : c.Bool <;> simp only [hb] at h)) <;>
    (try simp at h) <;>
    (try (obtain ⟨h1, _⟩ := h; subst h1; rfl))

/-- The conversion of a constant number from a numeric kind never panics. -/
theorem convertConstToTyped_numeric_ok (K : Kernel) (src : ConstType) (n : ConstNumber)
    (dst : RType) (pos : Nat) (hsrc : src.isNumeric = true) :
    ∃ r errs, convertConstToTyped K src (.constNumber n) dst pos = .ok (r, errs) := by
  rcases dst with ⟨name, kind⟩
  cases src <;> simp [ConstType.isNumeric] at hsrc <;> cases kind <;>
    simp [convertConstToTyped, Value.asConstNumber, Value.zeroOf, Value.SetInt, Value.SetUint,
      Value.SetFloat, Value.SetComplex, RType.Bits, intSize, bind, Except.bind, pure,
      Except.pure]

/-- C8. For two typed constant operands of types `xt` and `yt`: when neither type is
assignable to the other, `evalConstTypedBinaryExpr` returns the zero `constValue` and the
single error `ErrInvalidBinaryOperation`.  Otherwise let the result type be `yt` if `xt`
is assignable to `yt`, and `xt` if not.  When both values are numeric and the operator
is `+`, `-` or `*`, the function returns what `convertConstToTyped` returns for the kernel
result and the result type, its errors being exactly those of this narrowing; when the
kernel result carries a numeric kind the function does return, and the value has the
result type. -/
theorem evalConstTypedBinaryExpr_numeric (K : Kernel) (A : RType → RType → Bool)
    (binary : BinaryExpr) (xexpr yexpr : Expr) (xt yt : RType)
    (hxt : firstConcreteType xexpr = .ok xt) (hyt : firstConcreteType yexpr = .ok yt) :
    (A xt yt = false → A yt xt = false →
      evalConstTypedBinaryExpr K A binary xexpr yexpr = .ok
        (.invalid, [.ErrInvalidBinaryOperation binary.pos])) ∧
    (∀ (x y : ConstNumber) (f : ConstNumber → ConstNumber → ConstNumber),
      (A xt yt = true ∨ A yt xt = true) →
      convertTypedToConstNumber xexpr.Const = some x →
      convertTypedToConstNumber yexpr.Const = some y →
      K.arith binary.Op = some f →
      evalConstTypedBinaryExpr K A binary xexpr yexpr =
        convertConstToTyped K (f x y).Typ (.constNumber (f x y))
          (if A xt yt = true then yt else xt) binary.pos ∧
      ((f x y).Typ.isNumeric = true →
        ∃ r errs, evalConstTypedBinaryExpr K A binary xexpr yexpr = .ok (r, errs) ∧
          r.Typ = .ok (if A xt yt = true then yt else xt))) := by
  constructor
  · intro h1 h2
    simp [evalConstTypedBinaryExpr, hxt, hyt, h1, h2, bind, Except.bind, pure, Except.pure]
  · intro x y f hA hx hy hf
    have heq : evalConstTypedBinaryExpr K A binary xexpr yexpr =
        convertConstToTyped K (f x y).Typ (.constNumber (f x y))
          (if A xt yt = true then yt else xt) binary.pos := by
      have hA2 : ¬ (A xt yt = false ∧ A yt xt = false) := by
        rcases hA with h | h <;> simp [h]
      have hop : evalConstBinaryNumericExpr K binary x y = .ok (.constNumber (f x y), []) := by
        unfold Kernel.arith at hf
        unfold evalConstBinaryNumericExpr
        cases hop : binary.Op <;> simp [hop] at hf <;> subst hf <;>
          simp [constValueOfNumber, pure, Except.pure]
      simp only [evalConstTypedBinaryExpr, hxt, hyt, hx, hy, hop, bind, Except.bind, pure,
        Except.pure, Value.asConstNumber, Bool.not_eq_true, hA2, if_false, List.nil_append]
      cases convertConstToTyped K (f x y).Typ (.constNumber (f x y))
        (if A xt yt = true then yt else xt) binary.pos <;> rfl
    refine ⟨heq, fun hnum => ?_⟩
    obtain ⟨r, errs, hr⟩ := convertConstToTyped_numeric_ok K (f x y).Typ (f x y)
      (if A xt yt = true then yt else xt) binary.pos hnum
    exact ⟨r, errs, heq.trans hr, convertConstToTyped_type K _ _ _ _ r errs hr⟩

/-- Witness of C8 at `int(1) + int(2)` and at `int(1) + int8(2)`. -/
theorem evalConstTypedBinaryExpr_numeric_witness :
    evalConstTypedBinaryExpr specKernel sameType
        (BinaryExpr.unset 0 .ADD (typedInt 1 intType 1) (typedInt 2 int8Type 2))
        (typedInt 1 intType 1) (typedInt 2 int8Type 2) = .ok
      (.invalid, [.ErrInvalidBinaryOperation 0]) ∧
    ∃ r errs, evalConstTypedBinaryExpr specKernel sameType
        (BinaryExpr.unset 0 .ADD (typedInt 1 intType 1) (typedInt 2 intType 2))
        (typedInt 1 intType 1) (typedInt 2 intType 2) = .ok (r, errs) ∧
      r.Typ = .ok (if sameType intType intType = true then intType else intType) :=
  ⟨(evalConstTypedBinaryExpr_numeric specKernel sameType
      (BinaryExpr.unset 0 .ADD (typedInt 1 intType 1) (typedInt 2 int8Type 2))
      (typedInt 1 intType 1) (typedInt 2 int8Type 2) intType int8Type rfl rfl).1
      (by decide) (by decide),
   ((evalConstTypedBinaryExpr_numeric specKernel sameType
      (BinaryExpr.unset 0 .ADD (typedInt 1 intType 1) (typedInt 2 intType 2))
      (typedInt 1 intType 1) (typedInt 2 intType 2) intType intType rfl rfl).2
      ⟨.ConstInt, ⟨1, 0⟩⟩ ⟨.ConstInt, ⟨2, 0⟩⟩ specKernel.Add (Or.inl (by decide))
      (by simp [convertTypedToConstNumber, typedInt])
      (by simp [convertTypedToConstNumber, typedInt]) rfl).2 rfl⟩

/-- C9, evaluated.  Comparing the typed constant `int(1)` with the untyped constant 1 by
`==` (on either side) returns the node with known type and constant value unset and one
`ErrBadConversion` error, from the conversion of the bool result to `bool`.  Comparing
`int(1)` with `int(1)` panics: the typed path reads the bool result as a `*ConstNumber`. -/
theorem checkBinaryExpr_typed_comparison :
    checkBinaryExpr specKernel sameType checkedOperand
        ⟨0, .EQL, typedInt 1 intType 1, untypedInt 2 1⟩ = .ok
      (BinaryExpr.unset 0 .EQL (typedInt 1 intType 1) (untypedInt 2 1),
       [.ErrBadConversion 0 .ConstBool (.rtype boolType) (.bool boolType true)]) ∧
    checkBinaryExpr specKernel sameType checkedOperand
        ⟨0, .EQL, untypedInt 1 1, typedInt 2 intType 1⟩ = .ok
      (BinaryExpr.unset 0 .EQL (untypedInt 1 1) (typedInt 2 intType 1),
       [.ErrBadConversion 0 .ConstBool (.rtype boolType) (.bool boolType true)]) ∧
    checkBinaryExpr specKernel sameType checkedOperand
        ⟨0, .EQL, typedInt 1 intType 1, typedInt 2 intType 1⟩ =
      .error "interface conversion: interface is not *ConstNumber" := by
  have hdef : isOpDefinedOn .EQL ⟨"int", .Int⟩ = true := rfl
  have htrunc : truncRat 1 = 1 := by simp [truncRat]
  refine ⟨?_, ?_, ?_⟩
  · simp [checkBinaryExpr, checkedOperand, typedInt, untypedInt,
      evalConstTypedUntypedBinaryExpr, firstConstType, firstConcreteType, convertConstToTyped,
      Value.asConstNumber, Value.zeroOf, Value.SetInt, intType, RType.Bits, intSize, specKernel,
      htrunc, wrapInt, hdef, convertTypedToConstNumber, evalConstBinaryNumericExpr,
      BigComplex.Equals, constValueOfBool, isBooleanOp, boolType, Value.Bool, Value.SetBool,
      BinaryExpr.unset, bind, Except.bind, pure, Except.pure]
  · simp [checkBinaryExpr, checkedOperand, typedInt, untypedInt,
      evalConstTypedUntypedBinaryExpr, firstConstType, firstConcreteType, convertConstToTyped,
      Value.asConstNumber, Value.zeroOf, Value.SetInt, intType, RType.Bits, intSize, specKernel,
      htrunc, wrapInt, hdef, convertTypedToConstNumber, evalConstBinaryNumericExpr,
      BigComplex.Equals, constValueOfBool, isBooleanOp, boolType, Value.Bool, Value.SetBool,
      BinaryExpr.unset, bind, Except.bind, pure, Except.pure]
  · simp [checkBinaryExpr, checkedOperand, typedInt, evalConstTypedBinaryExpr,
      firstConcreteType, sameType, convertTypedToConstNumber, evalConstBinaryNumericExpr,
      BigComplex.Equals, constValueOfBool, Value.asConstNumber, bind, Except.bind, pure,
      Except.pure, throw, throwThe, MonadExceptOf.throw]

/-- C10, evaluated.  For two typed constants of type `string`, `"a" + "b"` returns the
typed concatenation together with one `ErrBadConversion` error.  For two typed constants
of type `bool`, `true == true` panics: the bool result is converted with the source kind
String, which requires a target of kind string. -/
theorem evalConstTypedBinaryExpr_string_bool :
    evalConstTypedBinaryExpr specKernel sameType
        (BinaryExpr.unset 0 .ADD (typedString 1 stringType "a") (typedString 2 stringType "b"))
        (typedString 1 stringType "a") (typedString 2 stringType "b") = .ok
      (.str stringType "ab",
       [.ErrBadConversion 0 .ConstString (.rtype stringType) (.str stringType "ab")]) ∧
    evalConstTypedBinaryExpr specKernel sameType
        (BinaryExpr.unset 0 .EQL (typedBool 1 boolType true) (typedBool 2 boolType true))
        (typedBool 1 boolType true) (typedBool 2 boolType true) =
      .error "go-interactive: string constant has wrong underlying type" := by
  constructor
  · simp [evalConstTypedBinaryExpr, typedString, firstConcreteType, sameType,
      convertTypedToConstNumber, stringType, evalConstBinaryStringExpr, BinaryExpr.unset,
      constValueOfString, convertConstToTyped, Value.zeroOf, Value.Typ, Value.SetString,
      Value.String, bind, Except.bind, pure, Except.pure]
  · simp [evalConstTypedBinaryExpr, typedBool, firstConcreteType, sameType,
      convertTypedToConstNumber, boolType, evalConstBinaryBoolExpr, BinaryExpr.unset,
      constValueOfBool, convertConstToTyped, Value.zeroOf, Value.Typ, Value.Bool,
      bind, Except.bind, pure, Except.pure, throw, throwThe, MonadExceptOf.throw]

/-- C11, evaluated.  In the typed-by-typed path with two numeric operands,
`evalConstTypedBinaryExpr` panics when the numeric evaluation rejects the operation: for
`int(i) / int(0)`, `int(i) % int(0)` and the comparison `<` of two `complex128`
constants it reads the zero `constValue` returned with the error as a `*ConstNumber`.
The panic reaches the caller of `checkBinaryExpr`. -/
theorem evalConstTypedBinaryExpr_rejected :
    (∀ (K : Kernel) (i : Int),
      evalConstTypedBinaryExpr K sameType
        (BinaryExpr.unset 0 .QUO (typedInt 1 intType i) (typedInt 2 intType 0))
        (typedInt 1 intType i) (typedInt 2 intType 0) =
      .error "reflect: call of reflect.Value.Interface on zero Value") ∧
    (∀ (K : Kernel) (i : Int),
      evalConstTypedBinaryExpr K sameType
        (BinaryExpr.unset 0 .REM (typedInt 1 intType i) (typedInt 2 intType 0))
        (typedInt 1 intType i) (typedInt 2 intType 0) =
      .error "reflect: call of reflect.Value.Interface on zero Value") ∧
    (∀ (K : Kernel) (a b c d : ℚ),
      evalConstTypedBinaryExpr K sameType
        (BinaryExpr.unset 0 .LSS (typedComplex 1 complex128Type a b)
          (typedComplex 2 complex128Type c d))
        (typedComplex 1 complex128Type a b) (typedComplex 2 complex128Type c d) =
      .error "reflect: call of reflect.Value.Interface on zero Value") ∧
    checkBinaryExpr specKernel sameType checkedOperand
        ⟨0, .QUO, typedInt 1 intType 1, typedInt 2 intType 0⟩ =
      .error "reflect: call of reflect.Value.Interface on zero Value" := by
  refine ⟨?_, ?_, ?_, ?_⟩
  · intro K i
    simp [evalConstTypedBinaryExpr, typedInt, firstConcreteType, sameType,
      convertTypedToConstNumber, evalConstBinaryNumericExpr, BigComplex.IsZero, BinaryExpr.unset,
      Value.asConstNumber, bind, Except.bind, pure, Except.pure, throw, throwThe,
      MonadExceptOf.throw]
  · intro K i
    simp [evalConstTypedBinaryExpr, typedInt, firstConcreteType, sameType,
      convertTypedToConstNumber, evalConstBinaryNumericExpr, BigComplex.IsZero, BinaryExpr.unset,
      Value.asConstNumber, bind, Except.bind, pure, Except.pure, throw, throwThe,
      MonadExceptOf.throw]
  · intro K a b c d
    simp [evalConstTypedBinaryExpr, typedComplex, firstConcreteType, sameType,
      convertTypedToConstNumber, evalConstBinaryNumericExpr, ConstType.IsReal, BinaryExpr.unset,
      Value.asConstNumber, bind, Except.bind, pure, Except.pure, throw, throwThe,
      MonadExceptOf.throw]
  · simp [checkBinaryExpr, checkedOperand, evalConstTypedBinaryExpr, typedInt, firstConcreteType,
      sameType, convertTypedToConstNumber, evalConstBinaryNumericExpr, BigComplex.IsZero,
      Value.asConstNumber, bind, Except.bind, pure, Except.pure, throw, throwThe,
      MonadExceptOf.throw]

/-- C13, evaluated.  For a typed constant of type `int` or `bool` and an untyped string
constant, on either side and with any operator, `checkBinaryExpr` panics with "string
constant has wrong underlying type": the untyped operand is converted to the type of
the typed one before the operator and the kind of that type are looked at. -/
theorem checkBinaryExpr_untyped_string_panics :
    (∀ (K : Kernel) (A : RType → RType → Bool) (op : Token) (i : Int) (s : String),
      checkBinaryExpr K A checkedOperand ⟨0, op, typedInt 1 intType i, untypedString 2 s⟩ =
        .error "go-interactive: string constant has wrong underlying type") ∧
    (∀ (K : Kernel) (A : RType → RType → Bool) (op : Token) (i : Int) (s : String),
      checkBinaryExpr K A checkedOperand ⟨0, op, untypedString 1 s, typedInt 2 intType i⟩ =
        .error "go-interactive: string constant has wrong underlying type") ∧
    (∀ (K : Kernel) (A : RType → RType → Bool) (op : Token) (b : Bool) (s : String),
      checkBinaryExpr K A checkedOperand ⟨0, op, typedBool 1 boolType b, untypedString 2 s⟩ =
        .error "go-interactive: string constant has wrong underlying type") := by
  refine ⟨?_, ?_, ?_⟩ <;> intros <;>
    simp [checkBinaryExpr, checkedOperand, typedInt, typedBool, untypedString,
      evalConstTypedUntypedBinaryExpr, firstConstType, firstConcreteType, convertConstToTyped,
      Value.zeroOf, Value.Typ, intType, boolType, bind, Except.bind, pure, Except.pure, throw,
      throwThe, MonadExceptOf.throw]

/-- C14. For two untyped constant operands whose kinds fail to promote, `checkBinaryExpr`
returns the node with known type and constant value unset, and the errors of the left
operand, those of the right operand, those of the promotion and one
`ErrInvalidBinaryOperation`, in this order.  Nothing is evaluated: the result is the
same for every kernel. -/
theorem checkBinaryExpr_promotion_fails {α : Type} (K : Kernel) (A : RType → RType → Bool)
    (CheckExpr : α → Expr × List Error) (binary : BinaryAst α) (xc yc : ConstType)
    (k : Option ConstType) (perrs : List Error)
    (hxt : (CheckExpr binary.X).1.KnownType = [.const xc])
    (hyt : (CheckExpr binary.Y).1.KnownType = [.const yc])
    (hxconst : (CheckExpr binary.X).1.IsConst = true)
    (hyconst : (CheckExpr binary.Y).1.IsConst = true)
    (hp : promoteConsts xc yc (CheckExpr binary.X).1 (CheckExpr binary.Y).1
      (CheckExpr binary.X).1.Const (CheckExpr binary.Y).1.Const = .ok (k, perrs))
    (hne : perrs ≠ []) :
    checkBinaryExpr K A CheckExpr binary = .ok
      (BinaryExpr.unset binary.pos binary.Op (CheckExpr binary.X).1 (CheckExpr binary.Y).1,
       (CheckExpr binary.X).2 ++ (CheckExpr binary.Y).2 ++ perrs ++
         [.ErrInvalidBinaryOperation binary.pos]) ∧
    ∀ L : Kernel, checkBinaryExpr L A CheckExpr binary = checkBinaryExpr K A CheckExpr binary := by
  have h : ∀ L : Kernel, checkBinaryExpr L A CheckExpr binary = .ok
      (BinaryExpr.unset binary.pos binary.Op (CheckExpr binary.X).1 (CheckExpr binary.Y).1,
       (CheckExpr binary.X).2 ++ (CheckExpr binary.Y).2 ++ perrs ++
         [.ErrInvalidBinaryOperation binary.pos]) := by
    intro L
    unfold checkBinaryExpr
    simp only [hxt, hyt, hxconst, hyconst, hp, bind, Except.bind, pure, Except.pure,
      Bool.and_self, if_true, ne_eq, hne, not_false_eq_true, List.nil_append, BinaryExpr.unset]
  exact ⟨h K, fun L => (h L).trans (h K).symm⟩

/-- Witness of C14 at untyped `"a" + 1`. -/
theorem checkBinaryExpr_promotion_fails_witness :
    checkBinaryExpr specKernel sameType checkedOperand
        ⟨0, .ADD, untypedString 1 "a", untypedInt 2 1⟩ = .ok
      (BinaryExpr.unset 0 .ADD (untypedString 1 "a") (untypedInt 2 1),
       [] ++ [] ++ [.ErrBadConversion 2 .ConstString (.const .ConstInt) (.str stringType "a")] ++
         [.ErrInvalidBinaryOperation 0]) :=
  (checkBinaryExpr_promotion_fails specKernel sameType checkedOperand
    ⟨0, .ADD, untypedString 1 "a", untypedInt 2 1⟩
    .ConstString .ConstInt none _ rfl rfl rfl rfl rfl (by simp)).1

/-- C15, counterexample.  `promoteConsts(String, Float)` fails with one error, the
conversion of String to Float, and not with two. -/
theorem promoteConsts_string_numeric_counterexample :
    promoteConsts .ConstString .ConstFloat (untypedString 1 "a") (untypedFloat 2 1)
        (untypedString 1 "a").Const (untypedFloat 2 1).Const = .ok
      (none, [.ErrBadConversion 2 .ConstString (.const .ConstFloat) (.str stringType "a")]) ∧
    ¬ ∃ e1 e2, promoteConsts .ConstString .ConstFloat (untypedString 1 "a") (untypedFloat 2 1)
        (untypedString 1 "a").Const (untypedFloat 2 1).Const = .ok (none, [e1, e2]) := by
  refine ⟨rfl, ?_⟩
  rintro ⟨e1, e2, h⟩
  simp [promoteConsts, pure, Except.pure] at h

/-- C15, amended.  For a kind `k` other than String, `promoteConsts(String, k)` returns
no kind.  For `k` Bool or Nil it returns exactly two bad-conversion errors, String to
Int and then `k` to Int; for a numeric `k` it returns exactly one, String to `k`. -/
theorem promoteConsts_string_other (k : ConstType) (xexpr yexpr : Expr) (xval yval : Value)
    (hk : k ≠ .ConstString) :
    (k.isNumeric = true →
      promoteConsts .ConstString k xexpr yexpr xval yval = .ok
        (none, [.ErrBadConversion yexpr.pos .ConstString (.const k) xval])) ∧
    (k.isNumeric = false →
      promoteConsts .ConstString k xexpr yexpr xval yval = .ok
        (none, [.ErrBadConversion yexpr.pos .ConstString (.const .ConstInt) xval,
                .ErrBadConversion yexpr.pos k (.const .ConstInt) yval])) := by
  cases k <;> simp [ConstType.isNumeric] at hk ⊢ <;> rfl

/-- Witness of the amended C15 at Bool and at Int. -/
theorem promoteConsts_string_other_witness :
    promoteConsts .ConstString .ConstBool (untypedString 1 "a") (untypedBool 2 true)
        (.str stringType "a") (.bool boolType true) = .ok
      (none, [.ErrBadConversion 2 .ConstString (.const .ConstInt) (.str stringType "a"),
              .ErrBadConversion 2 .ConstBool (.const .ConstInt) (.bool boolType true)]) ∧
    promoteConsts .ConstString .ConstInt (untypedString 1 "a") (untypedInt 2 1)
        (.str stringType "a") (untypedInt 2 1).Const = .ok
      (none, [.ErrBadConversion 2 .ConstString (.const .ConstInt) (.str stringType "a")]) :=
  ⟨(promoteConsts_string_other .ConstBool (untypedString 1 "a") (untypedBool 2 true)
      (.str stringType "a") (.bool boolType true) (by decide)).2 rfl,
   (promoteConsts_string_other .ConstInt (untypedString 1 "a") (untypedInt 2 1)
      (.str stringType "a") (untypedInt 2 1).Const (by decide)).1 rfl⟩

/-- C16, counterexample.  `promoteConsts(Bool, Int)` fails with one bad-conversion error
whose source kind is Bool and whose target kind is Int; no error converts Int to Bool. -/
theorem promoteConsts_bool_numeric_counterexample :
    promoteConsts .ConstBool .ConstInt (untypedBool 1 true) (untypedInt 2 1)
        (untypedBool 1 true).Const (untypedInt 2 1).Const = .ok
      (none, [.ErrBadConversion 2 .ConstBool (.const .ConstInt) (.bool boolType true)]) ∧
    ¬ ∃ p v, promoteConsts .ConstBool .ConstInt (untypedBool 1 true) (untypedInt 2 1)
        (untypedBool 1 true).Const (untypedInt 2 1).Const = .ok
      (none, [.ErrBadConversion p .ConstInt (.const .ConstBool) v]) := by
  refine ⟨rfl, ?_⟩
  rintro ⟨p, v, h⟩
  simp [promoteConsts, pure, Except.pure] at h

/-- C16, amended.  For a numeric kind `n`, `promoteConsts(Bool, n)` returns no kind and
exactly one bad-conversion error, whose source kind is Bool, whose target kind is `n`
and whose value is that of the bool operand. -/
theorem promoteConsts_bool_numeric (n : ConstType) (xexpr yexpr : Expr) (xval yval : Value)
    (hn : n.isNumeric = true) :
    promoteConsts .ConstBool n xexpr yexpr xval yval = .ok
      (none, [.ErrBadConversion yexpr.pos .ConstBool (.const n) xval]) := by
  cases n <;> simp [ConstType.isNumeric] at hn <;> rfl

/-- Witness of the amended C16 at Complex. -/
theorem promoteConsts_bool_numeric_witness :
    ConstType.ConstComplex.isNumeric = true ∧
    promoteConsts .ConstBool .ConstComplex (untypedBool 1 true) (untypedInt 2 1)
        (.bool boolType true) .invalid = .ok
      (none, [.ErrBadConversion 2 .ConstBool (.const .ConstComplex) (.bool boolType true)]) :=
  ⟨rfl, promoteConsts_bool_numeric .ConstComplex (untypedBool 1 true) (untypedInt 2 1)
    (.bool boolType true) .invalid rfl⟩

/-- C17. `evalConstBinaryStringExpr` returns, with no error, the concatenation for `+`,
equality and inequality for `==` and `!=`, and the lexicographic comparison for `<`,
`<=`, `>`, `>=` (the order of strings is the lexicographic order of their characters);
for any other operator it returns the zero `constValue` and one
`ErrInvalidBinaryOperation`.  `evalConstBinaryBoolExpr` returns, with no error, equality
and inequality for `==` and `!=`, the conjunction for `&&` and the disjunction for `||`;
for any other operator it returns the zero `constValue` and one
`ErrInvalidBinaryOperation`. -/
theorem evalConstBinaryStringExpr_table (e : BinaryExpr) (x y : String) (a b : Bool) :
    (e.Op = .ADD → evalConstBinaryStringExpr e x y = (.str stringType (x ++ y), [])) ∧
    (e.Op = .EQL → evalConstBinaryStringExpr e x y = (.bool boolType (decide (x = y)), [])) ∧
    (e.Op = .NEQ → evalConstBinaryStringExpr e x y = (.bool boolType (decide (x ≠ y)), [])) ∧
    (e.Op = .LSS → evalConstBinaryStringExpr e x y = (.bool boolType (decide (x < y)), [])) ∧
    (e.Op = .LEQ → evalConstBinaryStringExpr e x y = (.bool boolType (decide (x ≤ y)), [])) ∧
    (e.Op = .GTR → evalConstBinaryStringExpr e x y = (.bool boolType (decide (y < x)), [])) ∧
    (e.Op = .GEQ → evalConstBinaryStringExpr e x y = (.bool boolType (decide (y ≤ x)), [])) ∧
    (e.Op ∉ [Token.ADD, .EQL, .NEQ, .LSS, .LEQ, .GTR, .GEQ] →
      evalConstBinaryStringExpr e x y = (.invalid, [.ErrInvalidBinaryOperation e.pos])) ∧
    (e.Op = .EQL → evalConstBinaryBoolExpr e a b = (.bool boolType (decide (a = b)), [])) ∧
    (e.Op = .NEQ → evalConstBinaryBoolExpr e a b = (.bool boolType (decide (a ≠ b)), [])) ∧
    (e.Op = .LAND → evalConstBinaryBoolExpr e a b = (.bool boolType (a && b), [])) ∧
    (e.Op = .LOR → evalConstBinaryBoolExpr e a b = (.bool boolType (a || b), [])) ∧
    (e.Op ∉ [Token.EQL, .NEQ, .LAND, .LOR] →
      evalConstBinaryBoolExpr e a b = (.invalid, [.ErrInvalidBinaryOperation e.pos])) ∧
    (x < y ↔ x.toList < y.toList) := by
  refine ⟨?_, ?_, ?_, ?_, ?_, ?_, ?_, ?_, ?_, ?_, ?_, ?_, ?_, ?_⟩ <;>
    first
    | exact String.lt_iff_toList_lt
    | (intro h
       cases hop : e.Op <;> simp [hop] at h <;>
         simp [evalConstBinaryStringExpr, evalConstBinaryBoolExpr, hop, constValueOfString,
           constValueOfBool] <;>
         cases a <;> cases b <;> rfl)

/-- Witness of C17 at `"a" + "b"`, at `true && false` and at `"a" - "b"`. -/
theorem evalConstBinaryStringExpr_table_witness :
    evalConstBinaryStringExpr (BinaryExpr.unset 0 .ADD (untypedString 1 "a")
        (untypedString 2 "b")) "a" "b" = (.str stringType ("a" ++ "b"), []) ∧
    evalConstBinaryBoolExpr (BinaryExpr.unset 0 .LAND (untypedBool 1 true)
        (untypedBool 2 false)) true false = (.bool boolType (true && false), []) ∧
    evalConstBinaryStringExpr (BinaryExpr.unset 7 .SUB (untypedString 1 "a")
        (untypedString 2 "b")) "a" "b" = (.invalid, [.ErrInvalidBinaryOperation 7]) :=
  ⟨(evalConstBinaryStringExpr_table (BinaryExpr.unset 0 .ADD (untypedString 1 "a")
      (untypedString 2 "b")) "a" "b" true false).1 rfl,
   (evalConstBinaryStringExpr_table (BinaryExpr.unset 0 .LAND (untypedBool 1 true)
      (untypedBool 2 false)) "a" "b" true false).2.2.2.2.2.2.2.2.2.2.1 rfl,
   (evalConstBinaryStringExpr_table (BinaryExpr.unset 7 .SUB (untypedString 1 "a")
      (untypedString 2 "b")) "a" "b" true false).2.2.2.2.2.2.2.1 (by decide)⟩

/-- C18. In `evalConstBinaryNumericExpr`, for every pair of numbers: the operators `&`,
`|`, `^`, `&^`, and `%` with a nonzero divisor, return the zero `constValue` and one
`ErrInvalidBinaryOperation` iff the two numbers are not both of integral kind, and the
kernel result with no error otherwise; the operators `<`, `<=`, `>`, `>=` return the zero
`constValue` and one `ErrInvalidBinaryOperation` iff the two numbers are not both of real
kind, and otherwise, with no error, the comparison of the real components; `==` and `!=`
return no error, `==` holds iff the real and the imaginary components are both equal,
and `!=` is its negation. -/
theorem evalConstBinaryNumericExpr_table (K : Kernel) (e : BinaryExpr) (x y : ConstNumber) :
    (∀ f, K.integral e.Op = some f → (e.Op = .REM → y.Value.IsZero = false) →
      ((x.Typ.IsIntegral = true ∧ y.Typ.IsIntegral = true) →
        evalConstBinaryNumericExpr K e x y = .ok (.constNumber (f x y), [])) ∧
      (¬ (x.Typ.IsIntegral = true ∧ y.Typ.IsIntegral = true) →
        evalConstBinaryNumericExpr K e x y = .ok
          (.invalid, [.ErrInvalidBinaryOperation e.pos]))) ∧
    (∀ r, ordering e.Op = some r →
      ((x.Typ.IsReal = true ∧ y.Typ.IsReal = true) →
        evalConstBinaryNumericExpr K e x y = .ok
          (.bool boolType (r x.Value.Re y.Value.Re), [])) ∧
      (¬ (x.Typ.IsReal = true ∧ y.Typ.IsReal = true) →
        evalConstBinaryNumericExpr K e x y = .ok
          (.invalid, [.ErrInvalidBinaryOperation e.pos]))) ∧
    (e.Op = .EQL → evalConstBinaryNumericExpr K e x y = .ok
      (.bool boolType (decide (x.Value.Re = y.Value.Re ∧ x.Value.Im = y.Value.Im)), [])) ∧
    (e.Op = .NEQ → evalConstBinaryNumericExpr K e x y = .ok
      (.bool boolType (!decide (x.Value.Re = y.Value.Re ∧ x.Value.Im = y.Value.Im)), [])) := by
  refine ⟨?_, ?_, ?_, ?_⟩
  · intro f hf hz
    unfold Kernel.integral at hf
    cases hop : e.Op <;> simp [hop] at hf hz <;> subst hf <;>
      constructor <;> intro h <;>
      simp_all [evalConstBinaryNumericExpr, constValueOfNumber, pure, Except.pure]
  · intro r hr
    unfold ordering at hr
    cases hop : e.Op <;> simp [hop] at hr <;> subst hr <;>
      constructor <;> intro h <;>
      simp_all [evalConstBinaryNumericExpr, constValueOfBool, pure, Except.pure,
        (ratCmp_spec _ _).1, (ratCmp_spec _ _).2.1, (ratCmp_spec _ _).2.2.1,
        (ratCmp_spec _ _).2.2.2]
  · intro hop
    simp [evalConstBinaryNumericExpr, hop, constValueOfBool, BigComplex.Equals, pure,
      Except.pure]
  · intro hop
    simp [evalConstBinaryNumericExpr, hop, constValueOfBool, BigComplex.Equals, pure,
      Except.pure]

/-- Witness of C18 at `6 & 1.5`, at `1 < 2` and at `1 == 2`. -/
theorem evalConstBinaryNumericExpr_table_witness :
    evalConstBinaryNumericExpr specKernel
        (BinaryExpr.unset 0 .AND (untypedInt 1 6) (untypedFloat 2 (3 / 2)))
        ⟨.ConstInt, ⟨6, 0⟩⟩ ⟨.ConstFloat, ⟨3 / 2, 0⟩⟩ = .ok
      (.invalid, [.ErrInvalidBinaryOperation 0]) ∧
    evalConstBinaryNumericExpr specKernel
        (BinaryExpr.unset 0 .LSS (untypedInt 1 1) (untypedInt 2 2))
        ⟨.ConstInt, ⟨1, 0⟩⟩ ⟨.ConstInt, ⟨2, 0⟩⟩ = .ok
      (.bool boolType (decide ((1 : ℚ) < 2)), []) ∧
    evalConstBinaryNumericExpr specKernel
        (BinaryExpr.unset 0 .EQL (untypedInt 1 1) (untypedInt 2 2))
        ⟨.ConstInt, ⟨1, 0⟩⟩ ⟨.ConstInt, ⟨2, 0⟩⟩ = .ok
      (.bool boolType (decide ((1 : ℚ) = 2 ∧ (0 : ℚ) = 0)), []) :=
  ⟨((evalConstBinaryNumericExpr_table specKernel
      (BinaryExpr.unset 0 .AND (untypedInt 1 6) (untypedFloat 2 (3 / 2)))
      ⟨.ConstInt, ⟨6, 0⟩⟩ ⟨.ConstFloat, ⟨3 / 2, 0⟩⟩).1 specKernel.And rfl
      (fun h => by simp [BinaryExpr.unset] at h)).2 (by simp [ConstType.IsIntegral]),
   ((evalConstBinaryNumericExpr_table specKernel
      (BinaryExpr.unset 0 .LSS (untypedInt 1 1) (untypedInt 2 2))
      ⟨.ConstInt, ⟨1, 0⟩⟩ ⟨.ConstInt, ⟨2, 0⟩⟩).2.1 _ rfl).1 ⟨rfl, rfl⟩,
   (evalConstBinaryNumericExpr_table specKernel
      (BinaryExpr.unset 0 .EQL (untypedInt 1 1) (untypedInt 2 2))
      ⟨.ConstInt, ⟨1, 0⟩⟩ ⟨.ConstInt, ⟨2, 0⟩⟩).2.2.1 rfl⟩

/-- The result of `setTypedResult` keeps the operator, the operands and the position. -/
theorem setTypedResult_ok (a b : BinaryExpr) (z : Value) (h : setTypedResult a z = .ok b) :
    ∃ t, z.Typ = .ok t ∧ b = { a with knownType := [.rtype t], constValue := z } := by
  unfold setTypedResult at h
  cases ht : z.Typ with
  | error m => simp [ht, bind, Except.bind] at h
  | ok t =>
    simp [ht, bind, Except.bind, pure, Except.pure] at h
    exact ⟨t, rfl, h.symm⟩

/-- What `checkBinaryExpr` returns, by the branch taken.  `base` is the node with
known type and constant value unset and `opErrs` the errors of the two operands. -/
theorem checkBinaryExpr_ok_cases {α : Type} (K : Kernel) (A : RType → RType → Bool)
    (CheckExpr : α → Expr × List Error) (binary : BinaryAst α)
    (node : BinaryExpr) (errs : List Error)
    (h : checkBinaryExpr K A CheckExpr binary = .ok (node, errs)) :
    (node = BinaryExpr.unset binary.pos binary.Op (CheckExpr binary.X).1 (CheckExpr binary.Y).1 ∧
      ∃ rest, errs = (CheckExpr binary.X).2 ++ (CheckExpr binary.Y).2 ++ rest) ∨
    (∃ promoted v es,
      evalConstUntypedBinaryExpr K
        (BinaryExpr.unset binary.pos binary.Op (CheckExpr binary.X).1 (CheckExpr binary.Y).1)
        promoted = .ok (v, es) ∧
      node = { pos := binary.pos, Op := binary.Op, X := (CheckExpr binary.X).1,
               Y := (CheckExpr binary.Y).1,
               knownType := [.const (if isBooleanOp binary.Op then .ConstBool else promoted)],
               constValue := v } ∧
      errs = (CheckExpr binary.X).2 ++ (CheckExpr binary.Y).2 ++ es) ∨
    (∃ z t, z.Typ = .ok t ∧
      node = { pos := binary.pos, Op := binary.Op, X := (CheckExpr binary.X).1,
               Y := (CheckExpr binary.Y).1, knownType := [.rtype t], constValue := z } ∧
      errs = (CheckExpr binary.X).2 ++ (CheckExpr binary.Y).2 ∧
      (evalConstTypedUntypedBinaryExpr K
          (BinaryExpr.unset binary.pos binary.Op (CheckExpr binary.X).1 (CheckExpr binary.Y).1)
          (CheckExpr binary.X).1 (CheckExpr binary.Y).1 true = .ok (z, []) ∨
       evalConstTypedUntypedBinaryExpr K
          (BinaryExpr.unset binary.pos binary.Op (CheckExpr binary.X).1 (CheckExpr binary.Y).1)
          (CheckExpr binary.Y).1 (CheckExpr binary.X).1 false = .ok (z, []) ∨
       evalConstTypedBinaryExpr K A
          (BinaryExpr.unset binary.pos binary.Op (CheckExpr binary.X).1 (CheckExpr binary.Y).1)
          (CheckExpr binary.X).1 (CheckExpr binary.Y).1 = .ok (z, []))) := by
  simp only [BinaryExpr.unset]
  unfold checkBinaryExpr at h
  simp only [bind, Except.bind, pure, Except.pure, List.nil_append] at h
  split at h
  · split at h
    · split at h
      · -- untyped and untyped
        rename_i xc yc _ _
        cases hp : promoteConsts xc yc (CheckExpr binary.X).1 (CheckExpr binary.Y).1
            (CheckExpr binary.X).1.Const (CheckExpr binary.Y).1.Const with
        | error m => simp [hp] at h
        | ok v =>
          obtain ⟨k, perrs⟩ := v
          simp only [hp] at h
          by_cases hpe : perrs = []
          · simp only [hpe, ne_eq, not_true_eq_false, if_false] at h
            cases k with
            | none => simp [throw, throwThe, MonadExceptOf.throw] at h
            | some promoted =>
              simp only at h
              have hcongr : ∀ kt, evalConstUntypedBinaryExpr K
                  { pos := binary.pos, Op := binary.Op, X := (CheckExpr binary.X).1,
                    Y := (CheckExpr binary.Y).1, knownType := kt, constValue := .invalid }
                  promoted = evalConstUntypedBinaryExpr K ({ pos := binary.pos, Op := binary.Op, X := (CheckExpr binary.X).1, Y := (CheckExpr binary.Y).1, knownType := [], constValue := .invalid } : BinaryExpr) promoted :=
                fun kt => evalConstUntypedBinaryExpr_congr K _ _ promoted rfl rfl rfl rfl
              by_cases hb : isBooleanOp binary.Op = true
              · simp only [if_pos hb] at h
                rw [hcongr] at h
                cases hev : evalConstUntypedBinaryExpr K ({ pos := binary.pos, Op := binary.Op, X := (CheckExpr binary.X).1, Y := (CheckExpr binary.Y).1, knownType := [], constValue := .invalid } : BinaryExpr) promoted with
                | error m => simp [hev] at h
                | ok r =>
                  obtain ⟨v, es⟩ := r
                  simp only [hev, Except.ok.injEq, Prod.mk.injEq] at h
                  exact Or.inr (Or.inl ⟨promoted, v, es, hev, by rw [if_pos hb]; exact h.1.symm,
                    h.2.symm⟩)
              · simp only [if_neg hb] at h
                rw [hcongr] at h
                cases hev : evalConstUntypedBinaryExpr K ({ pos := binary.pos, Op := binary.Op, X := (CheckExpr binary.X).1, Y := (CheckExpr binary.Y).1, knownType := [], constValue := .invalid } : BinaryExpr) promoted with
                | error m => simp [hev] at h
                | ok r =>
                  obtain ⟨v, es⟩ := r
                  simp only [hev, Except.ok.injEq, Prod.mk.injEq] at h
                  exact Or.inr (Or.inl ⟨promoted, v, es, hev, by rw [if_neg hb]; exact h.1.symm,
                    h.2.symm⟩)
          · simp only [ne_eq, hpe, not_false_eq_true, if_true, Except.ok.injEq,
              Prod.mk.injEq] at h
            exact Or.inl ⟨h.1.symm, perrs ++ [.ErrInvalidBinaryOperation binary.pos],
              by rw [← h.2]; simp⟩
      · cases hres : evalConstTypedUntypedBinaryExpr K ({ pos := binary.pos, Op := binary.Op, X := (CheckExpr binary.X).1, Y := (CheckExpr binary.Y).1, knownType := [], constValue := .invalid } : BinaryExpr) (CheckExpr binary.X).1 (CheckExpr binary.Y).1 true with
        | error m => simp [hres] at h
        | ok v =>
          obtain ⟨z, more⟩ := v
          simp only [hres] at h
          by_cases hm : more = []
          · subst hm
            simp only [ne_eq, not_true_eq_false, if_false] at h
            cases hs : setTypedResult ({ pos := binary.pos, Op := binary.Op, X := (CheckExpr binary.X).1, Y := (CheckExpr binary.Y).1, knownType := [], constValue := .invalid } : BinaryExpr) z with
            | error m => simp [hs] at h
            | ok a =>
              simp only [hs, Except.ok.injEq, Prod.mk.injEq] at h
              obtain ⟨t, ht, ha⟩ := setTypedResult_ok _ a z hs
              exact Or.inr (Or.inr ⟨z, t, ht, by rw [← h.1, ha], h.2.symm, Or.inl rfl⟩)
          · simp only [ne_eq, hm, not_false_eq_true, if_true, Except.ok.injEq,
              Prod.mk.injEq] at h
            exact Or.inl ⟨h.1.symm, more, h.2.symm⟩
      · cases hres : evalConstTypedUntypedBinaryExpr K ({ pos := binary.pos, Op := binary.Op, X := (CheckExpr binary.X).1, Y := (CheckExpr binary.Y).1, knownType := [], constValue := .invalid } : BinaryExpr) (CheckExpr binary.Y).1 (CheckExpr binary.X).1 false with
        | error m => simp [hres] at h
        | ok v =>
          obtain ⟨z, more⟩ := v
          simp only [hres] at h
          by_cases hm : more = []
          · subst hm
            simp only [ne_eq, not_true_eq_false, if_false] at h
            cases hs : setTypedResult ({ pos := binary.pos, Op := binary.Op, X := (CheckExpr binary.X).1, Y := (CheckExpr binary.Y).1, knownType := [], constValue := .invalid } : BinaryExpr) z with
            | error m => simp [hs] at h
            | ok a =>
              simp only [hs, Except.ok.injEq, Prod.mk.injEq] at h
              obtain ⟨t, ht, ha⟩ := setTypedResult_ok _ a z hs
              exact Or.inr (Or.inr ⟨z, t, ht, by rw [← h.1, ha], h.2.symm, Or.inr (Or.inl rfl)⟩)
          · simp only [ne_eq, hm, not_false_eq_true, if_true, Except.ok.injEq,
              Prod.mk.injEq] at h
            exact Or.inl ⟨h.1.symm, more, h.2.symm⟩
      · cases hres : evalConstTypedBinaryExpr K A ({ pos := binary.pos, Op := binary.Op, X := (CheckExpr binary.X).1, Y := (CheckExpr binary.Y).1, knownType := [], constValue := .invalid } : BinaryExpr) (CheckExpr binary.X).1 (CheckExpr binary.Y).1 with
        | error m => simp [hres] at h
        | ok v =>
          obtain ⟨z, more⟩ := v
          simp only [hres] at h
          by_cases hm : more = []
          · subst hm
            simp only [ne_eq, not_true_eq_false, if_false] at h
            cases hs : setTypedResult ({ pos := binary.pos, Op := binary.Op, X := (CheckExpr binary.X).1, Y := (CheckExpr binary.Y).1, knownType := [], constValue := .invalid } : BinaryExpr) z with
            | error m => simp [hs] at h
            | ok a =>
              simp only [hs, Except.ok.injEq, Prod.mk.injEq] at h
              obtain ⟨t, ht, ha⟩ := setTypedResult_ok _ a z hs
              exact Or.inr (Or.inr ⟨z, t, ht, by rw [← h.1, ha], h.2.symm, Or.inr (Or.inr rfl)⟩)
          · simp only [ne_eq, hm, not_false_eq_true, if_true, Except.ok.injEq,
              Prod.mk.injEq] at h
            exact Or.inl ⟨h.1.symm, more, h.2.symm⟩
    · simp only [Except.ok.injEq, Prod.mk.injEq] at h
      exact Or.inl ⟨h.1.symm, [], by rw [← h.2]; simp⟩
  · simp only [Except.ok.injEq, Prod.mk.injEq] at h
    exact Or.inl ⟨h.1.symm, [], by rw [← h.2]; simp⟩

/-- The numeric evaluation returns a bool for a boolean operator and a number for any
other operator when it reports no error, and the zero `constValue` when it reports one. -/
theorem evalConstBinaryNumericExpr_result (K : Kernel) (e : BinaryExpr) (x y : ConstNumber)
    (v : Value) (es : List Error) (h : evalConstBinaryNumericExpr K e x y = .ok (v, es)) :
    (es = [] → (isBooleanOp e.Op = true ∧ ∃ b, v = .bool boolType b) ∨
      (isBooleanOp e.Op = false ∧ ∃ n, v = .constNumber n)) ∧
    (es ≠ [] → v = .invalid) := by
  unfold evalConstBinaryNumericExpr at h
  cases hop : e.Op <;> simp only [hop, pure, Except.pure] at h <;>
    (repeat' split at h) <;>
    simp only [Except.ok.injEq, Prod.mk.injEq, reduceCtorEq] at h <;>
    (try (obtain ⟨rfl, rfl⟩ := h)) <;>
    simp [isBooleanOp, constValueOfNumber, constValueOfBool]

/-- The string evaluation: the same. -/
theorem evalConstBinaryStringExpr_result (e : BinaryExpr) (x y : String)
    (v : Value) (es : List Error) (h : evalConstBinaryStringExpr e x y = (v, es)) :
    (es = [] → (isBooleanOp e.Op = true ∧ ∃ b, v = .bool boolType b) ∨
      (isBooleanOp e.Op = false ∧ ∃ s, v = .str stringType s)) ∧
    (es ≠ [] → v = .invalid) := by
  unfold evalConstBinaryStringExpr at h
  cases hop : e.Op <;> simp only [hop, Prod.mk.injEq] at h <;>
    obtain ⟨rfl, rfl⟩ := h <;>
    simp [isBooleanOp, constValueOfString, constValueOfBool, em]

/-- The bool evaluation: a bool when it reports no error. -/
theorem evalConstBinaryBoolExpr_result (e : BinaryExpr) (x y : Bool)
    (v : Value) (es : List Error) (h : evalConstBinaryBoolExpr e x y = (v, es)) :
    (es = [] → ∃ b, v = .bool boolType b) ∧ (es ≠ [] → v = .invalid) := by
  unfold evalConstBinaryBoolExpr at h
  cases hop : e.Op <;> simp only [hop, Prod.mk.injEq] at h <;>
    obtain ⟨rfl, rfl⟩ := h <;>
    simp [constValueOfBool]

/-- The untyped evaluation returns a value consistent with the known type the checker
sets when it reports no error, and the zero `constValue` when it reports one. -/
theorem evalConstUntypedBinaryExpr_result (K : Kernel) (e : BinaryExpr) (p : ConstType)
    (v : Value) (es : List Error) (h : evalConstUntypedBinaryExpr K e p = .ok (v, es)) :
    (es = [] → represents v (.const (if isBooleanOp e.Op then .ConstBool else p)) = true) ∧
    (es ≠ [] → v = .invalid) := by
  unfold evalConstUntypedBinaryExpr at h
  cases p <;> simp only [bind, Except.bind, pure, Except.pure] at h
  case ConstString =>
    simp only [Except.ok.injEq] at h
    obtain ⟨h1, h2⟩ := evalConstBinaryStringExpr_result e _ _ v es h
    refine ⟨fun he => ?_, h2⟩
    rcases h1 he with ⟨hb, b, rfl⟩ | ⟨hb, s, rfl⟩ <;> simp [hb, represents]
  case ConstBool =>
    cases hx : e.X.Const.Bool with
    | error m => simp [hx] at h
    | ok a =>
      cases hy : e.Y.Const.Bool with
      | error m => simp [hx, hy] at h
      | ok b =>
        simp only [hx, hy, Except.ok.injEq] at h
        obtain ⟨h1, h2⟩ := evalConstBinaryBoolExpr_result e _ _ v es h
        refine ⟨fun he => ?_, h2⟩
        obtain ⟨b, rfl⟩ := h1 he
        cases hb : isBooleanOp e.Op <;> simp [represents]
  case ConstNil =>
    simp only [Except.ok.injEq, Prod.mk.injEq] at h
    obtain ⟨rfl, rfl⟩ := h
    simp
  all_goals
    cases hx : e.X.Const.asConstNumber with
    | error m => simp [hx] at h
    | ok a =>
      cases hy : e.Y.Const.asConstNumber with
      | error m => simp [hx, hy] at h
      | ok b =>
        simp only [hx, hy] at h
        obtain ⟨h1, h2⟩ := evalConstBinaryNumericExpr_result K e _ _ v es h
        refine ⟨fun he => ?_, h2⟩
        rcases h1 he with ⟨hb, b, rfl⟩ | ⟨hb, n, rfl⟩ <;> simp [hb, represents]

/-- The integer part of an integer is that integer. -/
theorem truncRat_intCast (i : Int) : truncRat (i : ℚ) = i := by
  unfold truncRat
  split <;> simp

/-- With a typed left operand and an untyped right operand, both constant,
`checkBinaryExpr` evaluates with `reversed = true`. -/
theorem checkBinaryExpr_typed_left {α : Type} (K : Kernel) (A : RType → RType → Bool)
    (CheckExpr : α → Expr × List Error) (binary : BinaryAst α) (yt : RType) (xt : ConstType)
    (hx : (CheckExpr binary.X).1.KnownType = [.rtype yt])
    (hy : (CheckExpr binary.Y).1.KnownType = [.const xt])
    (hxc : (CheckExpr binary.X).1.IsConst = true)
    (hyc : (CheckExpr binary.Y).1.IsConst = true) :
    checkBinaryExpr K A CheckExpr binary =
      typedFinish
        (BinaryExpr.unset binary.pos binary.Op (CheckExpr binary.X).1 (CheckExpr binary.Y).1)
        ((CheckExpr binary.X).2 ++ (CheckExpr binary.Y).2)
        (evalConstTypedUntypedBinaryExpr K
          (BinaryExpr.unset binary.pos binary.Op (CheckExpr binary.X).1 (CheckExpr binary.Y).1)
          (CheckExpr binary.X).1 (CheckExpr binary.Y).1 true) := by
  unfold checkBinaryExpr typedFinish
  simp only [hx, hy, hxc, hyc, bind, Except.bind, pure, Except.pure, Bool.and_self, if_true,
    List.nil_append, BinaryExpr.unset]
  cases evalConstTypedUntypedBinaryExpr K _ (CheckExpr binary.X).1 (CheckExpr binary.Y).1 true with
  | error m => rfl
  | ok v =>
    obtain ⟨z, more⟩ := v
    simp only
    split
    · rfl
    · cases setTypedResult _ z <;> rfl

/-- With an untyped left operand and a typed right operand, both constant,
`checkBinaryExpr` evaluates with `reversed = false`. -/
theorem checkBinaryExpr_typed_right {α : Type} (K : Kernel) (A : RType → RType → Bool)
    (CheckExpr : α → Expr × List Error) (binary : BinaryAst α) (yt : RType) (xt : ConstType)
    (hx : (CheckExpr binary.X).1.KnownType = [.const xt])
    (hy : (CheckExpr binary.Y).1.KnownType = [.rtype yt])
    (hxc : (CheckExpr binary.X).1.IsConst = true)
    (hyc : (CheckExpr binary.Y).1.IsConst = true) :
    checkBinaryExpr K A CheckExpr binary =
      typedFinish
        (BinaryExpr.unset binary.pos binary.Op (CheckExpr binary.X).1 (CheckExpr binary.Y).1)
        ((CheckExpr binary.X).2 ++ (CheckExpr binary.Y).2)
        (evalConstTypedUntypedBinaryExpr K
          (BinaryExpr.unset binary.pos binary.Op (CheckExpr binary.X).1 (CheckExpr binary.Y).1)
          (CheckExpr binary.Y).1 (CheckExpr binary.X).1 false) := by
  unfold checkBinaryExpr typedFinish
  simp only [hx, hy, hxc, hyc, bind, Except.bind, pure, Except.pure, Bool.and_self, if_true,
    List.nil_append, BinaryExpr.unset]
  cases evalConstTypedUntypedBinaryExpr K _ (CheckExpr binary.Y).1 (CheckExpr binary.X).1 false with
  | error m => rfl
  | ok v =>
    obtain ⟨z, more⟩ := v
    simp only
    split
    · rfl
    · cases setTypedResult _ z <;> rfl

/-- The typed-by-untyped evaluation of a numeric operation that is not boolean: the
operands are passed to the numeric evaluation in source order and its result is narrowed
to the type of the typed operand. -/
theorem evalConstTypedUntypedBinaryExpr_numeric (K : Kernel) (b : BinaryExpr)
    (typedExpr untypedExpr : Expr) (reversed : Bool) (xt : ConstType) (yt : RType)
    (x : Value) (xConvErrs : List Error) (t nu z : ConstNumber)
    (hxt : firstConstType untypedExpr = .ok xt) (hnum : xt.isNumeric = true)
    (hyt : firstConcreteType typedExpr = .ok yt)
    (hconv : convertConstToTyped K xt untypedExpr.Const yt untypedExpr.pos = .ok (x, xConvErrs))
    (hnu : convertTypedToConstNumber x = some nu)
    (ht : convertTypedToConstNumber typedExpr.Const = some t)
    (hdef : isOpDefinedOn b.Op yt = true) (hbool : isBooleanOp b.Op = false)
    (hev : evalConstBinaryNumericExpr K b (if reversed then t else nu)
      (if reversed then nu else t) = .ok (.constNumber z, [])) :
    evalConstTypedUntypedBinaryExpr K b typedExpr untypedExpr reversed =
      (convertConstToTyped K z.Typ (.constNumber z) yt b.pos).map
        (fun r => (r.1, xConvErrs ++ r.2)) := by
  unfold evalConstTypedUntypedBinaryExpr
  simp only [hxt, hyt, hconv, hdef, bind, Except.bind, pure, Except.pure, Bool.not_true,
    Bool.false_eq_true, if_false]
  cases xt <;> simp [ConstType.isNumeric] at hnum <;>
    cases reversed <;>
    simp only [hnu, ht, Option.isNone_some, Bool.false_eq_true, if_false, if_true,
      pure, Except.pure] at hev ⊢ <;>
    simp only [hev, hbool, ne_eq, not_true_eq_false, if_false, Bool.false_eq_true,
      Value.asConstNumber, pure, Except.pure, bind, Except.bind, List.append_nil] <;>
    cases convertConstToTyped K z.Typ (.constNumber z) yt b.pos <;> rfl

/-- The integer part of 1/2 is 0. -/
theorem truncRat_half : truncRat (1 / 2) = 0 := by
  have h : ⌊(1 / 2 : ℚ)⌋ = 0 := by rw [Int.floor_eq_iff]; norm_num
  have h0 : (0 : ℚ) ≤ 1 / 2 := by norm_num
  simp only [truncRat, h0, if_true, h]

set_option maxRecDepth 8192 in
/-- C12. For a typed numeric constant and an untyped numeric constant the operator is
applied in source order whichever side is typed.  With the typed operand on the left
`checkBinaryExpr` evaluates with `reversed = true`, with the typed operand on the right
with `reversed = false`.  In `evalConstTypedUntypedBinaryExpr`, for an operator that is
defined on the type and is not boolean, with `t` the number of the typed operand and
`nu` the number of the untyped operand converted to the type of the typed one, the
numeric evaluation is applied to `(t, nu)` when `reversed` is true and to `(nu, t)` when
it is false, and its result is narrowed to the type of the typed operand, the errors
being those of the conversion of the untyped operand followed by those of the narrowing.
With the kernel of the specification `int(5) - 3` is `int(2)`, `3 - int(5)` is
`int(-2)`, `6 / int(3)` is `int(2)`, and `int(3) / 6` narrows the exact result 1/2
with a truncation error. -/
theorem checkBinaryExpr_source_order {α : Type} (K : Kernel) (A : RType → RType → Bool)
    (CheckExpr : α → Expr × List Error) (binary : BinaryAst α) (yt : RType) (xt : ConstType)
    (hxc : (CheckExpr binary.X).1.IsConst = true)
    (hyc : (CheckExpr binary.Y).1.IsConst = true) :
    ((CheckExpr binary.X).1.KnownType = [.rtype yt] →
      (CheckExpr binary.Y).1.KnownType = [.const xt] →
      checkBinaryExpr K A CheckExpr binary =
        typedFinish
          (BinaryExpr.unset binary.pos binary.Op (CheckExpr binary.X).1 (CheckExpr binary.Y).1)
          ((CheckExpr binary.X).2 ++ (CheckExpr binary.Y).2)
          (evalConstTypedUntypedBinaryExpr K
            (BinaryExpr.unset binary.pos binary.Op (CheckExpr binary.X).1 (CheckExpr binary.Y).1)
            (CheckExpr binary.X).1 (CheckExpr binary.Y).1 true)) ∧
    ((CheckExpr binary.X).1.KnownType = [.const xt] →
      (CheckExpr binary.Y).1.KnownType = [.rtype yt] →
      checkBinaryExpr K A CheckExpr binary =
        typedFinish
          (BinaryExpr.unset binary.pos binary.Op (CheckExpr binary.X).1 (CheckExpr binary.Y).1)
          ((CheckExpr binary.X).2 ++ (CheckExpr binary.Y).2)
          (evalConstTypedUntypedBinaryExpr K
            (BinaryExpr.unset binary.pos binary.Op (CheckExpr binary.X).1 (CheckExpr binary.Y).1)
            (CheckExpr binary.Y).1 (CheckExpr binary.X).1 false)) ∧
    (∀ (b : BinaryExpr) (typedExpr untypedExpr : Expr) (reversed : Bool) (x : Value)
        (xConvErrs : List Error) (t nu z : ConstNumber),
      firstConstType untypedExpr = .ok xt → xt.isNumeric = true →
      firstConcreteType typedExpr = .ok yt →
      convertConstToTyped K xt untypedExpr.Const yt untypedExpr.pos = .ok (x, xConvErrs) →
      convertTypedToConstNumber x = some nu →
      convertTypedToConstNumber typedExpr.Const = some t →
      isOpDefinedOn b.Op yt = true → isBooleanOp b.Op = false →
      evalConstBinaryNumericExpr K b (if reversed then t else nu)
        (if reversed then nu else t) = .ok (.constNumber z, []) →
      evalConstTypedUntypedBinaryExpr K b typedExpr untypedExpr reversed =
        (convertConstToTyped K z.Typ (.constNumber z) yt b.pos).map
          (fun r => (r.1, xConvErrs ++ r.2))) ∧
    checkBinaryExpr specKernel sameType checkedOperand
        ⟨0, .SUB, typedInt 1 intType 5, untypedInt 2 3⟩ = .ok
      ({ pos := 0, Op := .SUB, X := typedInt 1 intType 5, Y := untypedInt 2 3,
         knownType := [.rtype intType], constValue := .int intType 2 }, []) ∧
    checkBinaryExpr specKernel sameType checkedOperand
        ⟨0, .SUB, untypedInt 1 3, typedInt 2 intType 5⟩ = .ok
      ({ pos := 0, Op := .SUB, X := untypedInt 1 3, Y := typedInt 2 intType 5,
         knownType := [.rtype intType], constValue := .int intType (-2) }, []) ∧
    checkBinaryExpr specKernel sameType checkedOperand
        ⟨0, .QUO, untypedInt 1 6, typedInt 2 intType 3⟩ = .ok
      ({ pos := 0, Op := .QUO, X := untypedInt 1 6, Y := typedInt 2 intType 3,
         knownType := [.rtype intType], constValue := .int intType 2 }, []) ∧
    checkBinaryExpr specKernel sameType checkedOperand
        ⟨0, .QUO, typedInt 1 intType 3, untypedInt 2 6⟩ = .ok
      (BinaryExpr.unset 0 .QUO (typedInt 1 intType 3) (untypedInt 2 6),
       [.ErrTruncatedConstant 0 .ConstInt ⟨.ConstInt, ⟨1 / 2, 0⟩⟩]) := by
  refine ⟨fun hx hy => checkBinaryExpr_typed_left K A CheckExpr binary yt xt hx hy hxc hyc,
    fun hx hy => checkBinaryExpr_typed_right K A CheckExpr binary yt xt hx hy hxc hyc,
    fun b typedExpr untypedExpr reversed x xConvErrs t nu z h1 h2 h3 h4 h5 h6 h7 h8 h9 =>
      evalConstTypedUntypedBinaryExpr_numeric K b typedExpr untypedExpr reversed xt yt x
        xConvErrs t nu z h1 h2 h3 h4 h5 h6 h7 h8 h9, ?_⟩
  have hsub : isOpDefinedOn .SUB ⟨"int", .Int⟩ = true := rfl
  have hquo : isOpDefinedOn .QUO ⟨"int", .Int⟩ = true := rfl
  have h3 : truncRat 3 = 3 := by simpa using truncRat_intCast 3
  have h5 : truncRat 5 = 5 := by simpa using truncRat_intCast 5
  have h6 : truncRat 6 = 6 := by simpa using truncRat_intCast 6
  have h2 : truncRat 2 = 2 := by simpa using truncRat_intCast 2
  have hm2 : truncRat (-2) = -2 := by simpa using truncRat_intCast (-2)
  have e1 : (5 - 3 : ℚ) = 2 := by norm_num
  have e2 : (3 - 5 : ℚ) = -2 := by norm_num
  have e3 : (6 * 3 / (3 * 3) : ℚ) = 2 := by norm_num
  have e4 : (3 * 6 / (6 * 6) : ℚ) = 2⁻¹ := by norm_num
  have hhalf : truncRat 2⁻¹ = 0 := by simpa using truncRat_half
  refine ⟨?_, ?_, ?_, ?_⟩
  · simp [checkBinaryExpr, checkedOperand, typedInt, untypedInt,
      evalConstTypedUntypedBinaryExpr, firstConstType, firstConcreteType, convertConstToTyped,
      Value.asConstNumber, Value.zeroOf, Value.SetInt, intType, RType.Bits, intSize, specKernel,
      h3, h5, h2, e1, wrapInt, hsub, convertTypedToConstNumber, evalConstBinaryNumericExpr,
      constValueOfNumber, isBooleanOp, higherKind, setTypedResult, Value.Typ,
      bind, Except.bind, pure, Except.pure]
  · simp [checkBinaryExpr, checkedOperand, typedInt, untypedInt,
      evalConstTypedUntypedBinaryExpr, firstConstType, firstConcreteType, convertConstToTyped,
      Value.asConstNumber, Value.zeroOf, Value.SetInt, intType, RType.Bits, intSize, specKernel,
      h3, h5, hm2, e2, wrapInt, hsub, convertTypedToConstNumber, evalConstBinaryNumericExpr,
      constValueOfNumber, isBooleanOp, higherKind, setTypedResult, Value.Typ,
      bind, Except.bind, pure, Except.pure]
  · simp [checkBinaryExpr, checkedOperand, typedInt, untypedInt,
      evalConstTypedUntypedBinaryExpr, firstConstType, firstConcreteType, convertConstToTyped,
      Value.asConstNumber, Value.zeroOf, Value.SetInt, intType, RType.Bits, intSize, specKernel,
      h3, h6, h2, e3, wrapInt, hquo, convertTypedToConstNumber, evalConstBinaryNumericExpr,
      constValueOfNumber, isBooleanOp, higherKind, setTypedResult, Value.Typ, BigComplex.IsZero,
      bind, Except.bind, pure, Except.pure]
  · simp [checkBinaryExpr, checkedOperand, typedInt, untypedInt,
      evalConstTypedUntypedBinaryExpr, firstConstType, firstConcreteType, convertConstToTyped,
      Value.asConstNumber, Value.zeroOf, Value.SetInt, intType, RType.Bits, intSize, specKernel,
      h3, h6, wrapInt, hquo, convertTypedToConstNumber,
      evalConstBinaryNumericExpr, constValueOfNumber, isBooleanOp, higherKind, setTypedResult,
      Value.Typ, BigComplex.IsZero, BinaryExpr.unset, bind, Except.bind, pure, Except.pure]
    simp only [e4, hhalf]
    norm_num


/-- Witness of C12 at `int(5) - 3`. -/
theorem checkBinaryExpr_source_order_witness :
    checkBinaryExpr specKernel sameType checkedOperand
        ⟨0, .SUB, typedInt 1 intType 5, untypedInt 2 3⟩ =
      typedFinish (BinaryExpr.unset 0 .SUB (typedInt 1 intType 5) (untypedInt 2 3)) ([] ++ [])
        (evalConstTypedUntypedBinaryExpr specKernel
          (BinaryExpr.unset 0 .SUB (typedInt 1 intType 5) (untypedInt 2 3))
          (typedInt 1 intType 5) (untypedInt 2 3) true) :=
  (checkBinaryExpr_source_order specKernel sameType checkedOperand
    ⟨0, .SUB, typedInt 1 intType 5, untypedInt 2 3⟩ intType .ConstInt rfl rfl).1 rfl rfl

/-- C19. `checkBinaryExpr` checks both operands: the node it returns holds the two checked
operands, and the errors it returns begin with those of the left operand followed by
those of the right operand.  When the known-type sequence of an operand does not have
length 1, or an operand is not constant, it returns exactly these errors and the node
with known type and constant value unset. -/
theorem checkBinaryExpr_operand_errors {α : Type} (K : Kernel) (A : RType → RType → Bool)
    (CheckExpr : α → Expr × List Error) (binary : BinaryAst α) :
    (∀ node errs, checkBinaryExpr K A CheckExpr binary = .ok (node, errs) →
      node.X = (CheckExpr binary.X).1 ∧ node.Y = (CheckExpr binary.Y).1 ∧
      ∃ rest, errs = (CheckExpr binary.X).2 ++ (CheckExpr binary.Y).2 ++ rest) ∧
    (((CheckExpr binary.X).1.KnownType.length ≠ 1 ∨ (CheckExpr binary.Y).1.KnownType.length ≠ 1 ∨
        (CheckExpr binary.X).1.IsConst = false ∨ (CheckExpr binary.Y).1.IsConst = false) →
      checkBinaryExpr K A CheckExpr binary = .ok
        (BinaryExpr.unset binary.pos binary.Op (CheckExpr binary.X).1 (CheckExpr binary.Y).1,
         (CheckExpr binary.X).2 ++ (CheckExpr binary.Y).2)) := by
  constructor
  · intro node errs h
    rcases checkBinaryExpr_ok_cases K A CheckExpr binary node errs h with
      ⟨hn, rest, he⟩ | ⟨p, v, es, _, hn, he⟩ | ⟨z, t, _, hn, he, _⟩
    · subst hn; exact ⟨rfl, rfl, rest, he⟩
    · subst hn; exact ⟨rfl, rfl, es, he⟩
    · subst hn; exact ⟨rfl, rfl, [], by simp [he]⟩
  · intro hcond
    unfold checkBinaryExpr
    simp only [bind, Except.bind, pure, Except.pure, List.nil_append, BinaryExpr.unset]
    split
    · rename_i xt yt hx hy
      simp only [hx, hy, List.length_singleton, ne_eq, not_true_eq_false, false_or] at hcond
      have hc : ((CheckExpr binary.X).1.IsConst && (CheckExpr binary.Y).1.IsConst) = false := by
        rcases hcond with h | h <;> simp [h]
      simp [hc]
    · rfl

/-- Witness of C19 at an operand with no known type. -/
theorem checkBinaryExpr_operand_errors_witness :
    checkBinaryExpr specKernel sameType checkedOperand
        ⟨0, .ADD, { pos := 1, KnownType := [], IsConst := true, Const := .invalid },
          untypedInt 2 1⟩ = .ok
      (BinaryExpr.unset 0 .ADD { pos := 1, KnownType := [], IsConst := true, Const := .invalid }
        (untypedInt 2 1), [] ++ []) :=
  (checkBinaryExpr_operand_errors specKernel sameType checkedOperand
    ⟨0, .ADD, { pos := 1, KnownType := [], IsConst := true, Const := .invalid },
      untypedInt 2 1⟩).2 (Or.inl (by decide))

/-- C20, counterexample.  For untyped `1 / 0`, `checkBinaryExpr` returns the node with
known type `[Int]` and the zero `constValue`, which is not a constant number, together
with the error `ErrDivideByZero`. -/
theorem checkBinaryExpr_knownType_counterexample :
    checkBinaryExpr specKernel sameType checkedOperand
        ⟨0, .QUO, untypedInt 1 1, untypedInt 2 0⟩ = .ok
      ({ pos := 0, Op := .QUO, X := untypedInt 1 1, Y := untypedInt 2 0,
         knownType := [.const .ConstInt], constValue := .invalid },
       [.ErrDivideByZero 2]) ∧
    represents .invalid (.const .ConstInt) = false := by
  constructor
  · simp [checkBinaryExpr, checkedOperand, untypedInt, promoteConsts, promoteConstNumbers,
      isBooleanOp, evalConstUntypedBinaryExpr, evalConstBinaryNumericExpr, Value.asConstNumber,
      BigComplex.IsZero, bind, Except.bind, pure, Except.pure]
  · rfl

/-- C20, amended.  After `checkBinaryExpr` returns with the known type of the node set,
the known type is a single type.  If no error was added to those of the operands, the
constant value is consistent with it: a `*ConstNumber` for a numeric constant kind, a
string for String, a bool for Bool, and for a concrete type a value of exactly that
type.  If errors were added, the known type is an untyped constant kind, set before
the evaluation, and the constant value is the zero `constValue`. -/
theorem checkBinaryExpr_value_consistent {α : Type} (K : Kernel) (A : RType → RType → Bool)
    (CheckExpr : α → Expr × List Error) (binary : BinaryAst α)
    (node : BinaryExpr) (errs : List Error)
    (h : checkBinaryExpr K A CheckExpr binary = .ok (node, errs))
    (hset : node.knownType ≠ []) :
    ∃ kt, node.knownType = [kt] ∧
      (errs = (CheckExpr binary.X).2 ++ (CheckExpr binary.Y).2 →
        represents node.constValue kt = true) ∧
      (errs ≠ (CheckExpr binary.X).2 ++ (CheckExpr binary.Y).2 →
        (∃ c, kt = .const c) ∧ node.constValue = .invalid) := by
  rcases checkBinaryExpr_ok_cases K A CheckExpr binary node errs h with
    ⟨hn, rest, he⟩ | ⟨p, v, es, hev, hn, he⟩ | ⟨z, t, ht, hn, he, _⟩
  · subst hn; simp [BinaryExpr.unset] at hset
  · subst hn
    obtain ⟨h1, h2⟩ := evalConstUntypedBinaryExpr_result K _ p v es hev
    refine ⟨_, rfl, fun hz => ?_, fun hz => ⟨⟨_, rfl⟩, ?_⟩⟩
    · have hes : es = [] := by
        rw [he] at hz
        exact List.append_right_eq_self.mp hz
      simpa [BinaryExpr.unset] using h1 hes
    · apply h2
      rintro rfl
      exact hz (by simp [he])
  · subst hn
    refine ⟨_, rfl, fun _ => ?_, fun hz => absurd he hz⟩
    simp [represents, ht]

/-- Witness of the amended C20 at untyped `1 < 2`. -/
theorem checkBinaryExpr_value_consistent_witness :
    ∃ kt, [KType.const .ConstBool] = [kt] ∧
      (([] : List Error) = [] ++ [] →
        represents (.bool boolType true) kt = true) ∧
      (([] : List Error) ≠ [] ++ [] →
        (∃ c, kt = .const c) ∧ Value.bool boolType true = .invalid) :=
  checkBinaryExpr_value_consistent specKernel sameType checkedOperand
    ⟨0, .LSS, untypedInt 1 1, untypedInt 2 2⟩
    { pos := 0, Op := .LSS, X := untypedInt 1 1, Y := untypedInt 2 2,
      knownType := [.const .ConstBool], constValue := .bool boolType true } []
    (by
      simp [checkBinaryExpr, checkedOperand, untypedInt, promoteConsts, promoteConstNumbers,
        isBooleanOp, evalConstUntypedBinaryExpr, evalConstBinaryNumericExpr,
        Value.asConstNumber, constValueOfBool, ConstType.IsReal, ratCmp, bind, Except.bind,
        pure, Except.pure])
    (by simp)

/-- C21, evaluated.  On their error paths `builtinLen`, `builtinAppend` and `builtinNew`
return `reflect.ValueOf(nil)`, the zero Value, which is not valid: so for `len(5)`,
`append(5, t)`, `append` of a string to a slice whose element type does not take it,
and `new(5)`.  `builtinCap` returns the valid zero of `int` on its error path. -/
theorem builtin_error_values :
    (∀ (R : Reflect) (i : Int) (zt : Bool),
      builtinLen R (valueOfInt i) zt = .ok
        (.simple .invalid, false, some (.ErrBadBuiltinArgument "len" (valueOfInt i)))) ∧
    (∀ (R : Reflect) (i : Int) (t : RValue) (st tt : Bool),
      builtinAppend R (valueOfInt i) t st tt = .ok
        (.simple .invalid, true, some (.appendNotSlice intType))) ∧
    (∀ (R : Reflect) (elems : List RValue) (cap : Nat) (s : String) (st tt : Bool),
      builtinAppend { R with AssignableTo := fun _ _ => false }
          (.coll ⟨"[]int", .Slice⟩ elems cap) (.simple (.str stringType s)) st tt =
        .ok (.simple .invalid, false,
          some (.appendCannotUse stringType (R.Elem ⟨"[]int", .Slice⟩)))) ∧
    (∀ (R : Reflect) (i : Int) (bt : Bool),
      builtinNew R (valueOfInt i) bt = .ok (.simple .invalid, false, some .newNotAType)) ∧
    RValue.IsValid (.simple .invalid) = false ∧
    (∀ (R : Reflect) (i : Int) (vt : Bool),
      builtinCap R (valueOfInt i) vt = .ok
        (valueOfInt 0, false, some (.capInvalidArgument (valueOfInt i) intType)) ∧
      (valueOfInt 0).IsValid = true) := by
  refine ⟨?_, ?_, ?_, ?_, rfl, ?_⟩
  · intro R i zt; rfl
  · intro R i t st tt; rfl
  · intro R elems cap s st tt; rfl
  · intro R i bt; rfl
  · intro R i vt; exact ⟨rfl, rfl⟩

/-- C22. `evalIdentExpr` resolves a name by the first match in the order: the name
"nil", the variables, the constants, the functions, the builtin functions, the packages.
For "nil" it returns no value, `typed` false and no error, whatever the environment
holds.  For a variable it returns the element of the cell with `typed` true, whatever
the other maps hold; for a constant the value with `typed` false; for a function the
value with `typed` true; for a builtin function its value with `typed` false; for a
package its value with `typed` true; and for a name found nowhere no value, `typed`
false and the error "name undefined". -/
theorem evalIdentExpr_order {V P : Type} (Elem : V → Panics V) (valueOfFunc : Builtin → V)
    (valueOfPkg : P → V) (name : String) (env : Env V P) :
    (name = "nil" →
      evalIdentExpr Elem valueOfFunc valueOfPkg name env = .ok (none, false, none)) ∧
    (name ≠ "nil" →
      (∀ v e, env.Vars name = some v → Elem v = .ok e →
        evalIdentExpr Elem valueOfFunc valueOfPkg name env = .ok (some e, true, none)) ∧
      (env.Vars name = none →
        (∀ v, env.Consts name = some v →
          evalIdentExpr Elem valueOfFunc valueOfPkg name env = .ok (some v, false, none)) ∧
        (env.Consts name = none →
          (∀ v, env.Funcs name = some v →
            evalIdentExpr Elem valueOfFunc valueOfPkg name env = .ok (some v, true, none)) ∧
          (env.Funcs name = none →
            (∀ b, builtinFuncs name = some b →
              evalIdentExpr Elem valueOfFunc valueOfPkg name env =
                .ok (some (valueOfFunc b), false, none)) ∧
            (builtinFuncs name = none →
              (∀ p, env.Pkgs name = some p →
                evalIdentExpr Elem valueOfFunc valueOfPkg name env =
                  .ok (some (valueOfPkg p), true, none)) ∧
              (env.Pkgs name = none →
                evalIdentExpr Elem valueOfFunc valueOfPkg name env =
                  .ok (none, false, some (name ++ " undefined")))))))) := by
  refine ⟨fun h => by simp [evalIdentExpr, h, pure, Except.pure], fun hn => ⟨?_, fun hv => ⟨?_,
    fun hc => ⟨?_, fun hf => ⟨?_, fun hb => ⟨?_, fun hp => ?_⟩⟩⟩⟩⟩⟩
  · intro v e h1 h2
    simp [evalIdentExpr, hn, h1, h2, bind, Except.bind, pure, Except.pure]
  · intro v h1
    simp [evalIdentExpr, hn, hv, h1, pure, Except.pure]
  · intro v h1
    simp [evalIdentExpr, hn, hv, hc, h1, pure, Except.pure]
  · intro b h1
    simp [evalIdentExpr, hn, hv, hc, hf, h1, pure, Except.pure]
  · intro p h1
    simp [evalIdentExpr, hn, hv, hc, hf, hb, h1, pure, Except.pure]
  · simp [evalIdentExpr, hn, hv, hc, hf, hb, hp, pure, Except.pure]

/-- Witness of C22: "nil" and the variable `len` in an environment where every name is
bound in every map, and `len` and `y` in the empty environment. -/
theorem evalIdentExpr_order_witness :
    evalIdentExpr cellElem RValue.func valueOfPkgName "nil" crowdedEnv =
      .ok (none, false, none) ∧
    evalIdentExpr cellElem RValue.func valueOfPkgName "len" crowdedEnv =
      .ok (some (valueOfInt 5), true, none) ∧
    evalIdentExpr cellElem RValue.func valueOfPkgName "len" emptyEnv =
      .ok (some (.func .len), false, none) ∧
    evalIdentExpr cellElem RValue.func valueOfPkgName "y" emptyEnv =
      .ok (none, false, some ("y" ++ " undefined")) :=
  ⟨(evalIdentExpr_order cellElem RValue.func valueOfPkgName "nil" crowdedEnv).1 rfl,
   ((evalIdentExpr_order cellElem RValue.func valueOfPkgName "len" crowdedEnv).2
      (by decide)).1 _ _ rfl rfl,
   (((((evalIdentExpr_order cellElem RValue.func valueOfPkgName "len" emptyEnv).2
      (by decide)).2 rfl).2 rfl).2 rfl).1 _ (by decide),
   ((((((evalIdentExpr_order cellElem RValue.func valueOfPkgName "y" emptyEnv).2
      (by decide)).2 rfl).2 rfl).2 rfl).2 (by decide)).2 rfl⟩

/-- With two typed constant operands `checkBinaryExpr` evaluates with
`evalConstTypedBinaryExpr`. -/
theorem checkBinaryExpr_typed_typed {α : Type} (K : Kernel) (A : RType → RType → Bool)
    (CheckExpr : α → Expr × List Error) (binary : BinaryAst α) (xt yt : RType)
    (hx : (CheckExpr binary.X).1.KnownType = [.rtype xt])
    (hy : (CheckExpr binary.Y).1.KnownType = [.rtype yt])
    (hxc : (CheckExpr binary.X).1.IsConst = true)
    (hyc : (CheckExpr binary.Y).1.IsConst = true) :
    checkBinaryExpr K A CheckExpr binary =
      typedFinish
        (BinaryExpr.unset binary.pos binary.Op (CheckExpr binary.X).1 (CheckExpr binary.Y).1)
        ((CheckExpr binary.X).2 ++ (CheckExpr binary.Y).2)
        (evalConstTypedBinaryExpr K A
          (BinaryExpr.unset binary.pos binary.Op (CheckExpr binary.X).1 (CheckExpr binary.Y).1)
          (CheckExpr binary.X).1 (CheckExpr binary.Y).1) := by
  unfold checkBinaryExpr typedFinish
  simp only [hx, hy, hxc, hyc, bind, Except.bind, pure, Except.pure, Bool.and_self, if_true,
    List.nil_append, BinaryExpr.unset]
  cases evalConstTypedBinaryExpr K A _ (CheckExpr binary.X).1 (CheckExpr binary.Y).1 with
  | error m => rfl
  | ok v =>
    obtain ⟨z, more⟩ := v
    simp only
    split
    · rfl
    · cases setTypedResult _ z <;> rfl

/-- What `typedFinish` returns for an evaluation that returned `(z, more)`. -/
theorem typedFinish_ok (aexpr : BinaryExpr) (errs more : List Error) (z : Value) :
    (more ≠ [] → typedFinish aexpr errs (.ok (z, more)) = .ok (aexpr, errs ++ more)) ∧
    (∀ t, more = [] → z.Typ = .ok t →
      typedFinish aexpr errs (.ok (z, more)) = .ok
        ({ aexpr with knownType := [.rtype t], constValue := z }, errs)) := by
  constructor
  · intro h
    simp [typedFinish, h]
  · intro t h ht
    simp [typedFinish, h, setTypedResult, ht, bind, Except.bind, pure, Except.pure]

/-- A typed-by-untyped evaluation that returns no error returns a valid value. -/
theorem evalConstTypedUntypedBinaryExpr_valid (K : Kernel) (b : BinaryExpr)
    (typedExpr untypedExpr : Expr) (reversed : Bool) (z : Value)
    (h : evalConstTypedUntypedBinaryExpr K b typedExpr untypedExpr reversed = .ok (z, [])) :
    ∃ t, z.Typ = .ok t := by
  unfold evalConstTypedUntypedBinaryExpr at h
  simp only [bind, Except.bind, pure, Except.pure] at h
  repeat' split at h
  all_goals
    (try simp only [Except.ok.injEq, Prod.mk.injEq, List.append_eq_nil, List.cons_ne_nil,
      and_false, reduceCtorEq] at h)
  all_goals first
    | (obtain ⟨rfl, -⟩ := h; exact ⟨_, rfl⟩)
    | (obtain ⟨rfl, -⟩ := h
       exact ⟨_, convertConstToTyped_type K _ _ _ _ _ _ (by assumption)⟩)

/-- A typed-by-typed evaluation that returns no error returns a valid value. -/
theorem evalConstTypedBinaryExpr_valid (K : Kernel) (A : RType → RType → Bool)
    (b : BinaryExpr) (xexpr yexpr : Expr) (z : Value)
    (h : evalConstTypedBinaryExpr K A b xexpr yexpr = .ok (z, [])) :
    ∃ t, z.Typ = .ok t := by
  unfold evalConstTypedBinaryExpr at h
  simp only [bind, Except.bind, pure, Except.pure] at h
  repeat' split at h
  all_goals
    (try simp only [Except.ok.injEq, Prod.mk.injEq, List.append_eq_nil, List.cons_ne_nil,
      and_false, reduceCtorEq, throw, throwThe, MonadExceptOf.throw] at h)
  all_goals
    obtain ⟨rfl, -⟩ := h
    exact ⟨_, convertConstToTyped_type K _ _ _ _ _ _ (by assumption)⟩

/-- The outcome of `typedFinish` for an evaluation whose results without errors are valid. -/
theorem typedFinish_outcome (aexpr : BinaryExpr) (errs more : List Error) (z : Value)
    (hvalid : more = [] → ∃ t, z.Typ = .ok t) :
    typedOutcome (typedFinish aexpr errs (.ok (z, more))) aexpr errs z more := by
  refine ⟨(typedFinish_ok aexpr errs more z).1, fun h => ?_⟩
  obtain ⟨t, ht⟩ := hvalid h
  exact ⟨t, ht, (typedFinish_ok aexpr errs more z).2 t h ht⟩

set_option maxRecDepth 8192 in
/-- C23. In the typed-by-untyped path, with the typed operand on either side, and in the
typed-by-typed path, for an evaluation that returns the value `z` and the errors `more`:
if `more` is not empty, `checkBinaryExpr` returns the node with known type and constant
value unset and the errors of the operands followed by `more`; if `more` is empty, `z`
has a type and `checkBinaryExpr` returns the node with that type as its single known
type and `z` as its constant value, with the errors of the operands.  So the value
narrowing returns with an error is dropped: `int8(100) + 100` returns the overflow error
and `int(7) / 2` the truncation error, each with the node unset, while `int(1) + int(2)`
returns the node with known type `[int]` and the constant 3. -/
theorem checkBinaryExpr_typed_outcome {α : Type} (K : Kernel) (A : RType → RType → Bool)
    (CheckExpr : α → Expr × List Error) (binary : BinaryAst α)
    (hxc : (CheckExpr binary.X).1.IsConst = true)
    (hyc : (CheckExpr binary.Y).1.IsConst = true) :
    (∀ (t : RType) (c : ConstType) (z : Value) (more : List Error),
      (CheckExpr binary.X).1.KnownType = [.rtype t] →
      (CheckExpr binary.Y).1.KnownType = [.const c] →
      evalConstTypedUntypedBinaryExpr K
        (BinaryExpr.unset binary.pos binary.Op (CheckExpr binary.X).1 (CheckExpr binary.Y).1)
        (CheckExpr binary.X).1 (CheckExpr binary.Y).1 true = .ok (z, more) →
      typedOutcome (checkBinaryExpr K A CheckExpr binary)
        (BinaryExpr.unset binary.pos binary.Op (CheckExpr binary.X).1 (CheckExpr binary.Y).1)
        ((CheckExpr binary.X).2 ++ (CheckExpr binary.Y).2) z more) ∧
    (∀ (t : RType) (c : ConstType) (z : Value) (more : List Error),
      (CheckExpr binary.X).1.KnownType = [.const c] →
      (CheckExpr binary.Y).1.KnownType = [.rtype t] →
      evalConstTypedUntypedBinaryExpr K
        (BinaryExpr.unset binary.pos binary.Op (CheckExpr binary.X).1 (CheckExpr binary.Y).1)
        (CheckExpr binary.Y).1 (CheckExpr binary.X).1 false = .ok (z, more) →
      typedOutcome (checkBinaryExpr K A CheckExpr binary)
        (BinaryExpr.unset binary.pos binary.Op (CheckExpr binary.X).1 (CheckExpr binary.Y).1)
        ((CheckExpr binary.X).2 ++ (CheckExpr binary.Y).2) z more) ∧
    (∀ (xt yt : RType) (z : Value) (more : List Error),
      (CheckExpr binary.X).1.KnownType = [.rtype xt] →
      (CheckExpr binary.Y).1.KnownType = [.rtype yt] →
      evalConstTypedBinaryExpr K A
        (BinaryExpr.unset binary.pos binary.Op (CheckExpr binary.X).1 (CheckExpr binary.Y).1)
        (CheckExpr binary.X).1 (CheckExpr binary.Y).1 = .ok (z, more) →
      typedOutcome (checkBinaryExpr K A CheckExpr binary)
        (BinaryExpr.unset binary.pos binary.Op (CheckExpr binary.X).1 (CheckExpr binary.Y).1)
        ((CheckExpr binary.X).2 ++ (CheckExpr binary.Y).2) z more) ∧
    checkBinaryExpr specKernel sameType checkedOperand
        ⟨0, .ADD, typedInt 1 int8Type 100, untypedInt 2 100⟩ = .ok
      (BinaryExpr.unset 0 .ADD (typedInt 1 int8Type 100) (untypedInt 2 100),
       [.ErrOverflowedConstant 0 .ConstInt int8Type ⟨200, 0⟩]) ∧
    checkBinaryExpr specKernel sameType checkedOperand
        ⟨0, .QUO, typedInt 1 intType 7, untypedInt 2 2⟩ = .ok
      (BinaryExpr.unset 0 .QUO (typedInt 1 intType 7) (untypedInt 2 2),
       [.ErrTruncatedConstant 0 .ConstInt ⟨.ConstInt, ⟨7 / 2, 0⟩⟩]) ∧
    checkBinaryExpr specKernel sameType checkedOperand
        ⟨0, .ADD, typedInt 1 intType 1, typedInt 2 intType 2⟩ = .ok
      ({ pos := 0, Op := .ADD, X := typedInt 1 intType 1, Y := typedInt 2 intType 2,
         knownType := [.rtype intType], constValue := .int intType 3 }, []) := by
  have hadd8 : isOpDefinedOn .ADD ⟨"int8", .Int8⟩ = true := rfl
  have hquo : isOpDefinedOn .QUO ⟨"int", .Int⟩ = true := rfl
  have h100 : truncRat 100 = 100 := by simpa using truncRat_intCast 100
  have h200 : truncRat 200 = 200 := by simpa using truncRat_intCast 200
  have h2 : truncRat 2 = 2 := by simpa using truncRat_intCast 2
  have h3 : truncRat 3 = 3 := by simpa using truncRat_intCast 3
  have e1 : (100 + 100 : ℚ) = 200 := by norm_num
  have e2 : (7 * 2 / (2 * 2) : ℚ) = 7 / 2 := by norm_num
  have e3 : (1 + 2 : ℚ) = 3 := by norm_num
  have h72 : truncRat (7 / 2) = 3 := by
    have h : ⌊(7 / 2 : ℚ)⌋ = 3 := by rw [Int.floor_eq_iff]; norm_num
    have h0 : (0 : ℚ) ≤ 7 / 2 := by norm_num
    simp only [truncRat, h0, if_true, h]
  refine ⟨?_, ?_, ?_, ?_, ?_, ?_⟩
  · intro t c z more hx hy hev
    rw [checkBinaryExpr_typed_left K A CheckExpr binary t c hx hy hxc hyc, hev]
    exact typedFinish_outcome _ _ _ _
      (fun h => evalConstTypedUntypedBinaryExpr_valid K _ _ _ _ z (h ▸ hev))
  · intro t c z more hx hy hev
    rw [checkBinaryExpr_typed_right K A CheckExpr binary t c hx hy hxc hyc, hev]
    exact typedFinish_outcome _ _ _ _
      (fun h => evalConstTypedUntypedBinaryExpr_valid K _ _ _ _ z (h ▸ hev))
  · intro xt yt z more hx hy hev
    rw [checkBinaryExpr_typed_typed K A CheckExpr binary xt yt hx hy hxc hyc, hev]
    exact typedFinish_outcome _ _ _ _
      (fun h => evalConstTypedBinaryExpr_valid K A _ _ _ z (h ▸ hev))
  · simp [checkBinaryExpr, checkedOperand, typedInt, untypedInt,
      evalConstTypedUntypedBinaryExpr, firstConstType, firstConcreteType, convertConstToTyped,
      Value.asConstNumber, Value.zeroOf, Value.SetInt, int8Type, RType.Bits, specKernel,
      h100, h200, e1, wrapInt, hadd8, convertTypedToConstNumber, evalConstBinaryNumericExpr,
      constValueOfNumber, isBooleanOp, higherKind, setTypedResult, Value.Typ, BinaryExpr.unset,
      bind, Except.bind, pure, Except.pure]
  · simp [checkBinaryExpr, checkedOperand, typedInt, untypedInt,
      evalConstTypedUntypedBinaryExpr, firstConstType, firstConcreteType, convertConstToTyped,
      Value.asConstNumber, Value.zeroOf, Value.SetInt, intType, RType.Bits, intSize, specKernel,
      h2, wrapInt, hquo, convertTypedToConstNumber,
      evalConstBinaryNumericExpr, constValueOfNumber, isBooleanOp, higherKind, setTypedResult,
      Value.Typ, BigComplex.IsZero, BinaryExpr.unset, bind, Except.bind, pure, Except.pure]
    simp only [e2, h72]
    norm_num
  · simp [checkBinaryExpr, checkedOperand, typedInt, evalConstTypedBinaryExpr,
      firstConcreteType, sameType, convertTypedToConstNumber, evalConstBinaryNumericExpr,
      constValueOfNumber, Value.asConstNumber, convertConstToTyped, Value.zeroOf, Value.SetInt,
      intType, RType.Bits, intSize, specKernel, higherKind, e3, h3, wrapInt, setTypedResult,
      Value.Typ, bind, Except.bind, pure, Except.pure]

/-- Witness of C23 at `int(1) + int(2)`, which evaluates without errors. -/
theorem checkBinaryExpr_typed_outcome_witness :
    typedOutcome
      (checkBinaryExpr specKernel sameType checkedOperand
        ⟨0, .ADD, typedInt 1 intType 1, typedInt 2 intType 2⟩)
      (BinaryExpr.unset 0 .ADD (typedInt 1 intType 1) (typedInt 2 intType 2))
      ([] ++ []) (.int intType 3) [] :=
  (checkBinaryExpr_typed_outcome specKernel sameType checkedOperand
    ⟨0, .ADD, typedInt 1 intType 1, typedInt 2 intType 2⟩ rfl rfl).2.2.1
    intType intType (.int intType 3) [] rfl rfl
    (by
      have e3 : (1 + 2 : ℚ) = 3 := by norm_num
      have h3 : truncRat 3 = 3 := by simpa using truncRat_intCast 3
      simp [checkedOperand, typedInt, evalConstTypedBinaryExpr, firstConcreteType, sameType,
        convertTypedToConstNumber, evalConstBinaryNumericExpr, constValueOfNumber,
        Value.asConstNumber, convertConstToTyped, Value.zeroOf, Value.SetInt, intType,
        RType.Bits, intSize, specKernel, higherKind, e3, h3, wrapInt, BinaryExpr.unset,
        bind, Except.bind, pure, Except.pure])

end Eval
